import Mathlib

/-! # libinfinity: the session synchronization engine (`inf-session.c`)

A shallow embedding of `libinfinity/common/inf-session.c`.  The private data
of a session becomes the record `InfSession`; every C function becomes a Lean
function of the same name that takes the session and returns the session it
leaves behind.  Calls into the connection manager, reference counting, signal
connections and signal emissions are appended to the field `log` in the order
in which the source performs them.  A failed `g_assert`, a read through an
uninitialised or `NULL` pointer and a call through a pointer that was read out
of an object taken for a class end the run with a `Fault`; a failed
`g_return_if_fail` returns from the function at once, as GLib does.

Machine integers are natural numbers reduced modulo `2^32` (`guint`) or
`2^64` (`unsigned long`) at the places where the source can wrap; the code of
a `GError`, a `gint`, is an integer.
-/

namespace Infinity

/-! ## libc -/

/-- The number of values of a `guint` (32 bits). -/
def GUINT_MOD : Nat := 4294967296

/-- The largest `unsigned long` (64 bits, LP64). -/
def ULONG_MAX : Nat := 18446744073709551615

/-- The C library's `isspace` in the "C" locale. -/
def isspace (c : Char) : Bool :=
  c = ' ' || c = '\t' || c = '\n' || c = '\x0b' || c = '\x0c' || c = '\r'

/-- The value of a character as a digit of `strtoul`, whatever the base. -/
def digit_value (c : Char) : Option Nat :=
  if 48 ≤ c.toNat ∧ c.toNat ≤ 57 then some (c.toNat - 48)
  else if 97 ≤ c.toNat ∧ c.toNat ≤ 122 then some (c.toNat - 97 + 10)
  else if 65 ≤ c.toNat ∧ c.toNat ≤ 90 then some (c.toNat - 65 + 10)
  else none

/-- The longest run of digits of `base` at the head of the text, read as a
number (not yet limited to the range of `unsigned long`). -/
def strtoul_digits (base : Nat) : List Char → Nat → Nat
  | [], acc => acc
  | c :: cs, acc =>
    match digit_value c with
    | some d => if d < base then strtoul_digits base cs (acc * base + d) else acc
    | none => acc

/-- Whether the text starts with `0x` or `0X`. -/
def starts_with_0x : List Char → Bool
  | c :: d :: _ => c = '0' && (d = 'x' || d = 'X')
  | _ => false

/-- The digits of `strtoul` after white space and sign: the base is chosen
from the first characters when `base` is 0 (`0x` hexadecimal, `0` octal,
decimal otherwise), and `0x` is skipped when the base is 16. -/
def strtoul_unsigned (cs : List Char) (base : Nat) : Nat :=
  if (base = 0 ∨ base = 16) ∧ starts_with_0x cs = true then
    strtoul_digits 16 (cs.drop 2) 0
  else if base = 0 then
    if cs.head? = some '0' then strtoul_digits 8 cs 0 else strtoul_digits 10 cs 0
  else strtoul_digits base cs 0

/-- The value of `strtoul` after the leading white space: an optional sign,
then the digits; a value out of range gives `ULONG_MAX`, a minus sign negates
in `unsigned long`. -/
def strtoul_signed (cs : List Char) (base : Nat) : Nat :=
  let negative : Bool := cs.head? = some '-'
  let rest := if cs.head? = some '-' ∨ cs.head? = some '+' then cs.tail else cs
  let v := strtoul_unsigned rest base
  if v > ULONG_MAX then ULONG_MAX
  else if negative = true then (ULONG_MAX + 1 - v) % (ULONG_MAX + 1)
  else v

/-- The C library's `strtoul(nptr, NULL, base)`. -/
def strtoul (nptr : String) (base : Nat) : Nat :=
  strtoul_signed (nptr.data.dropWhile isspace) base

/-- The text written by `sprintf(buf, "%u", (unsigned int)n)`. -/
def sprintf_u (n : Nat) : String :=
  Nat.repr (n % GUINT_MOD)

/-! ## libxml2 -/

/-- An XML element: its tag and its attributes in document order.  The
children of the collecting node of `inf_session_synchronize_to` are kept as a
list of nodes. -/
structure xmlNode where
  name : String
  properties : List (String × String)
  deriving DecidableEq, Repr

/-- The function `xmlNewNode(NULL, name)`. -/
def xmlNewNode (name : String) : xmlNode :=
  { name := name, properties := [] }

/-- The call `xmlNewNode(NULL, NULL)`: libxml2 makes no node without a name
and returns `NULL`, here `none`.  A node that only collects children would be
the list of its children. -/
def xmlNewNode_NULL : Option (List xmlNode) := none

/-- The function `xmlNewProp(node, name, value)`: a new attribute at the end. -/
def xmlNewProp (node : xmlNode) (name value : String) : xmlNode :=
  { node with properties := node.properties ++ [(name, value)] }

/-- The function `xmlGetProp(node, name)`: the value of the first attribute
of that name, `none` for `NULL`. -/
def xmlGetProp (node : xmlNode) (name : String) : Option String :=
  match node.properties.find? (fun p => p.1 = name) with
  | some p => some p.2
  | none => none

/-! ## GLib -/

/-- The fundamental types the source initialises a `GValue` with. -/
inductive GType where
  | G_TYPE_INT
  | G_TYPE_UINT
  | G_TYPE_STRING
  deriving DecidableEq, Repr

/-- A `GValue`: `unset` is zeroed storage, the other cases carry the type the
value was initialised with and its content. -/
inductive GValue where
  | unset
  | int (v : Int)
  | uint (v : Nat)
  | string (v : Option String)
  deriving DecidableEq, Repr

/-- GLib's `g_value_init`: zeroed storage takes the type and its default
content; a value that is already initialised is left as it is (GLib warns). -/
def g_value_init (value : GValue) (g_type : GType) : GValue :=
  match value with
  | .unset =>
    match g_type with
    | .G_TYPE_INT => .int 0
    | .G_TYPE_UINT => .uint 0
    | .G_TYPE_STRING => .string none
  | v => v

/-- GLib's `g_value_set_uint`, which starts with
`g_return_if_fail(G_VALUE_HOLDS_UINT(value))`. -/
def g_value_set_uint (value : GValue) (v_uint : Nat) : GValue :=
  match value with
  | .uint _ => .uint (v_uint % GUINT_MOD)
  | v => v

/-- GLib's `g_value_get_uint`, which starts with
`g_return_val_if_fail(G_VALUE_HOLDS_UINT(value), 0)`. -/
def g_value_get_uint (value : GValue) : Nat :=
  match value with
  | .uint v => v
  | _ => 0

/-- GLib's `g_value_set_string`, which starts with
`g_return_if_fail(G_VALUE_HOLDS_STRING(value))`. -/
def g_value_set_string (value : GValue) (v_string : String) : GValue :=
  match value with
  | .string _ => .string (some v_string)
  | v => v

/-- GLib's `g_value_get_string`, which starts with
`g_return_val_if_fail(G_VALUE_HOLDS_STRING(value), NULL)`. -/
def g_value_get_string (value : GValue) : Option String :=
  match value with
  | .string v => v
  | _ => none

/-- A `GParameter`: a property name and its value. -/
structure GParameter where
  name : String
  value : GValue
  deriving DecidableEq, Repr

/-- The `gint` an unsigned 32-bit value converts to: the value itself below
2^31, the value minus 2^32 from 2^31 on. -/
def gint_of_guint (n : Nat) : Int :=
  if n % GUINT_MOD < 2147483648 then ((n % GUINT_MOD : Nat) : Int)
  else ((n % GUINT_MOD : Nat) : Int) - 4294967296

/-- The cast `(unsigned int)code` of a `gint`. -/
def guint_of_gint (code : Int) : Nat :=
  (code % 4294967296).toNat

/-- A `GError`: the domain (the string of its quark), the code, which is a
`gint`, and the message. -/
structure GError where
  domain : String
  code : Int
  message : String
  deriving DecidableEq, Repr

/-- GLib's `g_hash_table_lookup` on a table with direct keys, kept as the
list of its entries in iteration order. -/
def g_hash_table_lookup {α : Type} (table : List (Nat × α)) (key : Nat) : Option α :=
  match table.find? (fun e => e.1 = key) with
  | some e => some e.2
  | none => none

/-- GLib's `g_hash_table_find`: the first value, in iteration order, that the
predicate accepts. -/
def g_hash_table_find {α : Type} (table : List (Nat × α)) (predicate : Nat → α → Bool) :
    Option α :=
  match table.find? (fun e => predicate e.1 e.2) with
  | some e => some e.2
  | none => none

/-! ## The data model of a session -/

/-- A connection, an `InfXmlConnection*`: the identity of the object. -/
abbrev InfXmlConnection := Nat

/-- Modelled from the spec: the status of an XML connection, declared in
`inf-xml-connection.h`, which is not among the sources ("carries a status
property transitioning through Open, Closing, Closed"). -/
inductive InfXmlConnectionStatus where
  | INF_XML_CONNECTION_CLOSED
  | INF_XML_CONNECTION_CLOSING
  | INF_XML_CONNECTION_OPEN
  | INF_XML_CONNECTION_OPENING
  deriving DecidableEq, Repr

/-- The status of a session (`InfSessionStatus`). -/
inductive InfSessionStatus where
  | INF_SESSION_SYNCHRONIZING
  | INF_SESSION_RUNNING
  | INF_SESSION_CLOSED
  deriving DecidableEq, Repr

/-- The answer of `inf_session_get_synchronization_status`. -/
inductive InfSessionSyncStatus where
  | INF_SESSION_SYNC_NONE
  | INF_SESSION_SYNC_IN_PROGRESS
  | INF_SESSION_SYNC_END_ENQUEUED
  deriving DecidableEq, Repr

/-- Modelled from the spec: the enumeration `InfSessionSyncError` is declared
in `inf-session.h`, which is not among the sources.  Its members are the
error kinds of the spec's taxonomy, in the order of the `switch` of
`inf_session_sync_strerror`. -/
inductive InfSessionSyncError where
  | UNEXPECTED_NODE
  | ID_NOT_PRESENT
  | ID_IN_USE
  | NAME_NOT_PRESENT
  | NAME_IN_USE
  | CONNECTION_CLOSED
  | SENDER_CANCELLED
  | RECEIVER_CANCELLED
  | UNEXPECTED_BEGIN_OF_SYNC
  | NUM_MESSAGES_MISSING
  | UNEXPECTED_END_OF_SYNC
  | EXPECTED_BEGIN_OF_SYNC
  | EXPECTED_END_OF_SYNC
  | FAILED
  deriving DecidableEq, Repr

/-- The integer of an enumerator: its position in the declaration. -/
def InfSessionSyncError.code : InfSessionSyncError → Nat
  | .UNEXPECTED_NODE => 0
  | .ID_NOT_PRESENT => 1
  | .ID_IN_USE => 2
  | .NAME_NOT_PRESENT => 3
  | .NAME_IN_USE => 4
  | .CONNECTION_CLOSED => 5
  | .SENDER_CANCELLED => 6
  | .RECEIVER_CANCELLED => 7
  | .UNEXPECTED_BEGIN_OF_SYNC => 8
  | .NUM_MESSAGES_MISSING => 9
  | .UNEXPECTED_END_OF_SYNC => 10
  | .EXPECTED_BEGIN_OF_SYNC => 11
  | .EXPECTED_END_OF_SYNC => 12
  | .FAILED => 13

/-- Modelled from the spec: a user (`InfUser`, defined in `inf-user.c`, which
is not among the sources) has an unsigned id and a name; `obj` is the identity
of the object, which the source compares as a pointer. -/
structure InfUser where
  obj : Nat
  id : Nat
  name : String
  deriving DecidableEq, Repr

/-- Modelled from the spec: `inf_user_get_id` of `inf-user.c`. -/
def inf_user_get_id (user : InfUser) : Nat := user.id

/-- Modelled from the spec: `inf_user_get_name` of `inf-user.c`. -/
def inf_user_get_name (user : InfUser) : String := user.name

/-- The record of one outbound synchronization (`struct _InfSessionSync`). -/
structure InfSessionSync where
  conn : InfXmlConnection
  messages_total : Nat
  messages_sent : Nat
  end_enqueued : Bool
  deriving DecidableEq, Repr

/-- The union `shared` of `struct _InfSessionPrivate`: the member that was
written last. -/
inductive InfSessionShared where
  | sync (conn : Option InfXmlConnection) (messages_total : Nat)
      (messages_received : Nat) (identifier : Option String)
  | run (syncs : List InfSessionSync)
  deriving DecidableEq, Repr

/-- What a session does to the world around it, in the order of the source:
calls into the connection manager, reference counts and signal connections of
GObject, emitted signals and property notifications. -/
inductive Effect where
  | add_object (connection : InfXmlConnection) (identifier : String)
  | remove_object (connection : InfXmlConnection)
  | send (connection : InfXmlConnection) (xml : xmlNode)
  | send_multiple (connection : InfXmlConnection) (xml : List xmlNode)
  | cancel_outer (connection : InfXmlConnection)
  | object_ref (object : Nat)
  | object_unref (object : Nat)
  | signal_connect (connection : InfXmlConnection)
  | signal_disconnect (connection : InfXmlConnection)
  | emit_add_user (user : InfUser)
  | emit_remove_user (user : InfUser)
  | emit_synchronization_progress (connection : InfXmlConnection) (numerator : Nat)
      (denominator : Nat)
  | emit_synchronization_complete (connection : InfXmlConnection)
  | emit_synchronization_failed (connection : InfXmlConnection) (error : GError)
  | notify_status
  deriving DecidableEq, Repr

/-- How a run of the source ends when it does not return. -/
inductive Fault where
  | assertion_failed
  | uninitialised_pointer
  | inactive_union_member
  | loop_bound
  | null_pointer
  | invalid_class_cast
  deriving DecidableEq, Repr

/-- A session: the fields of `struct _InfSessionPrivate`, the registrations
the connection manager holds for this session, and the log of effects.

The progress ratio of `synchronization-progress` is kept as the two integers
the source converts to `double` and divides. -/
structure InfSession where
  manager : Option Nat
  buffer : Option Nat
  status : InfSessionStatus
  user_table : List (Nat × InfUser)
  shared : InfSessionShared
  objects : List InfXmlConnection
  log : List Effect
  deriving DecidableEq, Repr

/-- The user-related virtual functions of `InfSessionClass`. -/
structure InfSessionUserClass where
  get_xml_user_props : Option (InfSession → InfXmlConnection → xmlNode → List GParameter)
  validate_user_props :
    Option (InfSession → List GParameter → Option InfUser →
      Except Fault (Bool × Option GError))
  user_to_xml : Option (InfSession → InfUser → xmlNode → xmlNode)
  user_new : Option (InfSession → List GParameter → InfUser)

/-- The class of a session, `InfSessionClass`: the virtual functions a
subclass may override.  A function of the upper part receives the user-related
part of the class of the object it is called on, to dispatch through it.  The
slots `close`, `add_user`, `remove_user` and `synchronization_*` are taken at
the values `inf_session_class_init` gives them. -/
structure InfSessionClass extends InfSessionUserClass where
  to_xml_sync : Option (InfSessionUserClass → InfSession → List xmlNode → List xmlNode)
  process_xml_sync :
    Option (InfSessionUserClass → InfSession → InfXmlConnection → xmlNode →
      Except Fault (InfSession × Bool × Option GError))
  process_xml_run :
    Option (InfSessionUserClass → InfSession → InfXmlConnection → xmlNode →
      Except Fault InfSession)

/-! ## The connection manager and GObject, as far as the session sees them -/

/-- Appends one effect to the log. -/
def InfSession.record (session : InfSession) (e : Effect) : InfSession :=
  { session with log := session.log ++ [e] }

/-- Modelled from the spec: `inf_connection_manager_has_object` of
`inf-connection-manager.c`, which is not among the sources (the manager
"tracks registered objects by identifier"). -/
def inf_connection_manager_has_object (session : InfSession)
    (connection : InfXmlConnection) : Bool :=
  decide (connection ∈ session.objects)

/-- Modelled from the spec: `inf_connection_manager_add_object`. -/
def inf_connection_manager_add_object (session : InfSession)
    (connection : InfXmlConnection) (identifier : String) : InfSession :=
  { session with
    objects := connection :: session.objects
    log := session.log ++ [Effect.add_object connection identifier] }

/-- Modelled from the spec: `inf_connection_manager_remove_object`. -/
def inf_connection_manager_remove_object (session : InfSession)
    (connection : InfXmlConnection) : InfSession :=
  { session with
    objects := session.objects.filter (fun c => c ≠ connection)
    log := session.log ++ [Effect.remove_object connection] }

/-- Modelled from the spec: `inf_connection_manager_send`. -/
def inf_connection_manager_send (session : InfSession)
    (connection : InfXmlConnection) (xml : xmlNode) : InfSession :=
  session.record (Effect.send connection xml)

/-- Modelled from the spec: `inf_connection_manager_send_multiple`, the
batch-send primitive. -/
def inf_connection_manager_send_multiple (session : InfSession)
    (connection : InfXmlConnection) (xml : List xmlNode) : InfSession :=
  session.record (Effect.send_multiple connection xml)

/-- Modelled from the spec: `inf_connection_manager_cancel_outer`. -/
def inf_connection_manager_cancel_outer (session : InfSession)
    (connection : InfXmlConnection) : InfSession :=
  session.record (Effect.cancel_outer connection)

/-- The error `g_set_error` stores. -/
def g_set_error (domain : String) (code : Int) (message : String) : GError :=
  { domain := domain, code := code, message := message }

/-- GObject's `g_object_ref`. -/
def g_object_ref (session : InfSession) (object : Nat) : InfSession :=
  session.record (Effect.object_ref object)

/-- GObject's `g_object_unref`. -/
def g_object_unref (session : InfSession) (object : Nat) : InfSession :=
  session.record (Effect.object_unref object)

/-- GLib's `g_hash_table_insert` on the user table, which `inf_session_init`
creates with `g_object_unref` as the function that destroys a value: a new key
gets a new entry; the value of an existing key is replaced and the reference
to the old value is dropped. -/
def g_hash_table_insert (session : InfSession) (key : Nat) (value : InfUser) : InfSession :=
  match g_hash_table_lookup session.user_table key with
  | some old =>
    g_object_unref
      { session with
        user_table := session.user_table.map (fun e => if e.1 = key then (key, value) else e) }
      old.obj
  | none => { session with user_table := session.user_table ++ [(key, value)] }

/-- GLib's `g_hash_table_remove` on the user table: the entry of the key is
removed and the reference to its value is dropped (`g_object_unref` is the
function the table destroys a value with). -/
def g_hash_table_remove (session : InfSession) (key : Nat) : InfSession :=
  match g_hash_table_lookup session.user_table key with
  | some value =>
    g_object_unref
      { session with user_table := session.user_table.filter (fun e => e.1 ≠ key) }
      value.obj
  | none => session

/-- GLib's `g_hash_table_remove_all` on the user table: every entry is
removed and the reference to every value is dropped. -/
def g_hash_table_remove_all (session : InfSession) : InfSession :=
  { session with
    user_table := []
    log := session.log ++ session.user_table.map (fun e => Effect.object_unref e.2.obj) }

/-- The call `g_signal_connect_after(connection, "notify::status",
inf_session_connection_notify_status_cb, session)`. -/
def g_signal_connect_after (session : InfSession) (connection : InfXmlConnection) :
    InfSession :=
  session.record (Effect.signal_connect connection)

/-- The call `g_signal_handlers_disconnect_by_func(connection,
inf_session_connection_notify_status_cb, session)`. -/
def g_signal_handlers_disconnect_by_func (session : InfSession)
    (connection : InfXmlConnection) : InfSession :=
  session.record (Effect.signal_disconnect connection)

/-- The call `g_object_notify(session, "status")`. -/
def g_object_notify_status (session : InfSession) : InfSession :=
  session.record Effect.notify_status

/-- The macro `INF_SESSION_PRIVATE(obj)`: the private data of the session the
pointer refers to.  A pointer that was never assigned refers to none. -/
def INF_SESSION_PRIVATE (obj : Option InfSession) : Except Fault InfSession :=
  match obj with
  | some priv => pure priv
  | none => throw Fault.uninitialised_pointer

/-! ## `inf-session.c`: user table callbacks and utility functions -/

/-- The quark `inf_session_sync_error_quark`, as `inf_session_class_init`
sets it. -/
def inf_session_sync_error_quark : String := "INF_SESSION_SYNC_ERROR"

/-- The function `inf_session_lookup_user_by_name_func`. -/
def inf_session_lookup_user_by_name_func (_key : Nat) (value : InfUser) (data : String) :
    Bool :=
  decide (inf_user_get_name value = data)

/-- The function `inf_session_sync_strerror`. -/
def inf_session_sync_strerror (errcode : Nat) : String :=
  if errcode = InfSessionSyncError.UNEXPECTED_NODE.code then
    "Got unexpected XML node during synchronization"
  else if errcode = InfSessionSyncError.ID_NOT_PRESENT.code then
    "'id' attribute in user message is missing"
  else if errcode = InfSessionSyncError.ID_IN_USE.code then
    "User ID is already in use"
  else if errcode = InfSessionSyncError.NAME_NOT_PRESENT.code then
    "'name' attribute in user message is missing"
  else if errcode = InfSessionSyncError.NAME_IN_USE.code then
    "User Name is already in use"
  else if errcode = InfSessionSyncError.CONNECTION_CLOSED.code then
    "The connection was closed unexpectedly"
  else if errcode = InfSessionSyncError.SENDER_CANCELLED.code then
    "The sender cancelled the synchronization"
  else if errcode = InfSessionSyncError.RECEIVER_CANCELLED.code then
    "The receiver cancelled teh synchronization"
  else if errcode = InfSessionSyncError.UNEXPECTED_BEGIN_OF_SYNC.code then
    "Got begin-of-sync message, but synchronization is already in progress"
  else if errcode = InfSessionSyncError.NUM_MESSAGES_MISSING.code then
    "begin-of-sync message does not contain the number of messages to expect"
  else if errcode = InfSessionSyncError.UNEXPECTED_END_OF_SYNC.code then
    "Got end-of-sync message, but synchronization is still in progress"
  else if errcode = InfSessionSyncError.EXPECTED_BEGIN_OF_SYNC.code then
    "Expected begin-of-sync message as first message during synchronization"
  else if errcode = InfSessionSyncError.EXPECTED_END_OF_SYNC.code then
    "Expected end-of-sync message as last message during synchronization"
  else if errcode = InfSessionSyncError.FAILED.code then
    "An unknown synchronization error has occured"
  else "An error with unknown error code occured"

/-- The error the source builds with `g_set_error(error,
inf_session_sync_error_quark, code, "%s", inf_session_sync_strerror(code))`. -/
def inf_session_sync_error (errcode : InfSessionSyncError) : GError :=
  g_set_error inf_session_sync_error_quark errcode.code
    (inf_session_sync_strerror errcode.code)

/-- The function `inf_session_get_sync_error_message`. -/
def inf_session_get_sync_error_message (domain : String) (code : Nat) : String :=
  if domain = inf_session_sync_error_quark then inf_session_sync_strerror code
  else "An error with unknown error domain occured"

/-- The function `inf_session_find_sync_item_by_connection`: the first record
of the list for that connection. -/
def inf_session_find_sync_item_by_connection (session : InfSession)
    (conn : InfXmlConnection) : Except Fault (Option InfSessionSync) :=
  if session.status ≠ InfSessionStatus.INF_SESSION_RUNNING then pure none
  else
    match session.shared with
    | .run syncs => pure (syncs.find? (fun item => item.conn = conn))
    | .sync _ _ _ _ => throw Fault.inactive_union_member

/-- The function `inf_session_find_sync_by_connection`. -/
def inf_session_find_sync_by_connection (session : InfSession)
    (conn : InfXmlConnection) : Except Fault (Option InfSessionSync) :=
  inf_session_find_sync_item_by_connection session conn

/-- The function `inf_session_release_connection`. -/
def inf_session_release_connection (session : InfSession)
    (connection : InfXmlConnection) : Except Fault InfSession := do
  let session ←
    match session.status with
    | .INF_SESSION_SYNCHRONIZING =>
      match session.shared with
      | .sync conn messages_total messages_received identifier =>
        if conn = some connection then
          pure { session with
            shared := .sync none messages_total messages_received identifier }
        else throw Fault.assertion_failed
      | .run _ => throw Fault.inactive_union_member
    | .INF_SESSION_RUNNING => do
      let item ← inf_session_find_sync_item_by_connection session connection
      match item, session.shared with
      | some _, .run syncs =>
        pure { session with
          shared := .run (syncs.eraseP (fun item => item.conn = connection)) }
      | none, _ => throw Fault.assertion_failed
      | some _, .sync _ _ _ _ => throw Fault.inactive_union_member
    | .INF_SESSION_CLOSED => throw Fault.assertion_failed
  let result := inf_connection_manager_has_object session connection
  let session :=
    if result = true then inf_connection_manager_remove_object session connection
    else session
  let session := g_signal_handlers_disconnect_by_func session connection
  pure (g_object_unref session connection)

/-- The function `inf_session_send_sync_error`. -/
def inf_session_send_sync_error (session : InfSession) (error : GError) :
    Except Fault InfSession :=
  if session.status ≠ InfSessionStatus.INF_SESSION_SYNCHRONIZING then pure session
  else
    match session.shared with
    | .run _ => throw Fault.inactive_union_member
    | .sync none _ _ _ => pure session
    | .sync (some conn) _ _ _ =>
      let node := xmlNewNode "sync-error"
      let node := xmlNewProp node "domain" error.domain
      let code_buf := sprintf_u (guint_of_gint error.code)
      let node := xmlNewProp node "code" code_buf
      pure (inf_connection_manager_send session conn node)

/-! ## Default signal handlers and signal emission -/

/-- The function `inf_session_add_user_handler`, the class handler of
`add-user`. -/
def inf_session_add_user_handler (session : InfSession) (user : InfUser) : InfSession :=
  let user_id := inf_user_get_id user
  if ¬ (user_id > 0) then session
  else if (g_hash_table_lookup session.user_table user_id).isSome then session
  else g_hash_table_insert session user_id user

/-- The function `inf_session_remove_user_handler`, the class handler of
`remove-user`. -/
def inf_session_remove_user_handler (session : InfSession) (user : InfUser) : InfSession :=
  let user_id := inf_user_get_id user
  if g_hash_table_lookup session.user_table user_id ≠ some user then session
  else g_hash_table_remove session user_id

/-- The function `inf_session_synchronization_complete_handler`, the class
handler of `synchronization-complete`. -/
def inf_session_synchronization_complete_handler (session : InfSession)
    (connection : InfXmlConnection) : Except Fault InfSession :=
  match session.status with
  | .INF_SESSION_SYNCHRONIZING =>
    match session.shared with
    | .run _ => throw Fault.inactive_union_member
    | .sync conn _ _ _ =>
      if conn ≠ some connection then throw Fault.assertion_failed
      else do
        let session ← inf_session_release_connection session connection
        let session :=
          { session with
            status := InfSessionStatus.INF_SESSION_RUNNING
            shared := InfSessionShared.run [] }
        pure (g_object_notify_status session)
  | .INF_SESSION_RUNNING => do
    let sync ← inf_session_find_sync_by_connection session connection
    if sync.isNone then throw Fault.assertion_failed
    else inf_session_release_connection session connection
  | .INF_SESSION_CLOSED => throw Fault.assertion_failed

/-- The function `inf_session_synchronization_failed_handler`, the class
handler of `synchronization-failed`. -/
def inf_session_synchronization_failed_handler (session : InfSession)
    (connection : InfXmlConnection) (_error : GError) : Except Fault InfSession :=
  match session.status with
  | .INF_SESSION_SYNCHRONIZING =>
    match session.shared with
    | .run _ => throw Fault.inactive_union_member
    | .sync conn _ _ _ =>
      if conn ≠ some connection then throw Fault.assertion_failed
      else inf_session_release_connection session connection
  | .INF_SESSION_RUNNING => do
    let sync ← inf_session_find_sync_by_connection session connection
    if sync.isNone then throw Fault.assertion_failed
    else inf_session_release_connection session connection
  | .INF_SESSION_CLOSED => throw Fault.assertion_failed

/-- The call `g_signal_emit(session, session_signals[ADD_USER], 0, user)`:
the emission, then the class handler (`G_SIGNAL_RUN_LAST`). -/
def g_signal_emit_add_user (session : InfSession) (user : InfUser) : InfSession :=
  inf_session_add_user_handler (session.record (Effect.emit_add_user user)) user

/-- The call `g_signal_emit(session, session_signals[REMOVE_USER], 0, user)`. -/
def g_signal_emit_remove_user (session : InfSession) (user : InfUser) : InfSession :=
  inf_session_remove_user_handler (session.record (Effect.emit_remove_user user)) user

/-- The call `g_signal_emit(session, session_signals[SYNCHRONIZATION_PROGRESS],
0, connection, (double)numerator / (double)denominator)`; the class has no
handler for this signal. -/
def g_signal_emit_synchronization_progress (session : InfSession)
    (connection : InfXmlConnection) (numerator denominator : Nat) : InfSession :=
  session.record (Effect.emit_synchronization_progress connection numerator denominator)

/-- The call `g_signal_emit(session, session_signals[SYNCHRONIZATION_COMPLETE],
0, connection)`. -/
def g_signal_emit_synchronization_complete (session : InfSession)
    (connection : InfXmlConnection) : Except Fault InfSession :=
  inf_session_synchronization_complete_handler
    (session.record (Effect.emit_synchronization_complete connection)) connection

/-- The call `g_signal_emit(session, session_signals[SYNCHRONIZATION_FAILED],
0, connection, error)`. -/
def g_signal_emit_synchronization_failed (session : InfSession)
    (connection : InfXmlConnection) (error : GError) : Except Fault InfSession :=
  inf_session_synchronization_failed_handler
    (session.record (Effect.emit_synchronization_failed connection error)) connection error

/-! ## `inf-session.c`: construction -/

/-- The function `inf_session_init_sync`. -/
def inf_session_init_sync (session : InfSession) : InfSession :=
  if session.status = InfSessionStatus.INF_SESSION_RUNNING then
    { session with
      status := InfSessionStatus.INF_SESSION_SYNCHRONIZING
      shared := InfSessionShared.sync none 0 0 none }
  else session

/-- The function `inf_session_register_sync`. -/
def inf_session_register_sync (session : InfSession) : InfSession :=
  match session.status, session.manager, session.shared with
  | .INF_SESSION_SYNCHRONIZING, some _, .sync (some conn) _ _ (some identifier) =>
    let session := inf_connection_manager_add_object session conn identifier
    g_signal_connect_after session conn
  | _, _, _ => session

/-- The function `inf_session_init`. -/
def inf_session_init : InfSession :=
  { manager := none
    buffer := none
    status := InfSessionStatus.INF_SESSION_RUNNING
    user_table := []
    shared := InfSessionShared.run []
    objects := []
    log := [] }

/-- The properties `inf_session_set_property` accepts, with their values. -/
inductive InfSessionProperty where
  | PROP_CONNECTION_MANAGER (value : Option Nat)
  | PROP_BUFFER (value : Option Nat)
  | PROP_SYNC_CONNECTION (value : Option InfXmlConnection)
  | PROP_SYNC_IDENTIFIER (value : Option String)
  deriving DecidableEq, Repr

/-- The function `inf_session_set_property`. -/
def inf_session_set_property (session : InfSession) (prop : InfSessionProperty) :
    Except Fault InfSession :=
  match prop with
  | .PROP_CONNECTION_MANAGER value =>
    if session.manager ≠ none then throw Fault.assertion_failed
    else
      let session := { session with manager := value }
      let session :=
        match value with
        | some object => g_object_ref session object
        | none => session
      pure (inf_session_register_sync session)
  | .PROP_BUFFER value =>
    if session.buffer ≠ none then throw Fault.assertion_failed
    else
      let session := { session with buffer := value }
      match value with
      | some object => pure (g_object_ref session object)
      | none => pure session
  | .PROP_SYNC_CONNECTION none => pure session
  | .PROP_SYNC_CONNECTION (some conn) =>
    let session := inf_session_init_sync session
    match session.shared with
    | .run _ => throw Fault.inactive_union_member
    | .sync _ messages_total messages_received identifier =>
      let session :=
        { session with
          shared := .sync (some conn) messages_total messages_received identifier }
      let session := g_object_ref session conn
      pure (inf_session_register_sync session)
  | .PROP_SYNC_IDENTIFIER none => pure session
  | .PROP_SYNC_IDENTIFIER (some identifier) =>
    let session := inf_session_init_sync session
    match session.shared with
    | .run _ => throw Fault.inactive_union_member
    | .sync conn messages_total messages_received _ =>
      let session :=
        { session with
          shared := .sync conn messages_total messages_received (some identifier) }
      pure (inf_session_register_sync session)

/-! ## `inf-session.c`: the user table and the default codec -/

/-- The function `inf_session_lookup_user_property`. -/
def inf_session_lookup_user_property (params : List GParameter) (name : String) :
    Option GParameter :=
  params.find? (fun p => p.name = name)

/-- Applies `f` to the value of the parameter at `index`: a write through the
pointer `inf_session_get_user_property` returned. -/
def GParameter_set (array : List GParameter) (index : Nat) (f : GValue → GValue) :
    List GParameter :=
  match array, index with
  | [], _ => []
  | p :: ps, 0 => { p with value := f p.value } :: ps
  | p :: ps, i + 1 => p :: GParameter_set ps i f

/-- The function `inf_session_get_user_property`: the array, grown by one
parameter of that name when it had none, and the index of the parameter. -/
def inf_session_get_user_property (array : List GParameter) (name : String) :
    List GParameter × Nat :=
  match array.findIdx? (fun p => p.name = name) with
  | some i => (array, i)
  | none => (array ++ [{ name := name, value := GValue.unset }], array.length)

/-- The function `inf_session_lookup_user_by_id`.  The source declares `priv`
and then assigns `priv = INF_SESSION_PRIVATE(priv)`: the private data is taken
from the local that has no value yet, not from `session`. -/
def inf_session_lookup_user_by_id (_session : InfSession) (user_id : Nat) :
    Except Fault (Option InfUser) := do
  let priv : Option InfSession := none
  let priv ← INF_SESSION_PRIVATE priv
  pure (g_hash_table_lookup priv.user_table user_id)

/-- The function `inf_session_lookup_user_by_name`. -/
def inf_session_lookup_user_by_name (session : InfSession) (name : Option String) :
    Option InfUser :=
  match name with
  | none => none
  | some name =>
    g_hash_table_find session.user_table
      (fun key value => inf_session_lookup_user_by_name_func key value name)

/-- The function `inf_session_foreach_user`, with the callback as a function
that updates its `user_data`. -/
def inf_session_foreach_user {σ : Type} (session : InfSession) (func : InfUser → σ → σ)
    (user_data : σ) : σ :=
  session.user_table.foldl (fun data entry => func entry.2 data) user_data

/-- The function `inf_session_get_xml_user_props_impl`. -/
def inf_session_get_xml_user_props_impl (_session : InfSession) (_conn : InfXmlConnection)
    (xml : xmlNode) : List GParameter :=
  let array : List GParameter := []
  let name := xmlGetProp xml "name"
  let id := xmlGetProp xml "id"
  let array :=
    match id with
    | some id =>
      let (array, parameter) := inf_session_get_user_property array "id"
      let array := GParameter_set array parameter (fun v => g_value_init v GType.G_TYPE_INT)
      GParameter_set array parameter (fun v => g_value_set_uint v (strtoul id 10))
    | none => array
  match name with
  | some name =>
    let (array, parameter) := inf_session_get_user_property array "name"
    let array := GParameter_set array parameter (fun v => g_value_init v GType.G_TYPE_STRING)
    GParameter_set array parameter (fun v => g_value_set_string v name)
  | none => array

/-- The function `inf_session_validate_user_props_impl`: the result and the
error it stores. -/
def inf_session_validate_user_props_impl (session : InfSession) (params : List GParameter)
    (exclude : Option InfUser) : Except Fault (Bool × Option GError) :=
  match inf_session_lookup_user_property params "id" with
  | none => pure (false, some (inf_session_sync_error .ID_NOT_PRESENT))
  | some parameter => do
    let id := g_value_get_uint parameter.value
    let user ← inf_session_lookup_user_by_id session id
    if user ≠ none ∧ user ≠ exclude then
      pure (false, some (inf_session_sync_error .ID_IN_USE))
    else
      match inf_session_lookup_user_property params "name" with
      | none => pure (false, some (inf_session_sync_error .NAME_NOT_PRESENT))
      | some parameter =>
        let name := g_value_get_string parameter.value
        let user := inf_session_lookup_user_by_name session name
        if user ≠ none ∧ user ≠ exclude then
          pure (false, some (inf_session_sync_error .NAME_IN_USE))
        else pure (true, none)

/-- The function `inf_session_user_to_xml_impl`. -/
def inf_session_user_to_xml_impl (_session : InfSession) (user : InfUser) (xml : xmlNode) :
    xmlNode :=
  let id := sprintf_u (inf_user_get_id user)
  let xml := xmlNewProp xml "id" id
  xmlNewProp xml "name" (inf_user_get_name user)

/-- The function `inf_session_to_xml_sync_impl_foreach_func`: the children of
the collecting node after the call for one user. -/
def inf_session_to_xml_sync_impl_foreach_func (session_class : InfSessionUserClass)
    (session : InfSession) (value : InfUser) (children : List xmlNode) : List xmlNode :=
  match session_class.user_to_xml with
  | none => children
  | some user_to_xml =>
    let usernode := xmlNewNode "sync-user"
    let usernode := user_to_xml session value usernode
    children ++ [usernode]

/-- The function `inf_session_to_xml_sync_impl`: the children of `parent`
after the call, given its children before. -/
def inf_session_to_xml_sync_impl (session_class : InfSessionUserClass)
    (session : InfSession) (parent : List xmlNode) : List xmlNode :=
  session.user_table.foldl
    (fun children entry =>
      inf_session_to_xml_sync_impl_foreach_func session_class session entry.2 children)
    parent

/-- The function `inf_session_add_user`: the session afterwards, the user it
returns and the error it stores. -/
def inf_session_add_user (session_class : InfSessionUserClass) (session : InfSession)
    (params : List GParameter) :
    Except Fault (InfSession × Option InfUser × Option GError) :=
  match session_class.validate_user_props with
  | none => pure (session, none, none)
  | some validate_user_props =>
    match session_class.user_new with
    | none => pure (session, none, none)
    | some user_new => do
      let (result, error) ← validate_user_props session params none
      if result = true then
        let user := user_new session params
        let session := g_signal_emit_add_user session user
        pure (session, some user, error)
      else pure (session, none, error)

/-- The function `inf_session_remove_user`. -/
def inf_session_remove_user (session : InfSession) (user : InfUser) : InfSession :=
  let user_id := inf_user_get_id user
  if g_hash_table_lookup session.user_table user_id ≠ some user then session
  else
    let session := g_object_ref session user.obj
    let session := g_signal_emit_remove_user session user
    g_object_unref session user.obj

/-! ## `inf-session.c`: closing -/

/-- The `while(priv->shared.run.syncs != NULL)` loop of
`inf_session_close_impl`.  Every pass reads the head of the list again; `fuel`
bounds the number of passes, and a list that is not empty when the bound is
reached ends the run with `Fault.loop_bound`. -/
def inf_session_close_impl_while (fuel : Nat) (session : InfSession) (error : GError) :
    Except Fault InfSession :=
  match fuel with
  | 0 =>
    match session.shared with
    | .run [] => pure session
    | .run (_ :: _) => throw Fault.loop_bound
    | .sync _ _ _ _ => throw Fault.inactive_union_member
  | fuel + 1 =>
    match session.shared with
    | .run [] => pure session
    | .run (sync :: _) => do
      let session ←
        if sync.end_enqueued = false then do
          let session := inf_connection_manager_cancel_outer session sync.conn
          let xml := xmlNewNode "sync-cancel"
          let session := inf_connection_manager_send session sync.conn xml
          g_signal_emit_synchronization_failed session sync.conn error
        else inf_session_release_connection session sync.conn
      inf_session_close_impl_while fuel session error
    | .sync _ _ _ _ => throw Fault.inactive_union_member

/-- The function `inf_session_close_impl`.  The identifier that `g_free`
releases stays in the record; nothing reads it afterwards. -/
def inf_session_close_impl (session : InfSession) : Except Fault InfSession := do
  let error := inf_session_sync_error .RECEIVER_CANCELLED
  let session ←
    match session.status with
    | .INF_SESSION_SYNCHRONIZING =>
      match session.shared with
      | .run _ => throw Fault.inactive_union_member
      | .sync none _ _ _ => pure session
      | .sync (some conn) _ _ _ => do
        let session ← inf_session_send_sync_error session error
        g_signal_emit_synchronization_failed session conn error
    | .INF_SESSION_RUNNING =>
      match session.shared with
      | .run syncs => inf_session_close_impl_while syncs.length session error
      | .sync _ _ _ _ => throw Fault.inactive_union_member
    | .INF_SESSION_CLOSED => throw Fault.assertion_failed
  let session := { session with status := InfSessionStatus.INF_SESSION_CLOSED }
  pure (g_object_notify_status session)

/-- The function `inf_session_close`: the class slot `close` holds
`inf_session_close_impl`. -/
def inf_session_close (session : InfSession) : Except Fault InfSession :=
  inf_session_close_impl session

/-- The function `inf_session_dispose`.  Its last statement is
`G_OBJECT_CLASS(object)->dispose(object)`: the macro is applied to the
instance, not to `parent_class` as `inf_session_finalize` does, so the
function pointer is read out of the memory of the object as if it were a class
structure, and the call through it does not return. -/
def inf_session_dispose (session : InfSession) : Except Fault InfSession := do
  let session ← inf_session_close session
  let session := g_hash_table_remove_all session
  let session :=
    match session.buffer with
    | some object => g_object_unref session object
    | none => session
  let session := { session with buffer := none }
  let session :=
    match session.manager with
    | some object => g_object_unref session object
    | none => session
  let _session : InfSession := { session with manager := none }
  throw Fault.invalid_class_cast

/-- The function `inf_session_connection_notify_status_cb`; `status` is the
value read from the connection's `status` property. -/
def inf_session_connection_notify_status_cb (session : InfSession)
    (connection : InfXmlConnection) (status : InfXmlConnectionStatus) :
    Except Fault InfSession :=
  if status = InfXmlConnectionStatus.INF_XML_CONNECTION_CLOSED ∨
      status = InfXmlConnectionStatus.INF_XML_CONNECTION_CLOSING then
    let error := inf_session_sync_error .CONNECTION_CLOSED
    match session.status with
    | .INF_SESSION_SYNCHRONIZING =>
      match session.shared with
      | .run _ => throw Fault.inactive_union_member
      | .sync conn _ _ _ =>
        if conn ≠ some connection then throw Fault.assertion_failed
        else do
          let session ← g_signal_emit_synchronization_failed session connection error
          inf_session_close session
    | .INF_SESSION_RUNNING => do
      let sync ← inf_session_find_sync_by_connection session connection
      if sync.isNone then throw Fault.assertion_failed
      else g_signal_emit_synchronization_failed session connection error
    | .INF_SESSION_CLOSED => throw Fault.assertion_failed
  else pure session

/-- The function `inf_session_process_xml_sync_impl`: the session afterwards,
the result and the error it stores. -/
def inf_session_process_xml_sync_impl (session_class : InfSessionUserClass)
    (session : InfSession) (connection : InfXmlConnection) (xml : xmlNode) :
    Except Fault (InfSession × Bool × Option GError) :=
  match session_class.get_xml_user_props with
  | none => pure (session, false, none)
  | some get_xml_user_props =>
    if session.status ≠ InfSessionStatus.INF_SESSION_SYNCHRONIZING then
      pure (session, false, none)
    else
      match session.shared with
      | .run _ => throw Fault.inactive_union_member
      | .sync conn _ _ _ =>
        if conn ≠ some connection then pure (session, false, none)
        else if xml.name = "sync-user" then do
          let user_props := get_xml_user_props session connection xml
          let (session, user, error) ← inf_session_add_user session_class session user_props
          if user = none then pure (session, false, error)
          else pure (session, true, error)
        else if xml.name = "sync-cancel" then do
          let local_error := inf_session_sync_error .SENDER_CANCELLED
          let session ← g_signal_emit_synchronization_failed session connection local_error
          let session ← inf_session_close session
          pure (session, false, none)
        else pure (session, false, some (inf_session_sync_error .UNEXPECTED_NODE))

/-! ## `inf-session.c`: the `InfNetObject` implementation -/

/-- The function `inf_session_handle_received_sync_message`: the session
afterwards, the result and the error it stores. -/
def inf_session_handle_received_sync_message (session_class : InfSessionClass)
    (session : InfSession) (connection : InfXmlConnection) (node : xmlNode) :
    Except Fault (InfSession × Bool × Option GError) :=
  match session_class.process_xml_sync with
  | none => pure (session, false, none)
  | some process_xml_sync =>
    match session.shared with
    | .run _ => throw Fault.inactive_union_member
    | .sync conn messages_total messages_received identifier =>
      if node.name = "sync-begin" then
        if messages_total > 0 then
          pure (session, false, some (inf_session_sync_error .UNEXPECTED_BEGIN_OF_SYNC))
        else
          match xmlGetProp node "num-messages" with
          | none =>
            pure (session, false, some (inf_session_sync_error .NUM_MESSAGES_MISSING))
          | some num_messages =>
            let messages_total := (2 + strtoul num_messages 0) % GUINT_MOD
            let messages_received := 1
            let session :=
              { session with
                shared := .sync conn messages_total messages_received identifier }
            let session :=
              g_signal_emit_synchronization_progress session connection 1 messages_total
            pure (session, true, none)
      else if node.name = "sync-end" then
        let messages_received := (messages_received + 1) % GUINT_MOD
        let session :=
          { session with shared := .sync conn messages_total messages_received identifier }
        if messages_received ≠ messages_total then
          pure (session, false, some (inf_session_sync_error .UNEXPECTED_END_OF_SYNC))
        else do
          let session ← g_signal_emit_synchronization_complete session connection
          pure (session, true, none)
      else if messages_received = 0 then
        pure (session, false, some (inf_session_sync_error .EXPECTED_BEGIN_OF_SYNC))
      else if messages_received = (messages_total + GUINT_MOD - 1) % GUINT_MOD then
        pure (session, false, some (inf_session_sync_error .EXPECTED_END_OF_SYNC))
      else do
        let (session, result, error) ←
          process_xml_sync session_class.toInfSessionUserClass session connection node
        if result = false then pure (session, false, error)
        else
          match session.shared with
          | .run _ => throw Fault.inactive_union_member
          | .sync conn messages_total messages_received identifier =>
            let messages_received := (messages_received + 1) % GUINT_MOD
            let session :=
              { session with
                shared := .sync conn messages_total messages_received identifier }
            let session :=
              g_signal_emit_synchronization_progress session connection
                messages_received messages_total
            pure (session, true, error)

/-- Applies `f` to the first record of the list for that connection: a write
through the pointer `inf_session_find_sync_by_connection` returned. -/
def InfSessionSync_set (syncs : List InfSessionSync) (conn : InfXmlConnection)
    (f : InfSessionSync → InfSessionSync) : List InfSessionSync :=
  match syncs with
  | [] => []
  | item :: rest =>
    if item.conn = conn then f item :: rest else item :: InfSessionSync_set rest conn f

/-- The function `inf_session_net_object_sent`. -/
def inf_session_net_object_sent (session : InfSession) (connection : InfXmlConnection)
    (_node : xmlNode) : Except Fault InfSession := do
  let sync ← inf_session_find_sync_by_connection session connection
  match sync, session.shared with
  | none, _ => pure session
  | some _, .sync _ _ _ _ => throw Fault.inactive_union_member
  | some sync, .run syncs =>
    let messages_sent := (sync.messages_sent + 1) % GUINT_MOD
    let session :=
      { session with
        shared := .run (InfSessionSync_set syncs connection
          (fun item => { item with messages_sent := messages_sent })) }
    if messages_sent < sync.messages_total then
      pure (g_signal_emit_synchronization_progress session connection
        messages_sent sync.messages_total)
    else g_signal_emit_synchronization_complete session connection

/-- The function `inf_session_net_object_enqueued`. -/
def inf_session_net_object_enqueued (session : InfSession) (connection : InfXmlConnection)
    (node : xmlNode) : Except Fault InfSession :=
  if node.name = "sync-end" then do
    let sync ← inf_session_find_sync_by_connection session connection
    match sync, session.shared with
    | none, _ => throw Fault.assertion_failed
    | some _, .sync _ _ _ _ => throw Fault.inactive_union_member
    | some sync, .run syncs =>
      if sync.end_enqueued ≠ false then throw Fault.assertion_failed
      else
        pure { session with
          shared := .run (InfSessionSync_set syncs connection
            (fun item => { item with end_enqueued := true })) }
  else pure session

/-- The function `inf_session_net_object_received`. -/
def inf_session_net_object_received (session_class : InfSessionClass)
    (session : InfSession) (connection : InfXmlConnection) (node : xmlNode) :
    Except Fault InfSession :=
  match session.status with
  | .INF_SESSION_SYNCHRONIZING =>
    match session.shared with
    | .run _ => throw Fault.inactive_union_member
    | .sync conn _ _ _ =>
      if conn ≠ some connection then throw Fault.assertion_failed
      else do
        let (session, result, error) ←
          inf_session_handle_received_sync_message session_class session connection node
        match result, error with
        | false, some error => do
          let session ← inf_session_send_sync_error session error
          let session ← g_signal_emit_synchronization_failed session connection error
          inf_session_close session
        | _, _ => pure session
  | .INF_SESSION_RUNNING =>
    if node.name = "sync-error" then
      let session := inf_connection_manager_cancel_outer session connection
      let domain_attr := xmlGetProp node "domain"
      let code_attr := xmlGetProp node "code"
      let error :=
        match domain_attr, code_attr with
        | some domain_attr, some code_attr =>
          let domain := domain_attr
          let code := strtoul code_attr 0 % GUINT_MOD
          g_set_error domain (gint_of_guint code)
            (inf_session_get_sync_error_message domain code)
        | _, _ => inf_session_sync_error .FAILED
      g_signal_emit_synchronization_failed session connection error
    else
      match session_class.process_xml_run with
      | none => pure session
      | some process_xml_run =>
        process_xml_run session_class.toInfSessionUserClass session connection node
  | .INF_SESSION_CLOSED => throw Fault.assertion_failed

/-! ## `inf-session.c`: class initialisation and public API -/

/-- The virtual functions `inf_session_class_init` installs. -/
def inf_session_class_init : InfSessionClass :=
  { to_xml_sync := some inf_session_to_xml_sync_impl
    process_xml_sync := some inf_session_process_xml_sync_impl
    process_xml_run := none
    get_xml_user_props := some inf_session_get_xml_user_props_impl
    validate_user_props := some inf_session_validate_user_props_impl
    user_to_xml := some inf_session_user_to_xml_impl
    user_new := none }

/-- The function `inf_session_synchronize_to`.  The node that is to collect
the messages is made with `xmlNewNode(NULL, NULL)`, which is `NULL`;
`to_xml_sync` is handed that `NULL` (the default implementation adds its nodes
with `xmlAddChild`, which refuses a parent that is `NULL`), and the loop that
counts the messages starts by reading `messages->children`. -/
def inf_session_synchronize_to (session_class : InfSessionClass) (session : InfSession)
    (connection : InfXmlConnection) (identifier : Option String) :
    Except Fault InfSession :=
  match identifier with
  | none => pure session
  | some identifier =>
    if session.status ≠ InfSessionStatus.INF_SESSION_RUNNING then pure session
    else do
      let found ← inf_session_find_sync_by_connection session connection
      if found ≠ none then pure session
      else
        match session_class.to_xml_sync, session.shared with
        | none, _ => pure session
        | some _, .sync _ _ _ _ => throw Fault.inactive_union_member
        | some to_xml_sync, .run syncs =>
          let sync : InfSessionSync :=
            { conn := connection, messages_sent := 0, messages_total := 2,
              end_enqueued := false }
          let session := g_object_ref session connection
          let session := { session with shared := .run (sync :: syncs) }
          let session := g_signal_connect_after session connection
          let session := inf_connection_manager_add_object session connection identifier
          match xmlNewNode_NULL with
          | none => throw Fault.null_pointer
          | some messages =>
            let messages := to_xml_sync session_class.toInfSessionUserClass session messages
            let messages_total :=
              messages.foldl (fun total _ => (total + 1) % GUINT_MOD) sync.messages_total
            let session :=
              { session with
                shared := .run ({ sync with messages_total := messages_total } :: syncs) }
            let num_messages_buf := sprintf_u (messages_total + GUINT_MOD - 2)
            let xml := xmlNewNode "sync-begin"
            let xml := xmlNewProp xml "num-messages" num_messages_buf
            let session := inf_connection_manager_send session connection xml
            let session := inf_connection_manager_send_multiple session connection messages
            let xml := xmlNewNode "sync-end"
            pure (inf_connection_manager_send session connection xml)

/-- The function `inf_session_get_synchronization_status`. -/
def inf_session_get_synchronization_status (session : InfSession)
    (connection : InfXmlConnection) : Except Fault InfSessionSyncStatus :=
  match session.status with
  | .INF_SESSION_SYNCHRONIZING =>
    match session.shared with
    | .run _ => throw Fault.inactive_union_member
    | .sync conn _ _ _ =>
      if some connection = conn then pure .INF_SESSION_SYNC_IN_PROGRESS
      else pure .INF_SESSION_SYNC_NONE
  | .INF_SESSION_RUNNING => do
    let sync ← inf_session_find_sync_by_connection session connection
    match sync with
    | none => pure .INF_SESSION_SYNC_NONE
    | some sync =>
      if sync.end_enqueued = true then pure .INF_SESSION_SYNC_END_ENQUEUED
      else pure .INF_SESSION_SYNC_IN_PROGRESS
  | .INF_SESSION_CLOSED => pure .INF_SESSION_SYNC_NONE

/-! ## Observations used in the statements -/

/-- Construction of a session: `inf_session_init`, then the construction
properties in the order given. -/
def inf_session_new (props : List InfSessionProperty) : Except Fault InfSession :=
  props.foldlM inf_session_set_property inf_session_init

/-- A class derived from `InfSession` that keeps every virtual function of
`inf_session_class_init` and supplies the two the base class leaves `NULL`. -/
def inf_session_derived_class
    (user_new : Option (InfSession → List GParameter → InfUser))
    (process_xml_run :
      Option (InfSessionUserClass → InfSession → InfXmlConnection → xmlNode →
        Except Fault InfSession)) : InfSessionClass :=
  { inf_session_class_init with user_new := user_new, process_xml_run := process_xml_run }

/-- The connection manager hands the nodes to `received`, one after the
other. -/
def deliver (session_class : InfSessionClass) (session : InfSession)
    (connection : InfXmlConnection) : List xmlNode → Except Fault InfSession
  | [] => pure session
  | node :: rest => do
    let session ← inf_session_net_object_received session_class session connection node
    deliver session_class session connection rest

/-- The nodes an effect hands to the connection manager for a connection. -/
def Effect.sent_nodes (connection : InfXmlConnection) : Effect → List xmlNode
  | .send c xml => if c = connection then [xml] else []
  | .send_multiple c xml => if c = connection then xml else []
  | _ => []

/-- The nodes handed to the connection manager for a connection, in order. -/
def sent_nodes (log : List Effect) (connection : InfXmlConnection) : List xmlNode :=
  (log.map (Effect.sent_nodes connection)).flatten

/-- Whether an effect is an emission of `synchronization-progress`,
`synchronization-complete` or `synchronization-failed`. -/
def Effect.is_sync_signal : Effect → Bool
  | .emit_synchronization_progress _ _ _ => true
  | .emit_synchronization_complete _ => true
  | .emit_synchronization_failed _ _ => true
  | _ => false

/-- The synchronization signals of a log, in order. -/
def sync_signals (log : List Effect) : List Effect :=
  log.filter Effect.is_sync_signal

/-- The number a non-empty text of decimal digits denotes. -/
def decimal_digits_value : List Char → Nat → Option Nat
  | [], acc => some acc
  | c :: cs, acc =>
    if 48 ≤ c.toNat ∧ c.toNat ≤ 57 then decimal_digits_value cs (acc * 10 + (c.toNat - 48))
    else none

/-- The number a text denotes when it is a non-empty string of decimal
digits. -/
def decimal_text (text : String) : Option Nat :=
  match text.data with
  | [] => none
  | cs => decimal_digits_value cs 0

/-- A text with no superfluous leading zero: it is `0` or does not start
with `0`. -/
def no_leading_zero (text : String) : Prop :=
  text = "0" ∨ text.data.head? ≠ some '0'

/-- The node `sync-begin` with the attribute `num-messages`. -/
def sync_begin_node (num_messages : String) : xmlNode :=
  xmlNewProp (xmlNewNode "sync-begin") "num-messages" num_messages

/-- The node `inf_session_send_sync_error` builds for an error. -/
def sync_error_node (error : GError) : xmlNode :=
  xmlNewProp (xmlNewProp (xmlNewNode "sync-error") "domain" error.domain) "code"
    (sprintf_u (guint_of_gint error.code))

/-- What `inf_session_release_connection` does after it has cleared the
session's own record of the connection: the registration is removed when the
manager still has it, the status observer is disconnected, the reference is
dropped. -/
def release_effects (objects : List InfXmlConnection) (connection : InfXmlConnection) :
    List Effect :=
  (if connection ∈ objects then [Effect.remove_object connection] else []) ++
    [Effect.signal_disconnect connection, Effect.object_unref connection]

/-- A codec that accepts every body message and leaves the session as it
is. -/
def accept_all_codec (_session_class : InfSessionUserClass) (session : InfSession)
    (_connection : InfXmlConnection) (_xml : xmlNode) :
    Except Fault (InfSession × Bool × Option GError) :=
  pure (session, true, none)

/-- The class of a session whose codec is `accept_all_codec`. -/
def accept_all_class : InfSessionClass :=
  { inf_session_class_init with process_xml_sync := some accept_all_codec }

/-- A session that is being synchronized over connection 7 and registered
with the connection manager, with the given counters. -/
def inbound_session (messages_total messages_received : Nat) : InfSession :=
  { manager := some 1
    buffer := some 2
    status := InfSessionStatus.INF_SESSION_SYNCHRONIZING
    user_table := []
    shared := InfSessionShared.sync (some 7) messages_total messages_received (some "doc")
    objects := [7]
    log := [] }

/-- A running session with the users of the given table and no
synchronization under way. -/
def running_session (user_table : List (Nat × InfUser)) : InfSession :=
  { manager := some 1
    buffer := some 2
    status := InfSessionStatus.INF_SESSION_RUNNING
    user_table := user_table
    shared := InfSessionShared.run []
    objects := []
    log := [] }

/-- A codec that ends every run it is called in. -/
def faulting_codec (_session_class : InfSessionUserClass) (_session : InfSession)
    (_connection : InfXmlConnection) (_xml : xmlNode) :
    Except Fault (InfSession × Bool × Option GError) :=
  throw Fault.assertion_failed

/-- The codec accepts the node in the given session: it returns `TRUE`, leaves
the status and the record of the synchronization as they are, and emits
nothing but `add-user`. -/
def codec_accepts
    (f : InfSessionUserClass → InfSession → InfXmlConnection → xmlNode →
      Except Fault (InfSession × Bool × Option GError))
    (session_class : InfSessionUserClass) (session : InfSession)
    (connection : InfXmlConnection) (xml : xmlNode) : Prop :=
  ∃ (after : InfSession) (error : Option GError) (users : List InfUser),
    f session_class session connection xml = Except.ok (after, true, error) ∧
    after.status = session.status ∧ after.shared = session.shared ∧
    after.log = session.log ++ users.map Effect.emit_add_user

/-- The codec accepts the nodes of the list as they are received one after the
other, starting in the given session: it accepts the first node in that
session, and the remaining nodes from the session in which the reception of
the first one leaves the session. -/
def codec_accepts_stream (session_class : InfSessionClass)
    (f : InfSessionUserClass → InfSession → InfXmlConnection → xmlNode →
      Except Fault (InfSession × Bool × Option GError))
    (connection : InfXmlConnection) : InfSession → List xmlNode → Prop
  | _, [] => True
  | session, xml :: rest =>
    codec_accepts f session_class.toInfSessionUserClass session connection xml ∧
    ∀ next : InfSession,
      inf_session_net_object_received session_class session connection xml = Except.ok next →
      codec_accepts_stream session_class f connection next rest

/-- A codec that looks at the session as the default one does: outside a
synchronization over the connection the node came from it refuses the node;
within one it accepts every node and leaves the session as it is. -/
def guarded_codec (_session_class : InfSessionUserClass) (session : InfSession)
    (connection : InfXmlConnection) (_xml : xmlNode) :
    Except Fault (InfSession × Bool × Option GError) :=
  if session.status ≠ InfSessionStatus.INF_SESSION_SYNCHRONIZING then
    pure (session, false, none)
  else
    match session.shared with
    | .run _ => throw Fault.inactive_union_member
    | .sync conn _ _ _ =>
      if conn ≠ some connection then pure (session, false, none)
      else pure (session, true, none)

/-- The class of a session whose codec is `guarded_codec`. -/
def guarded_class : InfSessionClass :=
  { inf_session_class_init with process_xml_sync := some guarded_codec }

/-- The node the default codec writes for a user: `sync-user` with the
attributes `id` and `name`. -/
def sync_user_node (user : InfUser) : xmlNode :=
  { name := "sync-user",
    properties := [("id", sprintf_u user.id), ("name", user.name)] }

/-- What the loop of `inf_session_close_impl` does for a record before it
releases the connection: nothing when `sync-end` is already enqueued,
otherwise `cancel_outer`, a `sync-cancel` and `synchronization-failed` with
ReceiverCancelled. -/
def cancel_effects (sync : InfSessionSync) : List Effect :=
  if sync.end_enqueued = false then
    [Effect.cancel_outer sync.conn,
     Effect.send sync.conn (xmlNewNode "sync-cancel"),
     Effect.emit_synchronization_failed sync.conn
       (inf_session_sync_error .RECEIVER_CANCELLED)]
  else []

/-- The effects of closing a Running session with the given records, record
by record, `objects` being the registrations the manager holds at the start. -/
def close_running_effects (objects : List InfXmlConnection) :
    List InfSessionSync → List Effect
  | [] => []
  | sync :: rest =>
    cancel_effects sync ++ release_effects objects sync.conn ++
      close_running_effects (objects.filter (fun c => c ≠ sync.conn)) rest

/-- The registrations the manager holds after the connections of the records
have been released. -/
def close_running_objects (objects : List InfXmlConnection) :
    List InfSessionSync → List InfXmlConnection
  | [] => objects
  | sync :: rest => close_running_objects (objects.filter (fun c => c ≠ sync.conn)) rest

/-- Whether an effect is one of the three steps of a cancellation:
`cancel_outer`, a sent node, or `synchronization-failed`. -/
def Effect.is_cancel_step : Effect → Bool
  | .cancel_outer _ => true
  | .send _ _ => true
  | .send_multiple _ _ => true
  | .emit_synchronization_failed _ _ => true
  | _ => false

/-- Whether an effect drops the reference to an object. -/
def Effect.is_unref : Effect → Bool
  | .object_unref _ => true
  | _ => false

/-- A running session with the given outbound records, registered with the
connection manager on their connections. -/
def outbound_session (syncs : List InfSessionSync) : InfSession :=
  { manager := some 1
    buffer := some 2
    status := InfSessionStatus.INF_SESSION_RUNNING
    user_table := []
    shared := InfSessionShared.run syncs
    objects := syncs.map (fun sync => sync.conn)
    log := [] }

/-- A session that was closed while it was being synchronized. -/
def closed_session : InfSession :=
  { manager := some 1
    buffer := some 2
    status := InfSessionStatus.INF_SESSION_CLOSED
    user_table := []
    shared := InfSessionShared.sync none 4 2 (some "doc")
    objects := []
    log := [] }

/-- A `process_xml_run` hook that answers every node by sending it back on the
connection it came from. -/
def echo_run_hook (_session_class : InfSessionUserClass) (session : InfSession)
    (connection : InfXmlConnection) (xml : xmlNode) : Except Fault InfSession :=
  pure (inf_connection_manager_send session connection xml)

/-- The class of a session with the default codec and `echo_run_hook`. -/
def echo_class : InfSessionClass :=
  inf_session_derived_class none (some echo_run_hook)

/-- Whether a construction property is `connection-manager`. -/
def InfSessionProperty.is_manager : InfSessionProperty → Bool
  | .PROP_CONNECTION_MANAGER _ => true
  | _ => false

/-- Whether a construction property is `buffer`. -/
def InfSessionProperty.is_buffer : InfSessionProperty → Bool
  | .PROP_BUFFER _ => true
  | _ => false

/-- Whether a construction property hands the session a `sync-connection` or a
`sync-identifier` that is not `NULL`. -/
def InfSessionProperty.is_sync : InfSessionProperty → Bool
  | .PROP_SYNC_CONNECTION (some _) => true
  | .PROP_SYNC_IDENTIFIER (some _) => true
  | _ => false

/-- Whether a construction property hands the session a `sync-connection`
that is not `NULL`. -/
def InfSessionProperty.is_sync_connection : InfSessionProperty → Bool
  | .PROP_SYNC_CONNECTION (some _) => true
  | _ => false

/-- Whether a construction property hands the session a `sync-identifier`
that is not `NULL`. -/
def InfSessionProperty.is_sync_identifier : InfSessionProperty → Bool
  | .PROP_SYNC_IDENTIFIER (some _) => true
  | _ => false

/-- The status and the active member of `shared` agree: a session is Running
with the list of outbound synchronizations, or Synchronizing with the inbound
record. -/
def InfSession.shared_matches_status (session : InfSession) : Prop :=
  (session.status = InfSessionStatus.INF_SESSION_RUNNING ∧ ∃ syncs, session.shared = .run syncs) ∨
  (session.status = InfSessionStatus.INF_SESSION_SYNCHRONIZING ∧
    ∃ conn total received identifier, session.shared = .sync conn total received identifier)

/-- A validation that accepts every property list. -/
def accept_all_validation (_session : InfSession) (_params : List GParameter)
    (_exclude : Option InfUser) : Except Fault (Bool × Option GError) :=
  pure (true, none)

/-- A `user_new` that builds the user from the parameters `id` and `name`; the
identity of the object is derived from the id. -/
def user_new_of_params (_session : InfSession) (params : List GParameter) : InfUser :=
  let id :=
    match inf_session_lookup_user_property params "id" with
    | some parameter => g_value_get_uint parameter.value
    | none => 0
  let name :=
    match inf_session_lookup_user_property params "name" with
    | some parameter => (g_value_get_string parameter.value).getD ""
    | none => ""
  { obj := 100 + id, id := id, name := name }

/-- The user-related part of a class that validates with
`accept_all_validation` and creates users with `user_new_of_params`. -/
def accept_all_user_class : InfSessionUserClass :=
  { inf_session_class_init.toInfSessionUserClass with
    validate_user_props := some accept_all_validation
    user_new := some user_new_of_params }

/-- The property list of a user with the given id and name, the id held as
`G_TYPE_UINT`. -/
def user_params (id : Nat) (name : String) : List GParameter :=
  [{ name := "id", value := GValue.uint id }, { name := "name", value := GValue.string (some name) }]

/-- The names of the users of a table are pairwise distinct. -/
@[reducible]
def user_names_distinct (table : List (Nat × InfUser)) : Prop :=
  (table.map (fun e => inf_user_get_name e.2)).Nodup

/-- Whether an effect is a registration with the connection manager. -/
def Effect.is_add_object : Effect → Bool
  | .add_object _ _ => true
  | _ => false

/-- The registrations with the connection manager in a log. -/
def registrations (log : List Effect) : List Effect :=
  log.filter Effect.is_add_object

/-- Whether a list of construction properties holds a `connection-manager`,
a `sync-connection` and a `sync-identifier`, none of them `NULL`. -/
def registration_ready (props : List InfSessionProperty) : Bool :=
  props.any (fun p => decide (p.is_manager = true ∧ p ≠ .PROP_CONNECTION_MANAGER none)) &&
    props.any InfSessionProperty.is_sync_connection &&
    props.any InfSessionProperty.is_sync_identifier

/-- The events that reach the outbound records of a session: a call of
`inf_session_synchronize_to`, the callbacks `sent`, `enqueued` and `received`
of the connection manager, a change of the status of a connection, and
`inf_session_close`. -/
inductive SessionEvent where
  | synchronize_to (connection : InfXmlConnection) (identifier : Option String)
  | sent (connection : InfXmlConnection) (node : xmlNode)
  | enqueued (connection : InfXmlConnection) (node : xmlNode)
  | received (connection : InfXmlConnection) (node : xmlNode)
  | notify_status (connection : InfXmlConnection) (status : InfXmlConnectionStatus)
  | close

/-- Whether an event is a call of `inf_session_synchronize_to`. -/
def SessionEvent.is_synchronize_to : SessionEvent → Bool
  | .synchronize_to _ _ => true
  | _ => false

/-- Whether an event is a call of `inf_session_close`. -/
def SessionEvent.is_close : SessionEvent → Bool
  | .close => true
  | _ => false

/-- One event on a session. -/
def apply_event (session_class : InfSessionClass) (session : InfSession) :
    SessionEvent → Except Fault InfSession
  | .synchronize_to connection identifier =>
    inf_session_synchronize_to session_class session connection identifier
  | .sent connection node => inf_session_net_object_sent session connection node
  | .enqueued connection node => inf_session_net_object_enqueued session connection node
  | .received connection node =>
    inf_session_net_object_received session_class session connection node
  | .notify_status connection status =>
    inf_session_connection_notify_status_cb session connection status
  | .close => inf_session_close session

/-- A sequence of events, one after the other. -/
def apply_events (session_class : InfSessionClass) (session : InfSession)
    (events : List SessionEvent) : Except Fault InfSession :=
  events.foldlM (apply_event session_class) session

/-- The outbound records of a session: the list `shared.run.syncs`, empty
while the other member of the union is the active one. -/
def sync_records (session : InfSession) : List InfSessionSync :=
  match session.shared with
  | .run syncs => syncs
  | .sync _ _ _ _ => []

/-- The connections of the outbound records of a session. -/
def sync_connections (session : InfSession) : List InfXmlConnection :=
  (sync_records session).map (fun sync => sync.conn)

/-- The counters of an outbound record are in range: at least 2 messages in
total, fewer sent than in total, and the total is a `guint`. -/
@[reducible]
def sync_record_valid (sync : InfSessionSync) : Prop :=
  2 ≤ sync.messages_total ∧ sync.messages_sent < sync.messages_total ∧
    sync.messages_total < GUINT_MOD

/-- A Running session whose outbound records are on pairwise distinct
connections and have their counters in range. -/
@[reducible]
def outbound_valid (session : InfSession) : Prop :=
  session.status = InfSessionStatus.INF_SESSION_RUNNING ∧
    session.shared = InfSessionShared.run (sync_records session) ∧
    (sync_connections session).Nodup ∧
    ∀ sync ∈ sync_records session, sync_record_valid sync

/-- Whether an effect is `synchronization-complete` or
`synchronization-failed` for the connection. -/
def Effect.is_terminal (connection : InfXmlConnection) : Effect → Bool
  | .emit_synchronization_complete c => decide (c = connection)
  | .emit_synchronization_failed c _ => decide (c = connection)
  | _ => false

/-- The emissions of `synchronization-complete` and `synchronization-failed`
for a connection in a log. -/
def terminal_events (log : List Effect) (connection : InfXmlConnection) : List Effect :=
  log.filter (Effect.is_terminal connection)

/-- A `process_xml_run` hook that leaves the status, the synchronization
state and the user table alone and emits neither `synchronization-complete`
nor `synchronization-failed`. -/
def run_hook_keeps_syncs
    (process_xml_run :
      Option (InfSessionUserClass → InfSession → InfXmlConnection → xmlNode →
        Except Fault InfSession)) : Prop :=
  ∀ hook, process_xml_run = some hook →
    ∀ session_class session connection node after,
      hook session_class session connection node = Except.ok after →
      after.status = session.status ∧ after.shared = session.shared ∧
        after.user_table = session.user_table ∧
        ∀ x, terminal_events after.log x = terminal_events session.log x

/-- What one event may do to the outbound records: a record that is there
before and after keeps its total, its `messages_sent` does not decrease and
its `end_enqueued` is not reset; and for every connection either the log has
gained no terminal emission, or it has gained exactly one and the record of
that connection, there before, is gone after. -/
def sync_step (before after : InfSession) : Prop :=
  (∀ r ∈ sync_records before, ∀ r' ∈ sync_records after, r'.conn = r.conn →
    r.messages_sent ≤ r'.messages_sent ∧ r'.messages_total = r.messages_total ∧
      (r.end_enqueued = true → r'.end_enqueued = true)) ∧
  ∀ x, terminal_events after.log x = terminal_events before.log x ∨
    (∃ e, terminal_events after.log x = terminal_events before.log x ++ [e] ∧
      x ∈ sync_connections before ∧ x ∉ sync_connections after)

/-- The states a session moves through once it is Running with valid
records: it is still such a session, or it is Closed and has no record. -/
def outbound_state (session : InfSession) : Prop :=
  outbound_valid session ∨
    (session.status = InfSessionStatus.INF_SESSION_CLOSED ∧ sync_records session = [])

/-! ## Lemmas on the inbound path -/

theorem release_connection_synchronizing (session : InfSession)
    (connection : InfXmlConnection) (total received : Nat) (identifier : Option String)
    (hstatus : session.status = InfSessionStatus.INF_SESSION_SYNCHRONIZING)
    (hshared : session.shared =
      InfSessionShared.sync (some connection) total received identifier) :
    inf_session_release_connection session connection
      = Except.ok
          { session with
            shared := InfSessionShared.sync none total received identifier
            objects := session.objects.filter (fun c => c ≠ connection)
            log := session.log ++ release_effects session.objects connection } := by
  by_cases hobj : connection ∈ session.objects
  · simp [inf_session_release_connection, hstatus, hshared, bind, Except.bind, pure,
      Except.pure, inf_connection_manager_has_object, inf_connection_manager_remove_object,
      g_signal_handlers_disconnect_by_func, g_object_unref, InfSession.record, hobj,
      release_effects]
  · simp [inf_session_release_connection, hstatus, hshared, bind, Except.bind, pure,
      Except.pure, inf_connection_manager_has_object,
      g_signal_handlers_disconnect_by_func, g_object_unref, InfSession.record, hobj,
      release_effects]
    symm
    rw [List.filter_eq_self]
    intro c hc
    simp only [Bool.not_eq_true', decide_eq_false_iff_not]
    rintro rfl
    exact hobj hc

theorem emit_failed_synchronizing (session : InfSession)
    (connection : InfXmlConnection) (total received : Nat) (identifier : Option String)
    (error : GError)
    (hstatus : session.status = InfSessionStatus.INF_SESSION_SYNCHRONIZING)
    (hshared : session.shared =
      InfSessionShared.sync (some connection) total received identifier) :
    g_signal_emit_synchronization_failed session connection error
      = Except.ok
          { session with
            shared := InfSessionShared.sync none total received identifier
            objects := session.objects.filter (fun c => c ≠ connection)
            log := session.log ++ [Effect.emit_synchronization_failed connection error] ++
              release_effects session.objects connection } := by
  have hs : (session.record (Effect.emit_synchronization_failed connection error)).status
      = InfSessionStatus.INF_SESSION_SYNCHRONIZING := hstatus
  have hsh : (session.record (Effect.emit_synchronization_failed connection error)).shared
      = InfSessionShared.sync (some connection) total received identifier := hshared
  unfold g_signal_emit_synchronization_failed inf_session_synchronization_failed_handler
  simp only [hs, hsh, ne_eq, not_true_eq_false, if_false]
  rw [release_connection_synchronizing _ connection total received identifier hs hsh]
  simp [InfSession.record]

theorem close_synchronizing_released (session : InfSession)
    (total received : Nat) (identifier : Option String)
    (hstatus : session.status = InfSessionStatus.INF_SESSION_SYNCHRONIZING)
    (hshared : session.shared = InfSessionShared.sync none total received identifier) :
    inf_session_close session
      = Except.ok
          { session with
            status := InfSessionStatus.INF_SESSION_CLOSED
            log := session.log ++ [Effect.notify_status] } := by
  simp [inf_session_close, inf_session_close_impl, hstatus, hshared, bind, Except.bind, pure,
    Except.pure, g_object_notify_status, InfSession.record]

/-- The three steps `inf_session_net_object_received` takes after a handler
has failed with an error, on a session that still holds its connection. -/
theorem error_path_synchronizing (session : InfSession)
    (connection : InfXmlConnection) (total received : Nat) (identifier : Option String)
    (error : GError)
    (hstatus : session.status = InfSessionStatus.INF_SESSION_SYNCHRONIZING)
    (hshared : session.shared =
      InfSessionShared.sync (some connection) total received identifier) :
    (do
      let session ← inf_session_send_sync_error session error
      let session ← g_signal_emit_synchronization_failed session connection error
      inf_session_close session)
      = Except.ok
          { session with
            status := InfSessionStatus.INF_SESSION_CLOSED
            shared := InfSessionShared.sync none total received identifier
            objects := session.objects.filter (fun c => c ≠ connection)
            log := session.log ++
              [Effect.send connection (sync_error_node error),
               Effect.emit_synchronization_failed connection error] ++
              release_effects session.objects connection ++ [Effect.notify_status] } := by
  have h1 : inf_session_send_sync_error session error
      = Except.ok (inf_connection_manager_send session connection (sync_error_node error)) := by
    simp [inf_session_send_sync_error, hstatus, hshared, pure, Except.pure, sync_error_node]
  have hs : (inf_connection_manager_send session connection (sync_error_node error)).status
      = InfSessionStatus.INF_SESSION_SYNCHRONIZING := hstatus
  have hsh : (inf_connection_manager_send session connection (sync_error_node error)).shared
      = InfSessionShared.sync (some connection) total received identifier := hshared
  rw [h1]
  simp only [bind, Except.bind]
  rw [emit_failed_synchronizing _ connection total received identifier error hs hsh]
  simp only []
  refine (close_synchronizing_released _ total received identifier ?_ ?_).trans ?_
  · exact hs
  · rfl
  · simp [inf_connection_manager_send, InfSession.record, hstatus]

theorem emit_complete_synchronizing (session : InfSession)
    (connection : InfXmlConnection) (total received : Nat) (identifier : Option String)
    (hstatus : session.status = InfSessionStatus.INF_SESSION_SYNCHRONIZING)
    (hshared : session.shared =
      InfSessionShared.sync (some connection) total received identifier) :
    g_signal_emit_synchronization_complete session connection
      = Except.ok
          { session with
            status := InfSessionStatus.INF_SESSION_RUNNING
            shared := InfSessionShared.run []
            objects := session.objects.filter (fun c => c ≠ connection)
            log := session.log ++ [Effect.emit_synchronization_complete connection] ++
              release_effects session.objects connection ++ [Effect.notify_status] } := by
  have hs : (session.record (Effect.emit_synchronization_complete connection)).status
      = InfSessionStatus.INF_SESSION_SYNCHRONIZING := hstatus
  have hsh : (session.record (Effect.emit_synchronization_complete connection)).shared
      = InfSessionShared.sync (some connection) total received identifier := hshared
  unfold g_signal_emit_synchronization_complete inf_session_synchronization_complete_handler
  simp only [hs, hsh, ne_eq, not_true_eq_false, if_false]
  rw [release_connection_synchronizing _ connection total received identifier hs hsh]
  simp [InfSession.record, bind, Except.bind, pure, Except.pure, g_object_notify_status]

/-! ## `strtoul` on decimal text -/

theorem strtoul_digits_decimal (cs : List Char) :
    ∀ acc n : Nat, decimal_digits_value cs acc = some n → strtoul_digits 10 cs acc = n := by
  induction cs with
  | nil =>
    intro acc n h
    simpa [decimal_digits_value, strtoul_digits] using h
  | cons c cs ih =>
    intro acc n h
    unfold decimal_digits_value at h
    by_cases hc : 48 ≤ c.toNat ∧ c.toNat ≤ 57
    · rw [if_pos hc] at h
      have hd : digit_value c = some (c.toNat - 48) := by
        unfold digit_value
        rw [if_pos hc]
      have hlt : c.toNat - 48 < 10 := by omega
      unfold strtoul_digits
      simp only [hd, hlt, if_true]
      exact ih _ _ h
    · rw [if_neg hc] at h
      exact absurd h (by simp)

theorem decimal_digits_value_head (c : Char) (cs : List Char) (acc n : Nat)
    (h : decimal_digits_value (c :: cs) acc = some n) : 48 ≤ c.toNat ∧ c.toNat ≤ 57 := by
  unfold decimal_digits_value at h
  by_cases hc : 48 ≤ c.toNat ∧ c.toNat ≤ 57
  · exact hc
  · rw [if_neg hc] at h
    exact absurd h (by simp)

theorem strtoul_decimal_text (text : String) (n : Nat)
    (htext : decimal_text text = some n) (hzero : no_leading_zero text)
    (hn : n ≤ ULONG_MAX) : strtoul text 0 = n := by
  rcases hzero with h0 | hhead
  · subst h0
    have : n = 0 := by
      have h : decimal_text "0" = some 0 := by decide
      rw [h] at htext
      exact (Option.some.inj htext).symm
    subst this
    decide
  · unfold decimal_text at htext
    cases hdata : text.data with
    | nil => simp [hdata] at htext
    | cons c cs =>
      rw [hdata] at htext hhead
      simp only at htext
      have hc := decimal_digits_value_head c cs 0 n htext
      have hval := strtoul_digits_decimal (c :: cs) 0 n htext
      have hne0 : c ≠ '0' := by simpa using hhead
      have hspace : isspace c = false := by
        have h1 : c ≠ ' ' := by rintro rfl; revert hc; decide
        have h2 : c ≠ '\t' := by rintro rfl; revert hc; decide
        have h3 : c ≠ '\n' := by rintro rfl; revert hc; decide
        have h4 : c ≠ '\x0b' := by rintro rfl; revert hc; decide
        have h5 : c ≠ '\x0c' := by rintro rfl; revert hc; decide
        have h6 : c ≠ '\r' := by rintro rfl; revert hc; decide
        simp [isspace, h1, h2, h3, h4, h5, h6]
      have hminus : c ≠ '-' := by rintro rfl; revert hc; decide
      have hplus : c ≠ '+' := by rintro rfl; revert hc; decide
      have h0x : starts_with_0x (c :: cs) = false := by
        cases cs with
        | nil => rfl
        | cons d ds => simp [starts_with_0x, hne0]
      have hgt : ¬ n > ULONG_MAX := by omega
      simp [strtoul, hdata, List.dropWhile, hspace, strtoul_signed, hminus, hplus,
        strtoul_unsigned, h0x, hne0, hval, hgt]

/-! ## Lemmas on a whole inbound stream -/

/-- A `sync-begin` with a decimal `num-messages`, handled in a session that has
seen none yet. -/
theorem handle_sync_begin_decimal (session_class : InfSessionClass)
    (f : InfSessionUserClass → InfSession → InfXmlConnection → xmlNode →
      Except Fault (InfSession × Bool × Option GError))
    (session : InfSession) (connection : InfXmlConnection) (node : xmlNode)
    (conn : Option InfXmlConnection) (received : Nat) (identifier : Option String)
    (text : String) (n : Nat)
    (hclass : session_class.process_xml_sync = some f)
    (hshared : session.shared = InfSessionShared.sync conn 0 received identifier)
    (hname : node.name = "sync-begin")
    (hattr : xmlGetProp node "num-messages" = some text)
    (htext : decimal_text text = some n) (hzero : no_leading_zero text)
    (hn : n + 2 < GUINT_MOD) :
    inf_session_handle_received_sync_message session_class session connection node
      = Except.ok
          ({ session with
              shared := InfSessionShared.sync conn (2 + n) 1 identifier
              log := session.log ++ [Effect.emit_synchronization_progress connection 1 (n + 2)] },
            true, none) := by
  have hmax : n ≤ ULONG_MAX := by
    unfold GUINT_MOD at hn
    unfold ULONG_MAX
    omega
  have hparse := strtoul_decimal_text text n htext hzero hmax
  have hmod : (2 + n) % GUINT_MOD = 2 + n := Nat.mod_eq_of_lt (by omega)
  have hcomm : n + 2 = 2 + n := by omega
  simp [inf_session_handle_received_sync_message, hclass, hshared, hname, hattr, hparse,
    hmod, hcomm, pure, Except.pure, g_signal_emit_synchronization_progress, InfSession.record]

theorem deliver_append (session_class : InfSessionClass) (connection : InfXmlConnection)
    (xs ys : List xmlNode) :
    ∀ session : InfSession,
      deliver session_class session connection (xs ++ ys)
        = (deliver session_class session connection xs >>= fun after =>
            deliver session_class after connection ys) := by
  induction xs with
  | nil =>
    intro session
    simp [deliver, bind, Except.bind, pure, Except.pure]
  | cons x xs ih =>
    intro session
    simp only [List.cons_append, deliver, bind, Except.bind]
    cases h : inf_session_net_object_received session_class session connection x with
    | error e => rfl
    | ok v =>
      simp only []
      have := ih v
      simp only [bind, Except.bind] at this
      exact this

theorem sync_signals_append (xs ys : List Effect) :
    sync_signals (xs ++ ys) = sync_signals xs ++ sync_signals ys := by
  simp [sync_signals]

theorem sync_signals_add_user (users : List InfUser) :
    sync_signals (users.map Effect.emit_add_user) = [] := by
  induction users with
  | nil => rfl
  | cons u us ih =>
    simp only [List.map_cons, sync_signals, List.filter_cons, Effect.is_sync_signal]
    simpa [sync_signals] using ih

theorem sync_signals_release (objects : List InfXmlConnection)
    (connection : InfXmlConnection) :
    sync_signals (release_effects objects connection) = [] := by
  by_cases hobj : connection ∈ objects <;>
    simp [sync_signals, release_effects, hobj, Effect.is_sync_signal]

/-- One accepted body message: the counter goes up by one and one progress is
emitted. -/
theorem received_body_accepted (session_class : InfSessionClass)
    (f : InfSessionUserClass → InfSession → InfXmlConnection → xmlNode →
      Except Fault (InfSession × Bool × Option GError))
    (session : InfSession) (connection : InfXmlConnection) (node : xmlNode)
    (total received : Nat) (identifier : Option String)
    (hclass : session_class.process_xml_sync = some f)
    (hstatus : session.status = InfSessionStatus.INF_SESSION_SYNCHRONIZING)
    (hshared : session.shared =
      InfSessionShared.sync (some connection) total received identifier)
    (hbegin : node.name ≠ "sync-begin") (hend : node.name ≠ "sync-end")
    (hfirst : received ≠ 0) (hlast : received ≠ (total + GUINT_MOD - 1) % GUINT_MOD)
    (haccept : codec_accepts f session_class.toInfSessionUserClass session connection node) :
    ∃ after : InfSession,
      inf_session_net_object_received session_class session connection node
        = Except.ok after ∧
      after.status = InfSessionStatus.INF_SESSION_SYNCHRONIZING ∧
      after.shared = InfSessionShared.sync (some connection) total
        ((received + 1) % GUINT_MOD) identifier ∧
      sync_signals after.log = sync_signals session.log ++
        [Effect.emit_synchronization_progress connection ((received + 1) % GUINT_MOD) total] := by
  obtain ⟨mid, error, users, hf, hmstatus, hmshared, hmlog⟩ := haccept
  rw [hshared] at hmshared
  refine ⟨{ mid with
      shared := InfSessionShared.sync (some connection) total
        ((received + 1) % GUINT_MOD) identifier
      log := mid.log ++
        [Effect.emit_synchronization_progress connection ((received + 1) % GUINT_MOD) total] },
    ?_, ?_, rfl, ?_⟩
  · simp [inf_session_net_object_received, hstatus, hshared,
      inf_session_handle_received_sync_message, hclass, hbegin, hend, hfirst, hlast, hf,
      hmshared, bind, Except.bind, pure, Except.pure,
      g_signal_emit_synchronization_progress, InfSession.record]
  · simp only [hmstatus, hstatus]
  · simp only [hmlog, sync_signals_append, sync_signals_add_user, List.append_nil]
    simp [sync_signals, Effect.is_sync_signal]

/-- A run of accepted body messages: the counter goes up by their number and
the progress events are those of the positions passed. -/
theorem deliver_bodies_accepted (session_class : InfSessionClass)
    (f : InfSessionUserClass → InfSession → InfXmlConnection → xmlNode →
      Except Fault (InfSession × Bool × Option GError))
    (connection : InfXmlConnection) (total : Nat) (identifier : Option String)
    (hclass : session_class.process_xml_sync = some f)
    (htotal : total < GUINT_MOD) (bodies : List xmlNode) :
    ∀ (session : InfSession) (received : Nat),
      session.status = InfSessionStatus.INF_SESSION_SYNCHRONIZING →
      session.shared = InfSessionShared.sync (some connection) total received identifier →
      0 < received → received + bodies.length + 1 = total →
      (∀ b ∈ bodies, b.name ≠ "sync-begin" ∧ b.name ≠ "sync-end") →
      codec_accepts_stream session_class f connection session bodies →
      ∃ after : InfSession,
        deliver session_class session connection bodies = Except.ok after ∧
        after.status = InfSessionStatus.INF_SESSION_SYNCHRONIZING ∧
        after.shared = InfSessionShared.sync (some connection) total
          (received + bodies.length) identifier ∧
        sync_signals after.log = sync_signals session.log ++
          (List.range bodies.length).map
            (fun i => Effect.emit_synchronization_progress connection (received + 1 + i) total) := by
  induction bodies with
  | nil =>
    intro session received hstatus hshared _ _ _ _
    exact ⟨session, rfl, hstatus, by simpa using hshared, by simp⟩
  | cons b bodies ih =>
    intro session received hstatus hshared hpos hsum hall haccept
    have hlen : (b :: bodies).length = bodies.length + 1 := rfl
    rw [hlen] at hsum
    obtain ⟨hb1, hb2⟩ := hall b (List.mem_cons_self _ _)
    obtain ⟨hb3, hnext⟩ := haccept
    have hlast : received ≠ (total + GUINT_MOD - 1) % GUINT_MOD := by
      have h1 : total + GUINT_MOD - 1 = (total - 1) + GUINT_MOD := by omega
      rw [h1, Nat.add_mod_right, Nat.mod_eq_of_lt (by omega)]
      omega
    obtain ⟨mid, hrecv, hmstatus, hmshared, hmlog⟩ :=
      received_body_accepted session_class f session connection b total received identifier
        hclass hstatus hshared hb1 hb2 (by omega) hlast hb3
    have hmod : (received + 1) % GUINT_MOD = received + 1 := Nat.mod_eq_of_lt (by omega)
    rw [hmod] at hmshared hmlog
    obtain ⟨after, hdel, hastatus, hashared, halog⟩ :=
      ih mid (received + 1) hmstatus hmshared (by omega) (by omega)
        (fun b' hb' => hall b' (List.mem_cons_of_mem _ hb')) (hnext mid hrecv)
    refine ⟨after, ?_, hastatus, ?_, ?_⟩
    · simp only [deliver, hrecv, bind, Except.bind]
      exact hdel
    · rw [hashared, hlen]
      congr 1
      omega
    · rw [halog, hmlog, hlen, List.range_succ_eq_map, List.map_cons, List.map_map,
        List.append_assoc]
      simp only [List.singleton_append, Nat.add_zero, Function.comp_def]
      congr 2
      apply List.map_congr_left
      intro i _
      congr 1
      omega

/-- The last message of a stream: `sync-end` at the position where the
counters say it is due. -/
theorem received_sync_end_complete (session_class : InfSessionClass)
    (f : InfSessionUserClass → InfSession → InfXmlConnection → xmlNode →
      Except Fault (InfSession × Bool × Option GError))
    (session : InfSession) (connection : InfXmlConnection) (node : xmlNode)
    (total received : Nat) (identifier : Option String)
    (hclass : session_class.process_xml_sync = some f)
    (hstatus : session.status = InfSessionStatus.INF_SESSION_SYNCHRONIZING)
    (hshared : session.shared =
      InfSessionShared.sync (some connection) total received identifier)
    (hname : node.name = "sync-end")
    (hcount : (received + 1) % GUINT_MOD = total) :
    inf_session_net_object_received session_class session connection node
      = Except.ok
          { session with
            status := InfSessionStatus.INF_SESSION_RUNNING
            shared := InfSessionShared.run []
            objects := session.objects.filter (fun c => c ≠ connection)
            log := session.log ++ [Effect.emit_synchronization_complete connection] ++
              release_effects session.objects connection ++ [Effect.notify_status] } := by
  have hhandle : inf_session_handle_received_sync_message session_class session connection node
      = Except.ok
          ({ session with
              status := InfSessionStatus.INF_SESSION_RUNNING
              shared := InfSessionShared.run []
              objects := session.objects.filter (fun c => c ≠ connection)
              log := session.log ++ [Effect.emit_synchronization_complete connection] ++
                release_effects session.objects connection ++ [Effect.notify_status] },
            true, none) := by
    have hsync : ("sync-end" = "sync-begin") = False := by decide
    simp only [inf_session_handle_received_sync_message, hclass, hshared, hname, hsync,
      if_false, if_true, hcount, ne_eq, not_true_eq_false]
    have hemit := emit_complete_synchronizing
      { session with
        shared := InfSessionShared.sync (some connection) total total identifier }
      connection total total identifier hstatus rfl
    simp only [bind, Except.bind, hemit]
    rfl
  simp only [inf_session_net_object_received, hstatus, hshared, hhandle, ne_eq,
    not_true_eq_false, if_false, bind, Except.bind]
  rfl

/-! ## Lemmas on the outbound path -/

theorem to_xml_sync_impl_nodes (session_class : InfSessionUserClass) (session : InfSession)
    (huser : session_class.user_to_xml = some inf_session_user_to_xml_impl)
    (table : List (Nat × InfUser)) :
    ∀ parent : List xmlNode,
      table.foldl
        (fun children entry =>
          inf_session_to_xml_sync_impl_foreach_func session_class session entry.2 children)
        parent
        = parent ++ table.map (fun entry => sync_user_node entry.2) := by
  induction table with
  | nil => intro parent; simp
  | cons e table ih =>
    intro parent
    rw [List.foldl_cons, ih]
    simp [inf_session_to_xml_sync_impl_foreach_func, huser, inf_session_user_to_xml_impl,
      xmlNewProp, xmlNewNode, sync_user_node, inf_user_get_id, inf_user_get_name]

/-- A call of `inf_session_synchronize_to` that passes its guards ends in the
read of `messages->children`. -/
theorem synchronize_to_aborts (session_class : InfSessionClass) (session : InfSession)
    (connection : InfXmlConnection) (identifier : String) (syncs : List InfSessionSync)
    (to_xml_sync : InfSessionUserClass → InfSession → List xmlNode → List xmlNode)
    (hto_xml : session_class.to_xml_sync = some to_xml_sync)
    (hstatus : session.status = InfSessionStatus.INF_SESSION_RUNNING)
    (hshared : session.shared = InfSessionShared.run syncs)
    (hnone : syncs.find? (fun item => item.conn = connection) = none) :
    inf_session_synchronize_to session_class session connection (some identifier)
      = Except.error Fault.null_pointer := by
  have hfind : inf_session_find_sync_by_connection session connection = Except.ok none := by
    simp [inf_session_find_sync_by_connection, inf_session_find_sync_item_by_connection,
      hstatus, hshared, hnone, pure, Except.pure]
  simp only [inf_session_synchronize_to, hstatus, ne_eq, not_true_eq_false, if_false,
    hfind, bind, Except.bind, hto_xml, hshared, xmlNewNode_NULL]
  rfl

/-- A call of `inf_session_synchronize_to` that returns has stopped at one of
its guards: the session is the one it was given. -/
theorem synchronize_to_returns (session_class : InfSessionClass) (session after : InfSession)
    (connection : InfXmlConnection) (identifier : Option String)
    (hstep : inf_session_synchronize_to session_class session connection identifier
      = Except.ok after) :
    after = session := by
  unfold inf_session_synchronize_to at hstep
  cases identifier with
  | none =>
    simp only [pure, Except.pure] at hstep
    exact (Except.ok.inj hstep).symm
  | some identifier =>
    simp only at hstep
    by_cases hstatus : session.status ≠ InfSessionStatus.INF_SESSION_RUNNING
    · rw [if_pos hstatus] at hstep
      exact (Except.ok.inj hstep).symm
    · rw [if_neg hstatus] at hstep
      cases hfind : inf_session_find_sync_by_connection session connection with
      | error f =>
        rw [hfind] at hstep
        cases hstep
      | ok found =>
        rw [hfind] at hstep
        by_cases hfound : found ≠ none
        · simp only [bind, Except.bind, hfound, if_true, ne_eq, not_false_eq_true] at hstep
          exact (Except.ok.inj hstep).symm
        · simp only [bind, Except.bind, hfound, if_false] at hstep
          cases hto : session_class.to_xml_sync with
          | none =>
            rw [hto] at hstep
            cases hsh : session.shared <;> rw [hsh] at hstep <;>
              exact (Except.ok.inj hstep).symm
          | some to_xml_sync =>
            rw [hto] at hstep
            cases hsh : session.shared <;> rw [hsh] at hstep <;> cases hstep

/-! ## Lemmas on closing -/

/-- Closing a Synchronizing session that still holds its connection. -/
theorem close_synchronizing_attached (session : InfSession)
    (connection : InfXmlConnection) (total received : Nat) (identifier : Option String)
    (hstatus : session.status = InfSessionStatus.INF_SESSION_SYNCHRONIZING)
    (hshared : session.shared =
      InfSessionShared.sync (some connection) total received identifier) :
    inf_session_close session
      = Except.ok
          { session with
            status := InfSessionStatus.INF_SESSION_CLOSED
            shared := InfSessionShared.sync none total received identifier
            objects := session.objects.filter (fun c => c ≠ connection)
            log := session.log ++
              [Effect.send connection
                (sync_error_node (inf_session_sync_error .RECEIVER_CANCELLED)),
               Effect.emit_synchronization_failed connection
                 (inf_session_sync_error .RECEIVER_CANCELLED)] ++
              release_effects session.objects connection ++ [Effect.notify_status] } := by
  have h1 : inf_session_send_sync_error session (inf_session_sync_error .RECEIVER_CANCELLED)
      = Except.ok (inf_connection_manager_send session connection
          (sync_error_node (inf_session_sync_error .RECEIVER_CANCELLED))) := by
    simp [inf_session_send_sync_error, hstatus, hshared, pure, Except.pure, sync_error_node]
  have hs : (inf_connection_manager_send session connection
      (sync_error_node (inf_session_sync_error .RECEIVER_CANCELLED))).status
      = InfSessionStatus.INF_SESSION_SYNCHRONIZING := hstatus
  have hsh : (inf_connection_manager_send session connection
      (sync_error_node (inf_session_sync_error .RECEIVER_CANCELLED))).shared
      = InfSessionShared.sync (some connection) total received identifier := hshared
  have h2 := emit_failed_synchronizing _ connection total received identifier
    (inf_session_sync_error .RECEIVER_CANCELLED) hs hsh
  simp only [inf_session_close, inf_session_close_impl, hstatus, hshared, h1, h2, bind,
    Except.bind, pure, Except.pure]
  simp [inf_connection_manager_send, InfSession.record, g_object_notify_status]

/-! ## Lemmas on the records of a Running session -/

theorem find_sync_running (session : InfSession) (connection : InfXmlConnection)
    (syncs : List InfSessionSync)
    (hstatus : session.status = InfSessionStatus.INF_SESSION_RUNNING)
    (hshared : session.shared = InfSessionShared.run syncs) :
    inf_session_find_sync_by_connection session connection
      = Except.ok (syncs.find? (fun item => item.conn = connection)) := by
  simp [inf_session_find_sync_by_connection, inf_session_find_sync_item_by_connection,
    hstatus, hshared, pure, Except.pure]

theorem release_connection_running (session : InfSession)
    (connection : InfXmlConnection) (syncs : List InfSessionSync) (sync : InfSessionSync)
    (hstatus : session.status = InfSessionStatus.INF_SESSION_RUNNING)
    (hshared : session.shared = InfSessionShared.run syncs)
    (hfind : syncs.find? (fun item => item.conn = connection) = some sync) :
    inf_session_release_connection session connection
      = Except.ok
          { session with
            shared := InfSessionShared.run (syncs.eraseP (fun item => item.conn = connection))
            objects := session.objects.filter (fun c => c ≠ connection)
            log := session.log ++ release_effects session.objects connection } := by
  by_cases hobj : connection ∈ session.objects
  · simp [inf_session_release_connection, inf_session_find_sync_item_by_connection, hstatus,
      hshared, hfind, bind, Except.bind, pure,
      Except.pure, inf_connection_manager_has_object, inf_connection_manager_remove_object,
      g_signal_handlers_disconnect_by_func, g_object_unref, InfSession.record, hobj,
      release_effects]
  · simp [inf_session_release_connection, inf_session_find_sync_item_by_connection, hstatus,
      hshared, hfind, bind, Except.bind, pure,
      Except.pure, inf_connection_manager_has_object,
      g_signal_handlers_disconnect_by_func, g_object_unref, InfSession.record, hobj,
      release_effects]
    symm
    rw [List.filter_eq_self]
    intro c hc
    simp only [Bool.not_eq_true', decide_eq_false_iff_not]
    rintro rfl
    exact hobj hc

theorem emit_failed_running (session : InfSession)
    (connection : InfXmlConnection) (syncs : List InfSessionSync) (sync : InfSessionSync)
    (error : GError)
    (hstatus : session.status = InfSessionStatus.INF_SESSION_RUNNING)
    (hshared : session.shared = InfSessionShared.run syncs)
    (hfind : syncs.find? (fun item => item.conn = connection) = some sync) :
    g_signal_emit_synchronization_failed session connection error
      = Except.ok
          { session with
            shared := InfSessionShared.run (syncs.eraseP (fun item => item.conn = connection))
            objects := session.objects.filter (fun c => c ≠ connection)
            log := session.log ++ [Effect.emit_synchronization_failed connection error] ++
              release_effects session.objects connection } := by
  have hs : (session.record (Effect.emit_synchronization_failed connection error)).status
      = InfSessionStatus.INF_SESSION_RUNNING := hstatus
  have hsh : (session.record (Effect.emit_synchronization_failed connection error)).shared
      = InfSessionShared.run syncs := hshared
  unfold g_signal_emit_synchronization_failed inf_session_synchronization_failed_handler
  simp only [hs, find_sync_running _ connection syncs hs hsh, hfind, bind, Except.bind,
    Option.isNone_some, Bool.false_eq_true, if_false]
  rw [release_connection_running _ connection syncs sync hs hsh hfind]
  simp [InfSession.record]

theorem emit_complete_running (session : InfSession)
    (connection : InfXmlConnection) (syncs : List InfSessionSync) (sync : InfSessionSync)
    (hstatus : session.status = InfSessionStatus.INF_SESSION_RUNNING)
    (hshared : session.shared = InfSessionShared.run syncs)
    (hfind : syncs.find? (fun item => item.conn = connection) = some sync) :
    g_signal_emit_synchronization_complete session connection
      = Except.ok
          { session with
            shared := InfSessionShared.run (syncs.eraseP (fun item => item.conn = connection))
            objects := session.objects.filter (fun c => c ≠ connection)
            log := session.log ++ [Effect.emit_synchronization_complete connection] ++
              release_effects session.objects connection } := by
  have hs : (session.record (Effect.emit_synchronization_complete connection)).status
      = InfSessionStatus.INF_SESSION_RUNNING := hstatus
  have hsh : (session.record (Effect.emit_synchronization_complete connection)).shared
      = InfSessionShared.run syncs := hshared
  unfold g_signal_emit_synchronization_complete inf_session_synchronization_complete_handler
  simp only [hs, find_sync_running _ connection syncs hs hsh, hfind, bind, Except.bind,
    Option.isNone_some, Bool.false_eq_true, if_false]
  rw [release_connection_running _ connection syncs sync hs hsh hfind]
  simp [InfSession.record]

/-- The loop of `inf_session_close_impl`, started with as many passes allowed
as there are records: every pass removes the head record, the loop ends with
the list empty. -/
theorem close_impl_while_running (syncs : List InfSessionSync) :
    ∀ session : InfSession,
      session.status = InfSessionStatus.INF_SESSION_RUNNING →
      session.shared = InfSessionShared.run syncs →
      inf_session_close_impl_while syncs.length session
          (inf_session_sync_error .RECEIVER_CANCELLED)
        = Except.ok
            { session with
              shared := InfSessionShared.run []
              objects := close_running_objects session.objects syncs
              log := session.log ++ close_running_effects session.objects syncs } := by
  induction syncs with
  | nil =>
    intro session hstatus hshared
    simp [inf_session_close_impl_while, hshared, pure, Except.pure, close_running_objects,
      close_running_effects]
    rw [← hshared]
  | cons sync rest ih =>
    intro session hstatus hshared
    have hfind : (sync :: rest).find? (fun item => item.conn = sync.conn) = some sync := by
      simp
    have herase : (sync :: rest).eraseP (fun item => item.conn = sync.conn) = rest := by
      simp
    rw [List.length_cons, inf_session_close_impl_while]
    simp only [hshared]
    by_cases hend : sync.end_enqueued = false
    · have hs : (inf_connection_manager_send
          (inf_connection_manager_cancel_outer session sync.conn) sync.conn
          (xmlNewNode "sync-cancel")).status = InfSessionStatus.INF_SESSION_RUNNING := hstatus
      have hsh : (inf_connection_manager_send
          (inf_connection_manager_cancel_outer session sync.conn) sync.conn
          (xmlNewNode "sync-cancel")).shared = InfSessionShared.run (sync :: rest) := hshared
      have hemit := emit_failed_running _ sync.conn (sync :: rest) sync
        (inf_session_sync_error .RECEIVER_CANCELLED) hs hsh hfind
      rw [herase] at hemit
      simp only [hend, if_true, hemit, bind, Except.bind]
      refine (ih _ ?_ ?_).trans ?_
      · exact hstatus
      · rfl
      · simp [close_running_objects, close_running_effects, cancel_effects, hend,
          inf_connection_manager_send, inf_connection_manager_cancel_outer,
          InfSession.record]
    · have hrel := release_connection_running session sync.conn (sync :: rest) sync
        hstatus hshared hfind
      rw [herase] at hrel
      simp only [hend, if_false, hrel, bind, Except.bind]
      refine (ih _ ?_ ?_).trans ?_
      · exact hstatus
      · rfl
      · simp [close_running_objects, close_running_effects, cancel_effects, hend]

/-- Closing a Running session. -/
theorem close_running (session : InfSession) (syncs : List InfSessionSync)
    (hstatus : session.status = InfSessionStatus.INF_SESSION_RUNNING)
    (hshared : session.shared = InfSessionShared.run syncs) :
    inf_session_close session
      = Except.ok
          { session with
            status := InfSessionStatus.INF_SESSION_CLOSED
            shared := InfSessionShared.run []
            objects := close_running_objects session.objects syncs
            log := session.log ++ close_running_effects session.objects syncs ++
              [Effect.notify_status] } := by
  simp only [inf_session_close, inf_session_close_impl, hstatus, hshared,
    close_impl_while_running syncs session hstatus hshared, bind, Except.bind, pure,
    Except.pure]
  simp [g_object_notify_status, InfSession.record]

theorem cancel_steps_of_release (objects : List InfXmlConnection)
    (connection : InfXmlConnection) :
    (release_effects objects connection).filter Effect.is_cancel_step = [] := by
  by_cases hobj : connection ∈ objects <;>
    simp [release_effects, hobj, Effect.is_cancel_step]

theorem cancel_steps_of_cancel (sync : InfSessionSync) :
    (cancel_effects sync).filter Effect.is_cancel_step = cancel_effects sync := by
  by_cases hend : sync.end_enqueued = false <;>
    simp [cancel_effects, hend, Effect.is_cancel_step]

theorem unref_of_release (objects : List InfXmlConnection) (connection : InfXmlConnection) :
    (release_effects objects connection).filter Effect.is_unref
      = [Effect.object_unref connection] := by
  by_cases hobj : connection ∈ objects <;>
    simp [release_effects, hobj, Effect.is_unref]

theorem unref_of_cancel (sync : InfSessionSync) :
    (cancel_effects sync).filter Effect.is_unref = [] := by
  by_cases hend : sync.end_enqueued = false <;>
    simp [cancel_effects, hend, Effect.is_unref]

theorem cancel_steps_of_close (syncs : List InfSessionSync) :
    ∀ objects : List InfXmlConnection,
      (close_running_effects objects syncs).filter Effect.is_cancel_step
        = (syncs.map cancel_effects).flatten := by
  induction syncs with
  | nil => intro objects; rfl
  | cons sync rest ih =>
    intro objects
    simp only [close_running_effects, List.filter_append, cancel_steps_of_release,
      cancel_steps_of_cancel, ih, List.map_cons, List.flatten_cons, List.append_nil]

theorem unref_of_close (syncs : List InfSessionSync) :
    ∀ objects : List InfXmlConnection,
      (close_running_effects objects syncs).filter Effect.is_unref
        = syncs.map (fun sync => Effect.object_unref sync.conn) := by
  induction syncs with
  | nil => intro objects; rfl
  | cons sync rest ih =>
    intro objects
    simp only [close_running_effects, List.filter_append, unref_of_release,
      unref_of_cancel, ih, List.map_cons, List.nil_append, List.singleton_append]

theorem find_sync_set (connection : InfXmlConnection) (f : InfSessionSync → InfSessionSync)
    (hf : ∀ item, (f item).conn = item.conn) (syncs : List InfSessionSync) :
    (InfSessionSync_set syncs connection f).find? (fun item => item.conn = connection)
      = (syncs.find? (fun item => item.conn = connection)).map f := by
  induction syncs with
  | nil => rfl
  | cons item rest ih =>
    unfold InfSessionSync_set
    by_cases h : item.conn = connection
    · simp [h, hf]
    · simp [h, ih]

theorem erase_sync_set (connection : InfXmlConnection) (f : InfSessionSync → InfSessionSync)
    (hf : ∀ item, (f item).conn = item.conn) (syncs : List InfSessionSync) :
    (InfSessionSync_set syncs connection f).eraseP (fun item => item.conn = connection)
      = syncs.eraseP (fun item => item.conn = connection) := by
  induction syncs with
  | nil => rfl
  | cons item rest ih =>
    unfold InfSessionSync_set
    by_cases h : item.conn = connection
    · simp [h, hf]
    · simp [h, ih]

theorem sync_set_of_not_found (connection : InfXmlConnection)
    (f : InfSessionSync → InfSessionSync) (syncs : List InfSessionSync)
    (hnone : syncs.find? (fun item => item.conn = connection) = none) :
    InfSessionSync_set syncs connection f = syncs := by
  induction syncs with
  | nil => rfl
  | cons item rest ih =>
    unfold InfSessionSync_set
    by_cases h : item.conn = connection
    · simp [h] at hnone
    · simp only [h, if_false]
      rw [ih]
      simpa [h] using hnone

theorem find_sync_none_iff (connection : InfXmlConnection) (syncs : List InfSessionSync) :
    syncs.find? (fun item => item.conn = connection) = none
      ↔ connection ∉ syncs.map (fun item => item.conn) := by
  induction syncs with
  | nil => simp
  | cons item rest ih =>
    by_cases h : item.conn = connection
    · simp [h]
    · have h' : ¬ connection = item.conn := fun e => h e.symm
      simp [h, h', ih]

/-! ## Lemmas on construction -/

theorem register_sync_status (session : InfSession) :
    (inf_session_register_sync session).status = session.status ∧
    (inf_session_register_sync session).shared = session.shared ∧
    (inf_session_register_sync session).manager = session.manager ∧
    (inf_session_register_sync session).buffer = session.buffer := by
  unfold inf_session_register_sync
  split <;> simp [inf_connection_manager_add_object, g_signal_connect_after, InfSession.record]

theorem set_property_step (session : InfSession) (prop : InfSessionProperty)
    (hshared : session.shared_matches_status)
    (hmanager : prop.is_manager = true → session.manager = none)
    (hbuffer : prop.is_buffer = true → session.buffer = none) :
    ∃ session', inf_session_set_property session prop = Except.ok session' ∧
      session'.shared_matches_status ∧
      (session'.status = InfSessionStatus.INF_SESSION_SYNCHRONIZING ↔
        session.status = InfSessionStatus.INF_SESSION_SYNCHRONIZING ∨ prop.is_sync = true) ∧
      (session'.manager ≠ none → session.manager ≠ none ∨ prop.is_manager = true) ∧
      (session'.buffer ≠ none → session.buffer ≠ none ∨ prop.is_buffer = true) := by
  rcases prop with value | value | value | value
  · have hm := hmanager rfl
    rcases value with _ | object
    · have heq : inf_session_set_property session (.PROP_CONNECTION_MANAGER none) =
          Except.ok (inf_session_register_sync { session with manager := none }) := by
        simp [inf_session_set_property, hm]; rfl
      obtain ⟨h1, h2, h3, h4⟩ := register_sync_status { session with manager := none }
      refine ⟨_, heq, ?_, ?_, ?_, ?_⟩
      · unfold InfSession.shared_matches_status
        rw [h1, h2]; exact hshared
      · rw [h1]; simp [InfSessionProperty.is_sync]
      · intro _; exact Or.inr rfl
      · rw [h4]; intro h; exact Or.inl h
    · have heq : inf_session_set_property session (.PROP_CONNECTION_MANAGER (some object)) =
          Except.ok (inf_session_register_sync
            (g_object_ref { session with manager := some object } object)) := by
        simp [inf_session_set_property, hm]; rfl
      obtain ⟨h1, h2, h3, h4⟩ := register_sync_status
        (g_object_ref { session with manager := some object } object)
      refine ⟨_, heq, ?_, ?_, ?_, ?_⟩
      · unfold InfSession.shared_matches_status
        rw [h1, h2]; exact hshared
      · rw [h1]; simp [InfSessionProperty.is_sync, g_object_ref, InfSession.record]
      · intro _; exact Or.inr rfl
      · rw [h4]; intro h; exact Or.inl h
  · have hb := hbuffer rfl
    rcases value with _ | object
    · refine ⟨{ session with buffer := none }, ?_, hshared, ?_, ?_, ?_⟩
      · simp [inf_session_set_property, hb]; rfl
      · simp [InfSessionProperty.is_sync]
      · intro h; exact Or.inl h
      · intro _; exact Or.inr rfl
    · refine ⟨g_object_ref { session with buffer := some object } object, ?_, hshared, ?_, ?_, ?_⟩
      · simp [inf_session_set_property, hb]; rfl
      · simp [InfSessionProperty.is_sync, g_object_ref, InfSession.record]
      · intro h; exact Or.inl h
      · intro _; exact Or.inr rfl
  · rcases value with _ | conn
    · refine ⟨session, rfl, hshared, ?_, ?_, ?_⟩
      · simp [InfSessionProperty.is_sync]
      · intro h; exact Or.inl h
      · intro h; exact Or.inl h
    · rcases hshared with ⟨hstatus, syncs, hrun⟩ | ⟨hstatus, c, t, r, i, hsync⟩
      · have heq : inf_session_set_property session (.PROP_SYNC_CONNECTION (some conn)) =
            Except.ok (inf_session_register_sync (g_object_ref
              { session with
                status := InfSessionStatus.INF_SESSION_SYNCHRONIZING
                shared := .sync (some conn) 0 0 none } conn)) := by
          simp [inf_session_set_property, inf_session_init_sync, hstatus]; rfl
        obtain ⟨h1, h2, h3, h4⟩ := register_sync_status (g_object_ref
              { session with
                status := InfSessionStatus.INF_SESSION_SYNCHRONIZING
                shared := .sync (some conn) 0 0 none } conn)
        refine ⟨_, heq, ?_, ?_, ?_, ?_⟩
        · unfold InfSession.shared_matches_status
          rw [h1, h2]
          exact Or.inr ⟨rfl, _, _, _, _, rfl⟩
        · rw [h1]; simp [InfSessionProperty.is_sync, g_object_ref, InfSession.record, hstatus]
        · rw [h3]; intro h; exact Or.inl h
        · rw [h4]; intro h; exact Or.inl h
      · have heq : inf_session_set_property session (.PROP_SYNC_CONNECTION (some conn)) =
            Except.ok (inf_session_register_sync (g_object_ref
              { session with shared := .sync (some conn) t r i } conn)) := by
          simp [inf_session_set_property, inf_session_init_sync, hstatus, hsync]; rfl
        obtain ⟨h1, h2, h3, h4⟩ := register_sync_status (g_object_ref
              { session with shared := .sync (some conn) t r i } conn)
        refine ⟨_, heq, ?_, ?_, ?_, ?_⟩
        · unfold InfSession.shared_matches_status
          rw [h1, h2]
          exact Or.inr ⟨hstatus, _, _, _, _, rfl⟩
        · rw [h1]; simp [InfSessionProperty.is_sync, g_object_ref, InfSession.record, hstatus]
        · rw [h3]; intro h; exact Or.inl h
        · rw [h4]; intro h; exact Or.inl h
  · rcases value with _ | identifier
    · refine ⟨session, rfl, hshared, ?_, ?_, ?_⟩
      · simp [InfSessionProperty.is_sync]
      · intro h; exact Or.inl h
      · intro h; exact Or.inl h
    · rcases hshared with ⟨hstatus, syncs, hrun⟩ | ⟨hstatus, c, t, r, i, hsync⟩
      · have heq : inf_session_set_property session (.PROP_SYNC_IDENTIFIER (some identifier)) =
            Except.ok (inf_session_register_sync
              { session with
                status := InfSessionStatus.INF_SESSION_SYNCHRONIZING
                shared := .sync none 0 0 (some identifier) }) := by
          simp [inf_session_set_property, inf_session_init_sync, hstatus]; rfl
        obtain ⟨h1, h2, h3, h4⟩ := register_sync_status
              { session with
                status := InfSessionStatus.INF_SESSION_SYNCHRONIZING
                shared := .sync none 0 0 (some identifier) }
        refine ⟨_, heq, ?_, ?_, ?_, ?_⟩
        · unfold InfSession.shared_matches_status
          rw [h1, h2]
          exact Or.inr ⟨rfl, _, _, _, _, rfl⟩
        · rw [h1]; simp [InfSessionProperty.is_sync]
        · rw [h3]; intro h; exact Or.inl h
        · rw [h4]; intro h; exact Or.inl h
      · have heq : inf_session_set_property session (.PROP_SYNC_IDENTIFIER (some identifier)) =
            Except.ok (inf_session_register_sync
              { session with shared := .sync c t r (some identifier) }) := by
          simp [inf_session_set_property, inf_session_init_sync, hstatus, hsync]; rfl
        obtain ⟨h1, h2, h3, h4⟩ := register_sync_status
              { session with shared := .sync c t r (some identifier) }
        refine ⟨_, heq, ?_, ?_, ?_, ?_⟩
        · unfold InfSession.shared_matches_status
          rw [h1, h2]
          exact Or.inr ⟨hstatus, _, _, _, _, rfl⟩
        · rw [h1]; simp [InfSessionProperty.is_sync, hstatus]
        · rw [h3]; intro h; exact Or.inl h
        · rw [h4]; intro h; exact Or.inl h

theorem set_property_fold (props : List InfSessionProperty) :
    ∀ session : InfSession, session.shared_matches_status →
      (session.manager ≠ none → props.countP InfSessionProperty.is_manager = 0) →
      (session.buffer ≠ none → props.countP InfSessionProperty.is_buffer = 0) →
      props.countP InfSessionProperty.is_manager ≤ 1 →
      props.countP InfSessionProperty.is_buffer ≤ 1 →
      ∃ session', props.foldlM inf_session_set_property session = Except.ok session' ∧
        session'.shared_matches_status ∧
        (session'.status = InfSessionStatus.INF_SESSION_SYNCHRONIZING ↔
          session.status = InfSessionStatus.INF_SESSION_SYNCHRONIZING ∨
            props.any InfSessionProperty.is_sync = true) := by
  induction props with
  | nil =>
    intro session hshared _ _ _ _
    exact ⟨session, rfl, hshared, by simp⟩
  | cons p ps ih =>
    intro session hshared hm hb hcm hcb
    rw [List.countP_cons] at hm hb hcm hcb
    have hpm : p.is_manager = true → session.manager = none := by
      intro hp
      by_contra hne
      have := hm hne
      simp [hp] at this
    have hpb : p.is_buffer = true → session.buffer = none := by
      intro hp
      by_contra hne
      have := hb hne
      simp [hp] at this
    obtain ⟨s1, hstep, hshared1, hstatus1, hm1, hb1⟩ :=
      set_property_step session p hshared hpm hpb
    have hm2 : s1.manager ≠ none → ps.countP InfSessionProperty.is_manager = 0 := by
      intro h
      rcases hm1 h with h0 | hp
      · exact (Nat.add_eq_zero_iff.mp (hm h0)).1
      · rw [if_pos hp] at hcm
        omega
    have hb2 : s1.buffer ≠ none → ps.countP InfSessionProperty.is_buffer = 0 := by
      intro h
      rcases hb1 h with h0 | hp
      · exact (Nat.add_eq_zero_iff.mp (hb h0)).1
      · rw [if_pos hp] at hcb
        omega
    obtain ⟨s2, hfold, hshared2, hstatus2⟩ :=
      ih s1 hshared1 hm2 hb2 (by omega) (by omega)
    refine ⟨s2, ?_, hshared2, ?_⟩
    · rw [List.foldlM_cons, hstep]
      exact hfold
    · rw [hstatus2, hstatus1, List.any_cons, Bool.or_eq_true, or_assoc]

theorem is_sync_either (props : List InfSessionProperty) :
    props.any InfSessionProperty.is_sync =
      (props.any InfSessionProperty.is_sync_connection ||
        props.any InfSessionProperty.is_sync_identifier) := by
  induction props with
  | nil => rfl
  | cons p ps ih =>
    simp only [List.any_cons, ih]
    rcases p with v | v | v | v <;> rcases v with _ | v <;>
      simp [InfSessionProperty.is_sync, InfSessionProperty.is_sync_connection,
        InfSessionProperty.is_sync_identifier]

/-! ## Lemmas on the user table -/

theorem lookup_user_by_id_aborts (session : InfSession) (user_id : Nat) :
    inf_session_lookup_user_by_id session user_id = Except.error Fault.uninitialised_pointer :=
  rfl

/-- Inserting into the user table leaves the status alone. -/
theorem g_hash_table_insert_status (session : InfSession) (key : Nat) (value : InfUser) :
    (g_hash_table_insert session key value).status = session.status := by
  unfold g_hash_table_insert
  cases g_hash_table_lookup session.user_table key <;> rfl

/-- Removing from the user table leaves the status alone. -/
theorem g_hash_table_remove_status (session : InfSession) (key : Nat) :
    (g_hash_table_remove session key).status = session.status := by
  unfold g_hash_table_remove
  cases g_hash_table_lookup session.user_table key <;> rfl

/-- The handler of `add-user` leaves the status alone. -/
theorem add_user_handler_status (session : InfSession) (user : InfUser) :
    (inf_session_add_user_handler session user).status = session.status := by
  unfold inf_session_add_user_handler
  simp only
  split_ifs <;> first | rfl | exact g_hash_table_insert_status _ _ _

/-- The function `inf_session_remove_user` leaves the status alone. -/
theorem remove_user_status (session : InfSession) (user : InfUser) :
    (inf_session_remove_user session user).status = session.status := by
  unfold inf_session_remove_user
  simp only
  split_ifs
  · rfl
  · simp only [g_object_unref, g_signal_emit_remove_user, inf_session_remove_user_handler,
      InfSession.record]
    split_ifs <;> first | rfl | exact g_hash_table_remove_status _ _

theorem lookup_remove_self {α : Type} (table : List (Nat × α)) (key : Nat) :
    g_hash_table_lookup (table.filter (fun e => e.1 ≠ key)) key = none := by
  have h : (table.filter (fun e => e.1 ≠ key)).find? (fun e => e.1 = key) = none := by
    rw [List.find?_eq_none]
    intro e he
    have := (List.mem_filter.mp he).2
    simpa using this
  unfold g_hash_table_lookup
  rw [h]

theorem lookup_remove_other {α : Type} (table : List (Nat × α)) (key other : Nat)
    (hne : other ≠ key) :
    g_hash_table_lookup (table.filter (fun e => e.1 ≠ key)) other =
      g_hash_table_lookup table other := by
  have h : (table.filter (fun e => e.1 ≠ key)).find? (fun e => e.1 = other) =
      table.find? (fun e => e.1 = other) := by
    rw [List.find?_filter]
    congr 1
    funext a
    by_cases ho : a.1 = other
    · have hk : ¬ a.1 = key := fun h => hne (ho.symm.trans h)
      simp [ho, hne]
    · simp [ho]
  unfold g_hash_table_lookup
  rw [h]

theorem lookup_mem {α : Type} (table : List (Nat × α)) (key : Nat) (value : α)
    (h : g_hash_table_lookup table key = some value) : (key, value) ∈ table := by
  unfold g_hash_table_lookup at h
  cases hf : table.find? (fun e => e.1 = key) with
  | none => rw [hf] at h; cases h
  | some e =>
    rw [hf] at h
    have hmem := List.mem_of_find?_eq_some hf
    have hkey := List.find?_some hf
    simp only [decide_eq_true_eq] at hkey
    cases h
    rw [← hkey]
    exact hmem

theorem lookup_by_name_removed (session : InfSession) (user : InfUser)
    (hnames : user_names_distinct session.user_table)
    (hstored : g_hash_table_lookup session.user_table (inf_user_get_id user) = some user) :
    inf_session_lookup_user_by_name
        (g_hash_table_remove session (inf_user_get_id user))
        (some (inf_user_get_name user)) = none := by
  have hmem := lookup_mem _ _ _ hstored
  have hinj := List.inj_on_of_nodup_map hnames
  have h : (session.user_table.filter (fun e => e.1 ≠ inf_user_get_id user)).find?
      (fun e => inf_session_lookup_user_by_name_func e.1 e.2 (inf_user_get_name user)) =
        none := by
    rw [List.find?_eq_none]
    intro e he hname
    have hin := (List.mem_filter.mp he).1
    have hkey := (List.mem_filter.mp he).2
    have heq : inf_user_get_name e.2 = inf_user_get_name user := by
      simpa [inf_session_lookup_user_by_name_func] using hname
    have := hinj hin hmem heq
    rw [this] at hkey
    simp at hkey
  simp only [inf_session_lookup_user_by_name, g_hash_table_find, g_hash_table_remove,
    hstored, g_object_unref, InfSession.record]
  rw [h]

/-- Removing the user the table stores under its id: the session afterwards,
and what the table then holds.  The lookup by name needs the names of the
table to be pairwise distinct. -/
theorem remove_user_stored (session : InfSession) (user : InfUser)
    (hstored : g_hash_table_lookup session.user_table (inf_user_get_id user) = some user) :
    inf_session_remove_user session user =
        { session with
          user_table := session.user_table.filter (fun e => e.1 ≠ inf_user_get_id user)
          log := session.log ++
            [Effect.object_ref user.obj, Effect.emit_remove_user user,
             Effect.object_unref user.obj, Effect.object_unref user.obj] } ∧
      g_hash_table_lookup (inf_session_remove_user session user).user_table
        (inf_user_get_id user) = none ∧
      (user_names_distinct session.user_table →
        inf_session_lookup_user_by_name (inf_session_remove_user session user)
          (some (inf_user_get_name user)) = none) ∧
      ∀ other, other ≠ inf_user_get_id user →
        g_hash_table_lookup (inf_session_remove_user session user).user_table other =
          g_hash_table_lookup session.user_table other := by
  have heq : inf_session_remove_user session user =
      { session with
        user_table := session.user_table.filter (fun e => e.1 ≠ inf_user_get_id user)
        log := session.log ++
          [Effect.object_ref user.obj, Effect.emit_remove_user user,
           Effect.object_unref user.obj, Effect.object_unref user.obj] } := by
    simp [inf_session_remove_user, hstored, g_object_ref, g_object_unref,
      g_signal_emit_remove_user, inf_session_remove_user_handler, InfSession.record,
      g_hash_table_remove]
  rw [heq]
  refine ⟨rfl, lookup_remove_self _ _, ?_, fun other hne => lookup_remove_other _ _ _ hne⟩
  intro hnames
  have h := lookup_by_name_removed session user hnames hstored
  simp only [g_hash_table_remove, hstored, g_object_unref, InfSession.record,
    inf_session_lookup_user_by_name, g_hash_table_find] at h ⊢
  exact h

theorem user_names_distinct_sublist (table table' : List (Nat × InfUser))
    (hsub : table'.Sublist table) (h : user_names_distinct table) :
    user_names_distinct table' :=
  (hsub.map _).nodup h

/-- One pass of the loop of `inf_session_close_impl` on a list that starts
with `sync`: the rest of the run is the loop on the session without that
record. -/
theorem close_impl_while_pass (session : InfSession) (sync : InfSessionSync)
    (rest : List InfSessionSync) (fuel : Nat)
    (hstatus : session.status = InfSessionStatus.INF_SESSION_RUNNING)
    (hshared : session.shared = InfSessionShared.run (sync :: rest)) :
    inf_session_close_impl_while (fuel + 1) session
        (inf_session_sync_error .RECEIVER_CANCELLED) =
      inf_session_close_impl_while fuel
        { session with
          shared := InfSessionShared.run rest
          objects := session.objects.filter (fun c => c ≠ sync.conn)
          log := session.log ++ (cancel_effects sync ++
            release_effects session.objects sync.conn) }
        (inf_session_sync_error .RECEIVER_CANCELLED) := by
  have hfind : (sync :: rest).find? (fun item => item.conn = sync.conn) = some sync := by
    simp
  have herase : (sync :: rest).eraseP (fun item => item.conn = sync.conn) = rest := by
    simp
  rw [inf_session_close_impl_while]
  simp only [hshared]
  by_cases hend : sync.end_enqueued = false
  · have hs : (inf_connection_manager_send
        (inf_connection_manager_cancel_outer session sync.conn) sync.conn
        (xmlNewNode "sync-cancel")).status = InfSessionStatus.INF_SESSION_RUNNING := hstatus
    have hsh : (inf_connection_manager_send
        (inf_connection_manager_cancel_outer session sync.conn) sync.conn
        (xmlNewNode "sync-cancel")).shared = InfSessionShared.run (sync :: rest) := hshared
    have hemit := emit_failed_running _ sync.conn (sync :: rest) sync
      (inf_session_sync_error .RECEIVER_CANCELLED) hs hsh hfind
    rw [herase] at hemit
    simp only [hend, if_true, hemit, bind, Except.bind]
    congr 1
    simp [cancel_effects, hend, inf_connection_manager_send,
      inf_connection_manager_cancel_outer, InfSession.record]
  · have hrel := release_connection_running session sync.conn (sync :: rest) sync
      hstatus hshared hfind
    rw [herase] at hrel
    simp only [hend, if_false, hrel, bind, Except.bind]
    simp [cancel_effects, hend]

theorem close_impl_while_fuel (syncs : List InfSessionSync) :
    ∀ (session : InfSession) (fuel : Nat),
      session.status = InfSessionStatus.INF_SESSION_RUNNING →
      session.shared = InfSessionShared.run syncs →
      (syncs.length ≤ fuel →
        inf_session_close_impl_while fuel session
            (inf_session_sync_error .RECEIVER_CANCELLED)
          = Except.ok
              { session with
                shared := InfSessionShared.run []
                objects := close_running_objects session.objects syncs
                log := session.log ++ close_running_effects session.objects syncs }) ∧
      (fuel < syncs.length →
        inf_session_close_impl_while fuel session
            (inf_session_sync_error .RECEIVER_CANCELLED)
          = Except.error Fault.loop_bound) := by
  induction syncs with
  | nil =>
    intro session fuel hstatus hshared
    constructor
    · intro _
      cases fuel <;>
        simp [inf_session_close_impl_while, hshared, pure, Except.pure, close_running_objects,
          close_running_effects] <;> rw [← hshared]
    · intro h
      simp at h
  | cons sync rest ih =>
    intro session fuel hstatus hshared
    cases fuel with
    | zero =>
      constructor
      · intro h
        simp at h
      · intro _
        simp [inf_session_close_impl_while, hshared, throw, throwThe, MonadExceptOf.throw]
    | succ fuel =>
      rw [close_impl_while_pass session sync rest fuel hstatus hshared]
      obtain ⟨h1, h2⟩ := ih
        { session with
          shared := InfSessionShared.run rest
          objects := session.objects.filter (fun c => c ≠ sync.conn)
          log := session.log ++ (cancel_effects sync ++
            release_effects session.objects sync.conn) } fuel hstatus rfl
      constructor
      · intro h
        rw [h1 (by simpa using h)]
        simp [close_running_objects, close_running_effects]
      · intro h
        exact h2 (by simpa using h)

/-! ## Lemmas on transport close, error replies and attributes -/

theorem find_erase_other (connection other : InfXmlConnection) (hne : other ≠ connection)
    (syncs : List InfSessionSync) :
    (syncs.eraseP (fun item => item.conn = connection)).find?
        (fun item => item.conn = other) =
      syncs.find? (fun item => item.conn = other) := by
  induction syncs with
  | nil => rfl
  | cons item rest ih =>
    have hne' : ¬ connection = other := fun e => hne e.symm
    by_cases h : item.conn = connection
    · simp [List.eraseP_cons, h, List.find?_cons, hne']
    · by_cases ho : item.conn = other
      · simp [List.eraseP_cons, List.find?_cons, ho, hne]
      · simp [List.eraseP_cons, h, List.find?_cons, ho, ih]

theorem find_erase_self (connection : InfXmlConnection) (syncs : List InfSessionSync)
    (hnodup : (syncs.map (fun item => item.conn)).Nodup) :
    (syncs.eraseP (fun item => item.conn = connection)).find?
        (fun item => item.conn = connection) = none := by
  induction syncs with
  | nil => rfl
  | cons item rest ih =>
    rw [List.map_cons, List.nodup_cons] at hnodup
    by_cases h : item.conn = connection
    · have hnot : connection ∉ rest.map (fun item => item.conn) := h ▸ hnodup.1
      simp only [List.eraseP_cons, h, decide_True, cond_true]
      exact (find_sync_none_iff connection rest).mpr hnot
    · simp [List.eraseP_cons, h, List.find?_cons, ih hnodup.2]

/-- What `inf_session_net_object_received` does in a Running session with a
`sync-error` that carries both attributes, on a connection with a record. -/
theorem received_sync_error_running (session_class : InfSessionClass) (session : InfSession)
    (connection : InfXmlConnection) (node : xmlNode) (syncs : List InfSessionSync)
    (sync : InfSessionSync) (domain code : String)
    (hstatus : session.status = InfSessionStatus.INF_SESSION_RUNNING)
    (hshared : session.shared = InfSessionShared.run syncs)
    (hfind : syncs.find? (fun item => item.conn = connection) = some sync)
    (hname : node.name = "sync-error")
    (hdomain : xmlGetProp node "domain" = some domain)
    (hcode : xmlGetProp node "code" = some code) :
    inf_session_net_object_received session_class session connection node
      = Except.ok
          { session with
            shared := InfSessionShared.run
              (syncs.eraseP (fun item => item.conn = connection))
            objects := session.objects.filter (fun c => c ≠ connection)
            log := session.log ++
              [Effect.cancel_outer connection,
               Effect.emit_synchronization_failed connection
                 (g_set_error domain (gint_of_guint (strtoul code 0 % GUINT_MOD))
                   (inf_session_get_sync_error_message domain
                     (strtoul code 0 % GUINT_MOD)))] ++
              release_effects session.objects connection } := by
  have hs : (inf_connection_manager_cancel_outer session connection).status
      = InfSessionStatus.INF_SESSION_RUNNING := hstatus
  have hsh : (inf_connection_manager_cancel_outer session connection).shared
      = InfSessionShared.run syncs := hshared
  have hemit := emit_failed_running _ connection syncs sync
    (g_set_error domain (gint_of_guint (strtoul code 0 % GUINT_MOD))
      (inf_session_get_sync_error_message domain (strtoul code 0 % GUINT_MOD))) hs hsh hfind
  simp only [inf_session_net_object_received, hstatus, hname, if_true, hdomain, hcode,
    hemit]
  simp [inf_connection_manager_cancel_outer, InfSession.record, hstatus]

theorem sync_error_node_read (kind : InfSessionSyncError) :
    (sync_error_node (inf_session_sync_error kind)).name = "sync-error" ∧
    xmlGetProp (sync_error_node (inf_session_sync_error kind)) "domain" =
      some inf_session_sync_error_quark ∧
    xmlGetProp (sync_error_node (inf_session_sync_error kind)) "code" =
      some (sprintf_u kind.code) ∧
    g_set_error inf_session_sync_error_quark
      (gint_of_guint (strtoul (sprintf_u kind.code) 0 % GUINT_MOD))
      (inf_session_get_sync_error_message inf_session_sync_error_quark
        (strtoul (sprintf_u kind.code) 0 % GUINT_MOD)) = inf_session_sync_error kind := by
  cases kind <;> exact ⟨rfl, rfl, rfl, by decide⟩

theorem get_xml_user_props_attributes (session : InfSession) (conn : InfXmlConnection)
    (node node' : xmlNode)
    (hid : xmlGetProp node "id" = xmlGetProp node' "id")
    (hname : xmlGetProp node "name" = xmlGetProp node' "name") :
    inf_session_get_xml_user_props_impl session conn node =
      inf_session_get_xml_user_props_impl session conn node' := by
  unfold inf_session_get_xml_user_props_impl
  rw [hid, hname]

/-! ## Lemmas on the order of construction -/

theorem four_orders (m b : Nat) (c : InfXmlConnection) (i : String)
    (props : List InfSessionProperty)
    (horder : props.Perm
      [.PROP_CONNECTION_MANAGER (some m), .PROP_BUFFER (some b),
        .PROP_SYNC_CONNECTION (some c), .PROP_SYNC_IDENTIFIER (some i)]) :
    ∃ p1 p2 p3 p4, props = [p1, p2, p3, p4] ∧ [p1, p2, p3, p4].Nodup ∧
      (∀ p ∈ [p1, p2, p3, p4],
        p = .PROP_CONNECTION_MANAGER (some m) ∨ p = .PROP_BUFFER (some b) ∨
          p = .PROP_SYNC_CONNECTION (some c) ∨ p = .PROP_SYNC_IDENTIFIER (some i)) := by
  have hlen := horder.length_eq
  have hnodup : props.Nodup := horder.nodup_iff.mpr (by simp)
  have hmem : ∀ p ∈ props,
      p = .PROP_CONNECTION_MANAGER (some m) ∨ p = .PROP_BUFFER (some b) ∨
        p = .PROP_SYNC_CONNECTION (some c) ∨ p = .PROP_SYNC_IDENTIFIER (some i) := by
    intro p hp
    simpa using horder.subset hp
  match props, hlen with
  | [p1, p2, p3, p4], _ => exact ⟨p1, p2, p3, p4, rfl, hnodup, hmem⟩

/-! ## Lemmas on the events of a Running session -/

theorem terminal_events_append (a b : List Effect) (x : InfXmlConnection) :
    terminal_events (a ++ b) x = terminal_events a x ++ terminal_events b x := by
  simp [terminal_events]

theorem terminal_events_release (objects : List InfXmlConnection)
    (connection x : InfXmlConnection) :
    terminal_events (release_effects objects connection) x = [] := by
  unfold release_effects terminal_events
  by_cases h : connection ∈ objects <;> simp [h, Effect.is_terminal]

theorem sync_records_run (session : InfSession) (syncs : List InfSessionSync)
    (hshared : session.shared = InfSessionShared.run syncs) :
    sync_records session = syncs := by
  unfold sync_records
  rw [hshared]

theorem sync_set_conns (connection : InfXmlConnection) (f : InfSessionSync → InfSessionSync)
    (hf : ∀ item, (f item).conn = item.conn) (syncs : List InfSessionSync) :
    (InfSessionSync_set syncs connection f).map (fun item => item.conn) =
      syncs.map (fun item => item.conn) := by
  induction syncs with
  | nil => rfl
  | cons item rest ih =>
    unfold InfSessionSync_set
    by_cases h : item.conn = connection
    · simp [h, hf]
    · simp [h, ih]

theorem sync_set_mem (connection : InfXmlConnection) (f : InfSessionSync → InfSessionSync)
    (syncs : List InfSessionSync) (r' : InfSessionSync)
    (hmem : r' ∈ InfSessionSync_set syncs connection f) :
    r' ∈ syncs ∨ ∃ r ∈ syncs, r.conn = connection ∧ r' = f r := by
  induction syncs with
  | nil => simp [InfSessionSync_set] at hmem
  | cons item rest ih =>
    unfold InfSessionSync_set at hmem
    by_cases h : item.conn = connection
    · rw [if_pos h] at hmem
      rcases List.mem_cons.mp hmem with e | e
      · exact Or.inr ⟨item, List.mem_cons_self _ _, h, e⟩
      · exact Or.inl (List.mem_cons_of_mem _ e)
    · rw [if_neg h] at hmem
      rcases List.mem_cons.mp hmem with e | e
      · exact Or.inl (e ▸ List.mem_cons_self _ _)
      · rcases ih e with e' | ⟨r, hr, hc, hr'⟩
        · exact Or.inl (List.mem_cons_of_mem _ e')
        · exact Or.inr ⟨r, List.mem_cons_of_mem _ hr, hc, hr'⟩

theorem same_conn_eq (syncs : List InfSessionSync)
    (hnodup : (syncs.map (fun item => item.conn)).Nodup) (r r' : InfSessionSync)
    (hr : r ∈ syncs) (hr' : r' ∈ syncs) (hconn : r'.conn = r.conn) : r' = r :=
  List.inj_on_of_nodup_map hnodup hr' hr hconn

theorem find_of_mem (syncs : List InfSessionSync)
    (hnodup : (syncs.map (fun item => item.conn)).Nodup) (r : InfSessionSync)
    (hr : r ∈ syncs) :
    syncs.find? (fun item => item.conn = r.conn) = some r := by
  cases hf : syncs.find? (fun item => item.conn = r.conn) with
  | none =>
    have := List.find?_eq_none.mp hf r hr
    simp at this
  | some r' =>
    have hmem := List.mem_of_find?_eq_some hf
    have hconn := List.find?_some hf
    simp only [decide_eq_true_eq] at hconn
    rw [same_conn_eq syncs hnodup r r' hr hmem hconn]

/-- A step that leaves the status, the records and the user table as they
are and adds no terminal emission. -/
theorem shape_same (before after : InfSession)
    (hstatus : after.status = before.status) (hshared : after.shared = before.shared)
    (htable : after.user_table = before.user_table)
    (hterm : ∀ x, terminal_events after.log x = terminal_events before.log x)
    (hvalid : outbound_valid before) :
    outbound_valid after ∧ after.user_table = before.user_table ∧ sync_step before after ∧
      ∀ x, x ∉ sync_connections before → x ∉ sync_connections after := by
  have hrec : sync_records after = sync_records before := by
    unfold sync_records
    rw [hshared]
  have hconn : sync_connections after = sync_connections before := by
    unfold sync_connections
    rw [hrec]
  obtain ⟨h1, h2, h3, h4⟩ := hvalid
  refine ⟨⟨hstatus.trans h1, ?_, hconn ▸ h3, hrec ▸ h4⟩, htable, ⟨?_, fun x => Or.inl (hterm x)⟩,
    fun x hx => hconn ▸ hx⟩
  · rw [hshared, hrec]
    exact h2
  · intro r hr r' hr' hc
    rw [hrec] at hr'
    rw [same_conn_eq _ h3 r r' hr hr' hc]
    exact ⟨le_refl _, rfl, fun h => h⟩

/-- A step that rewrites the record of one connection in place and adds no
terminal emission. -/
theorem shape_set (before after : InfSession) (connection : InfXmlConnection)
    (f : InfSessionSync → InfSessionSync) (sync : InfSessionSync)
    (hvalid : outbound_valid before)
    (hfind : (sync_records before).find? (fun item => item.conn = connection) = some sync)
    (hconn : ∀ item, (f item).conn = item.conn)
    (htotal : (f sync).messages_total = sync.messages_total)
    (hsent : sync.messages_sent ≤ (f sync).messages_sent)
    (hend : sync.end_enqueued = true → (f sync).end_enqueued = true)
    (hnew : sync_record_valid (f sync))
    (hstatus : after.status = InfSessionStatus.INF_SESSION_RUNNING)
    (hshared : after.shared =
      InfSessionShared.run (InfSessionSync_set (sync_records before) connection f))
    (htable : after.user_table = before.user_table)
    (hterm : ∀ x, terminal_events after.log x = terminal_events before.log x) :
    outbound_valid after ∧ after.user_table = before.user_table ∧ sync_step before after ∧
      ∀ x, x ∉ sync_connections before → x ∉ sync_connections after := by
  obtain ⟨_, _, h3, h4⟩ := hvalid
  have hrec := sync_records_run after _ hshared
  have hconns : sync_connections after = sync_connections before := by
    unfold sync_connections
    rw [hrec, sync_set_conns connection f hconn]
  have hthe : ∀ r ∈ sync_records before, r.conn = connection → r = sync := by
    intro r hr hc
    have := find_of_mem _ h3 r hr
    rw [hc, hfind] at this
    exact (Option.some.inj this).symm
  refine ⟨⟨hstatus, hrec ▸ hshared, hconns ▸ h3, ?_⟩, htable, ⟨?_, fun x => Or.inl (hterm x)⟩,
    fun x hx => hconns ▸ hx⟩
  · intro r' hr'
    rw [hrec] at hr'
    rcases sync_set_mem connection f _ r' hr' with h | ⟨r, hr, hc, he⟩
    · exact h4 r' h
    · rw [he, hthe r hr hc]
      exact hnew
  · intro r hr r' hr' hc
    rw [hrec] at hr'
    rcases sync_set_mem connection f _ r' hr' with h | ⟨r0, hr0, hc0, he⟩
    · rw [same_conn_eq _ h3 r r' hr h hc]
      exact ⟨le_refl _, rfl, fun h => h⟩
    · have h0 : r0 = r := by
        apply same_conn_eq _ h3 r r0 hr hr0
        rw [← hc, he, hconn]
      have h1 : r0 = sync := hthe r0 hr0 hc0
      rw [he, ← h0, h1]
      exact ⟨hsent, htotal, hend⟩

/-- A step that releases the record of one connection and adds exactly one
terminal emission, for that connection. -/
theorem shape_erase (before after : InfSession) (connection : InfXmlConnection)
    (sync : InfSessionSync) (e : Effect)
    (hvalid : outbound_valid before)
    (hfind : (sync_records before).find? (fun item => item.conn = connection) = some sync)
    (hstatus : after.status = InfSessionStatus.INF_SESSION_RUNNING)
    (hshared : after.shared =
      InfSessionShared.run
        ((sync_records before).eraseP (fun item => item.conn = connection)))
    (htable : after.user_table = before.user_table)
    (hterm : ∀ x, terminal_events after.log x =
      terminal_events before.log x ++ (if x = connection then [e] else [])) :
    outbound_valid after ∧ after.user_table = before.user_table ∧ sync_step before after ∧
      ∀ x, x ∉ sync_connections before → x ∉ sync_connections after := by
  obtain ⟨_, _, h3, h4⟩ := hvalid
  have hrec := sync_records_run after _ hshared
  have hsub : (sync_records after).Sublist (sync_records before) := by
    rw [hrec]
    exact List.eraseP_sublist _
  have hsubc : (sync_connections after).Sublist (sync_connections before) := hsub.map _
  refine ⟨⟨hstatus, hrec ▸ hshared, hsubc.nodup h3, fun r hr => h4 r (hsub.subset hr)⟩, htable,
    ⟨?_, ?_⟩, fun x hx hx' => hx (hsubc.subset hx')⟩
  · intro r hr r' hr' hc
    rw [same_conn_eq _ h3 r r' hr (hsub.subset hr') hc]
    exact ⟨le_refl _, rfl, fun h => h⟩
  · intro x
    by_cases hx : x = connection
    · refine Or.inr ⟨e, ?_, ?_, ?_⟩
      · rw [hterm x, if_pos hx]
      · rw [hx]
        unfold sync_connections
        by_contra hnot
        have := (find_sync_none_iff connection _).mpr hnot
        rw [hfind] at this
        cases this
      · rw [hx]
        unfold sync_connections
        rw [hrec]
        exact (find_sync_none_iff connection _).mp (find_erase_self connection _ h3)
    · refine Or.inl ?_
      rw [hterm x, if_neg hx, List.append_nil]

theorem terminal_events_self (before : InfSession) (delta : List Effect)
    (hdelta : ∀ x, terminal_events delta x = []) (x : InfXmlConnection) :
    terminal_events (before.log ++ delta) x = terminal_events before.log x := by
  rw [terminal_events_append, hdelta, List.append_nil]

/-- The event `synchronize_to` on a valid Running session: a call that
returns has left the session as it was. -/
theorem synchronize_to_step
    (user_new : Option (InfSession → List GParameter → InfUser))
    (process_xml_run :
      Option (InfSessionUserClass → InfSession → InfXmlConnection → xmlNode →
        Except Fault InfSession))
    (session after : InfSession) (connection : InfXmlConnection)
    (identifier : Option String)
    (hvalid : outbound_valid session)
    (hstep : inf_session_synchronize_to (inf_session_derived_class user_new process_xml_run)
      session connection identifier = Except.ok after) :
    outbound_valid after ∧ after.user_table = session.user_table ∧ sync_step session after := by
  have h := synchronize_to_returns _ session after connection identifier hstep
  have := shape_same session after (by rw [h]) (by rw [h]) (by rw [h])
    (fun x => by rw [h]) hvalid
  exact ⟨this.1, this.2.1, this.2.2.1⟩

theorem step_unchanged (session : InfSession) (hvalid : outbound_valid session) :
    outbound_valid session ∧ session.user_table = session.user_table ∧
      sync_step session session ∧
      ∀ x, x ∉ sync_connections session → x ∉ sync_connections session :=
  shape_same session session rfl rfl rfl (fun _ => rfl) hvalid

/-- The event `sent` on a valid Running session. -/
theorem sent_step (session after : InfSession) (connection : InfXmlConnection)
    (node : xmlNode) (hvalid : outbound_valid session)
    (hstep : inf_session_net_object_sent session connection node = Except.ok after) :
    outbound_valid after ∧ after.user_table = session.user_table ∧ sync_step session after ∧
      ∀ x, x ∉ sync_connections session → x ∉ sync_connections after := by
  have hvalid' := hvalid
  obtain ⟨h1, h2, h3, h4⟩ := hvalid
  obtain ⟨syncs, hshared, hrec⟩ :
      ∃ syncs, session.shared = InfSessionShared.run syncs ∧ sync_records session = syncs :=
    ⟨_, h2, rfl⟩
  have hfound := find_sync_running session connection syncs h1 hshared
  cases hfind : syncs.find? (fun item => item.conn = connection) with
  | none =>
    simp only [inf_session_net_object_sent, hfound, hfind, bind, Except.bind] at hstep
    cases hstep
    exact step_unchanged session hvalid'
  | some sync =>
    obtain ⟨hv1, hv2, hv3⟩ := h4 sync (hrec ▸ List.mem_of_find?_eq_some hfind)
    have hmod : (sync.messages_sent + 1) % GUINT_MOD = sync.messages_sent + 1 :=
      Nat.mod_eq_of_lt (by omega)
    have hconn : ∀ item : InfSessionSync,
        ({ item with messages_sent := sync.messages_sent + 1 } : InfSessionSync).conn
          = item.conn := fun _ => rfl
    have hfind' := find_sync_set connection
      (fun item => { item with messages_sent := sync.messages_sent + 1 }) hconn syncs
    rw [hfind, Option.map_some'] at hfind'
    by_cases hless : sync.messages_sent + 1 < sync.messages_total
    · have heq : inf_session_net_object_sent session connection node
          = Except.ok
              { session with
                shared := InfSessionShared.run
                  (InfSessionSync_set syncs connection
                    (fun item => { item with messages_sent := sync.messages_sent + 1 }))
                log := session.log ++
                  [Effect.emit_synchronization_progress connection
                    (sync.messages_sent + 1) sync.messages_total] } := by
        simp [inf_session_net_object_sent, hfound, hfind, hshared, bind, Except.bind,
          hmod, hless, pure, Except.pure, g_signal_emit_synchronization_progress,
          InfSession.record]
      rw [heq] at hstep
      cases hstep
      refine shape_set session _ connection
        (fun item => { item with messages_sent := sync.messages_sent + 1 }) sync
        hvalid' (hrec ▸ hfind) hconn rfl (Nat.le_succ _) (fun h => h) ⟨hv1, hless, hv3⟩
        h1 (by rw [hrec]) rfl ?_
      intro x
      apply terminal_events_self
      intro y
      rfl
    · have hemit := emit_complete_running
        { session with
          shared := InfSessionShared.run
            (InfSessionSync_set syncs connection
              (fun item => { item with messages_sent := sync.messages_sent + 1 })) }
        connection _ _ h1 rfl hfind'
      rw [erase_sync_set connection _ hconn] at hemit
      have heq : inf_session_net_object_sent session connection node
          = Except.ok
              { session with
                shared := InfSessionShared.run
                  (syncs.eraseP (fun item => item.conn = connection))
                objects := session.objects.filter (fun c => c ≠ connection)
                log := session.log ++ [Effect.emit_synchronization_complete connection] ++
                  release_effects session.objects connection } := by
        simp only [inf_session_net_object_sent, hfound, hfind, hshared, bind,
          Except.bind, hmod, hless, if_false]
        exact hemit
      rw [heq] at hstep
      cases hstep
      refine shape_erase session _ connection sync
        (Effect.emit_synchronization_complete connection)
        hvalid' (hrec ▸ hfind) h1 (by rw [hrec]) rfl ?_
      intro x
      show terminal_events (session.log ++ [Effect.emit_synchronization_complete connection] ++
        release_effects session.objects connection) x = _
      rw [terminal_events_append, terminal_events_append, terminal_events_release,
        List.append_nil]
      by_cases hx : x = connection
      · simp [terminal_events, Effect.is_terminal, hx]
      · have hx' : ¬ connection = x := fun e => hx e.symm
        simp [terminal_events, Effect.is_terminal, hx, hx']

theorem emit_failed_without_record (session : InfSession) (connection : InfXmlConnection)
    (syncs : List InfSessionSync) (error : GError)
    (hstatus : session.status = InfSessionStatus.INF_SESSION_RUNNING)
    (hshared : session.shared = InfSessionShared.run syncs)
    (hnone : syncs.find? (fun item => item.conn = connection) = none) :
    g_signal_emit_synchronization_failed session connection error =
      Except.error Fault.assertion_failed := by
  have hs : (session.record (Effect.emit_synchronization_failed connection error)).status
      = InfSessionStatus.INF_SESSION_RUNNING := hstatus
  have hsh : (session.record (Effect.emit_synchronization_failed connection error)).shared
      = InfSessionShared.run syncs := hshared
  have hfound := find_sync_running _ connection syncs hs hsh
  simp [g_signal_emit_synchronization_failed, inf_session_synchronization_failed_handler,
    hs, hfound, hnone, bind, Except.bind]
  rfl

theorem terminal_events_failed (log : List Effect) (objects : List InfXmlConnection)
    (connection : InfXmlConnection) (error : GError) (pre : List Effect)
    (hpre : ∀ x, terminal_events pre x = []) (x : InfXmlConnection) :
    terminal_events
        (log ++ (pre ++ [Effect.emit_synchronization_failed connection error]) ++
          release_effects objects connection) x =
      terminal_events log x ++
        (if x = connection then [Effect.emit_synchronization_failed connection error]
         else []) := by
  rw [terminal_events_append, terminal_events_append, terminal_events_append,
    terminal_events_release, hpre, List.append_nil, List.nil_append]
  by_cases hx : x = connection
  · simp [terminal_events, Effect.is_terminal, hx]
  · have hx' : ¬ connection = x := fun e => hx e.symm
    simp [terminal_events, Effect.is_terminal, hx, hx']

/-- The event `enqueued` on a valid Running session. -/
theorem enqueued_step (session after : InfSession) (connection : InfXmlConnection)
    (node : xmlNode) (hvalid : outbound_valid session)
    (hstep : inf_session_net_object_enqueued session connection node = Except.ok after) :
    outbound_valid after ∧ after.user_table = session.user_table ∧ sync_step session after ∧
      ∀ x, x ∉ sync_connections session → x ∉ sync_connections after := by
  have hvalid' := hvalid
  obtain ⟨h1, h2, h3, h4⟩ := hvalid
  obtain ⟨syncs, hshared, hrec⟩ :
      ∃ syncs, session.shared = InfSessionShared.run syncs ∧ sync_records session = syncs :=
    ⟨_, h2, rfl⟩
  have hfound := find_sync_running session connection syncs h1 hshared
  by_cases hname : node.name = "sync-end"
  · cases hfind : syncs.find? (fun item => item.conn = connection) with
    | none =>
      simp [inf_session_net_object_enqueued, hname, hfound, hfind, bind, Except.bind]
        at hstep
    | some sync =>
      by_cases hend : sync.end_enqueued = false
      · have heq : inf_session_net_object_enqueued session connection node
            = Except.ok
                { session with
                  shared := InfSessionShared.run
                    (InfSessionSync_set syncs connection
                      (fun item => { item with end_enqueued := true })) } := by
          simp [inf_session_net_object_enqueued, hname, hfound, hfind, hshared, bind,
            Except.bind, hend, pure, Except.pure]
        rw [heq] at hstep
        cases hstep
        exact shape_set session _ connection
          (fun item => { item with end_enqueued := true }) sync
          hvalid' (hrec ▸ hfind) (fun _ => rfl) rfl (le_refl _) (fun _ => rfl)
          (h4 sync (hrec ▸ List.mem_of_find?_eq_some hfind))
          h1 (by rw [hrec]) rfl (fun _ => rfl)
      · simp [inf_session_net_object_enqueued, hname, hfound, hfind, hshared, bind,
          Except.bind, hend] at hstep
  · simp [inf_session_net_object_enqueued, hname] at hstep
    cases hstep
    exact step_unchanged session hvalid'

/-- The event `notify::status` on a valid Running session. -/
theorem notify_status_step (session after : InfSession) (connection : InfXmlConnection)
    (status : InfXmlConnectionStatus) (hvalid : outbound_valid session)
    (hstep : inf_session_connection_notify_status_cb session connection status =
      Except.ok after) :
    outbound_valid after ∧ after.user_table = session.user_table ∧ sync_step session after ∧
      ∀ x, x ∉ sync_connections session → x ∉ sync_connections after := by
  have hvalid' := hvalid
  obtain ⟨h1, h2, h3, h4⟩ := hvalid
  obtain ⟨syncs, hshared, hrec⟩ :
      ∃ syncs, session.shared = InfSessionShared.run syncs ∧ sync_records session = syncs :=
    ⟨_, h2, rfl⟩
  have hfound := find_sync_running session connection syncs h1 hshared
  by_cases hclosed : status = InfXmlConnectionStatus.INF_XML_CONNECTION_CLOSED ∨
      status = InfXmlConnectionStatus.INF_XML_CONNECTION_CLOSING
  · cases hfind : syncs.find? (fun item => item.conn = connection) with
    | none =>
      simp [inf_session_connection_notify_status_cb, hclosed, h1, hfound, hfind, bind,
        Except.bind] at hstep
    | some sync =>
      have hemit := emit_failed_running session connection syncs sync
        (inf_session_sync_error .CONNECTION_CLOSED) h1 hshared hfind
      have heq : inf_session_connection_notify_status_cb session connection status
          = Except.ok
              { session with
                shared := InfSessionShared.run
                  (syncs.eraseP (fun item => item.conn = connection))
                objects := session.objects.filter (fun c => c ≠ connection)
                log := session.log ++
                  [Effect.emit_synchronization_failed connection
                    (inf_session_sync_error .CONNECTION_CLOSED)] ++
                  release_effects session.objects connection } := by
        simp only [inf_session_connection_notify_status_cb, hclosed, if_true, h1, hfound,
          hfind, bind, Except.bind, hemit]
        rfl
      rw [heq] at hstep
      cases hstep
      refine shape_erase session _ connection sync
        (Effect.emit_synchronization_failed connection
          (inf_session_sync_error .CONNECTION_CLOSED))
        hvalid' (hrec ▸ hfind) h1 (by rw [hrec]) rfl ?_
      intro x
      exact terminal_events_failed session.log session.objects connection _ []
        (fun _ => rfl) x
  · simp [inf_session_connection_notify_status_cb, hclosed] at hstep
    cases hstep
    exact step_unchanged session hvalid'

/-- The event `received` on a valid Running session, with a hook that keeps
the records. -/
theorem received_step (session_class : InfSessionClass) (session after : InfSession)
    (connection : InfXmlConnection) (node : xmlNode)
    (hhook : run_hook_keeps_syncs session_class.process_xml_run)
    (hvalid : outbound_valid session)
    (hstep : inf_session_net_object_received session_class session connection node =
      Except.ok after) :
    outbound_valid after ∧ after.user_table = session.user_table ∧ sync_step session after ∧
      ∀ x, x ∉ sync_connections session → x ∉ sync_connections after := by
  have hvalid' := hvalid
  obtain ⟨h1, h2, h3, h4⟩ := hvalid
  obtain ⟨syncs, hshared, hrec⟩ :
      ∃ syncs, session.shared = InfSessionShared.run syncs ∧ sync_records session = syncs :=
    ⟨_, h2, rfl⟩
  by_cases hname : node.name = "sync-error"
  · have hs : (inf_connection_manager_cancel_outer session connection).status
        = InfSessionStatus.INF_SESSION_RUNNING := h1
    have hsh : (inf_connection_manager_cancel_outer session connection).shared
        = InfSessionShared.run syncs := hshared
    obtain ⟨error, herror⟩ : ∃ error : GError,
        inf_session_net_object_received session_class session connection node =
          g_signal_emit_synchronization_failed
            (inf_connection_manager_cancel_outer session connection) connection error := by
      refine ⟨match xmlGetProp node "domain", xmlGetProp node "code" with
        | some domain_attr, some code_attr =>
          g_set_error domain_attr (gint_of_guint (strtoul code_attr 0 % GUINT_MOD))
            (inf_session_get_sync_error_message domain_attr
              (strtoul code_attr 0 % GUINT_MOD))
        | _, _ => inf_session_sync_error .FAILED, ?_⟩
      simp only [inf_session_net_object_received, h1, hname, if_true]
    rw [herror] at hstep
    cases hfind : syncs.find? (fun item => item.conn = connection) with
    | none =>
      rw [emit_failed_without_record _ connection syncs _ hs hsh hfind] at hstep
      cases hstep
    | some sync =>
      rw [emit_failed_running _ connection syncs sync _ hs hsh hfind] at hstep
      cases hstep
      refine shape_erase session _ connection sync
        (Effect.emit_synchronization_failed connection error)
        hvalid' (hrec ▸ hfind) h1 (by rw [hrec]) rfl ?_
      intro x
      refine (terminal_events_failed (session.log ++ [Effect.cancel_outer connection])
        session.objects connection error [] (fun _ => rfl) x).trans ?_
      rw [terminal_events_self session [Effect.cancel_outer connection] (fun _ => rfl)]
  · simp only [inf_session_net_object_received, h1, hname, if_false] at hstep
    cases hrun : session_class.process_xml_run with
    | none =>
      simp only [hrun] at hstep
      cases hstep
      exact step_unchanged session hvalid'
    | some hook =>
      simp only [hrun] at hstep
      obtain ⟨k1, k2, k3, k4⟩ := hhook hook hrun _ session connection node after hstep
      exact shape_same session after k1 k2 k3 k4 hvalid'

theorem terminal_events_cancel (sync : InfSessionSync) (x : InfXmlConnection)
    (hx : ¬ sync.conn = x) : terminal_events (cancel_effects sync) x = [] := by
  unfold cancel_effects terminal_events
  by_cases h : sync.end_enqueued = false <;> simp [h, Effect.is_terminal, hx]

theorem terminal_events_cancel_length (sync : InfSessionSync) (x : InfXmlConnection) :
    terminal_events (cancel_effects sync) x = [] ∨
      ∃ e, terminal_events (cancel_effects sync) x = [e] := by
  unfold cancel_effects terminal_events
  by_cases h : sync.end_enqueued = false
  · by_cases hx : sync.conn = x
    · exact Or.inr ⟨Effect.emit_synchronization_failed x
        (inf_session_sync_error .RECEIVER_CANCELLED), by simp [h, Effect.is_terminal, hx]⟩
    · exact Or.inl (by simp [h, Effect.is_terminal, hx])
  · exact Or.inl (by simp [h])

theorem terminal_events_close_absent (x : InfXmlConnection) (syncs : List InfSessionSync) :
    ∀ objects : List InfXmlConnection, x ∉ syncs.map (fun item => item.conn) →
      terminal_events (close_running_effects objects syncs) x = [] := by
  induction syncs with
  | nil => intro _ _; rfl
  | cons sync rest ih =>
    intro objects hx
    rw [List.map_cons, List.mem_cons, not_or] at hx
    have hne : ¬ sync.conn = x := fun e => hx.1 e.symm
    unfold close_running_effects
    rw [terminal_events_append, terminal_events_append, terminal_events_release,
      terminal_events_cancel sync x hne, ih _ hx.2]
    rfl

theorem terminal_events_close (x : InfXmlConnection) (syncs : List InfSessionSync) :
    ∀ objects : List InfXmlConnection, (syncs.map (fun item => item.conn)).Nodup →
      terminal_events (close_running_effects objects syncs) x = [] ∨
        ∃ e, terminal_events (close_running_effects objects syncs) x = [e] ∧
          x ∈ syncs.map (fun item => item.conn) := by
  induction syncs with
  | nil => intro _ _; exact Or.inl rfl
  | cons sync rest ih =>
    intro objects hnodup
    rw [List.map_cons, List.nodup_cons] at hnodup
    unfold close_running_effects
    rw [terminal_events_append, terminal_events_append, terminal_events_release,
      List.append_nil]
    by_cases hx : sync.conn = x
    · rw [terminal_events_close_absent x rest _ (hx ▸ hnodup.1), List.append_nil]
      rcases terminal_events_cancel_length sync x with h | ⟨e, h⟩
      · exact Or.inl h
      · exact Or.inr ⟨e, h, by rw [List.map_cons, hx]; exact List.mem_cons_self _ _⟩
    · rw [terminal_events_cancel sync x hx, List.nil_append]
      rcases ih _ hnodup.2 with h | ⟨e, h, hmem⟩
      · exact Or.inl h
      · exact Or.inr ⟨e, h, by rw [List.map_cons]; exact List.mem_cons_of_mem _ hmem⟩

/-- The event `close` on a valid Running session. -/
theorem close_step (session after : InfSession) (hvalid : outbound_valid session)
    (hstep : inf_session_close session = Except.ok after) :
    after.status = InfSessionStatus.INF_SESSION_CLOSED ∧ sync_records after = [] ∧
      after.user_table = session.user_table ∧ sync_step session after := by
  obtain ⟨h1, h2, h3, _⟩ := hvalid
  rw [close_running session _ h1 h2] at hstep
  cases hstep
  refine ⟨rfl, rfl, rfl, ⟨fun r _ r' hr' => absurd hr' (List.not_mem_nil r'), fun x => ?_⟩⟩
  show terminal_events (session.log ++ close_running_effects session.objects
      (sync_records session) ++ [Effect.notify_status]) x = _ ∨ _
  rw [terminal_events_append, terminal_events_append]
  have hnotify : terminal_events [Effect.notify_status] x = [] := rfl
  rw [hnotify, List.append_nil]
  rcases terminal_events_close x (sync_records session) session.objects h3 with h | ⟨e, h, hm⟩
  · exact Or.inl (by rw [h, List.append_nil])
  · exact Or.inr ⟨e, by rw [h], hm, fun hx => absurd hx (List.not_mem_nil x)⟩

/-- Every event that returns leaves a Closed session as it is. -/
theorem apply_event_closed (session_class : InfSessionClass) (session after : InfSession)
    (event : SessionEvent)
    (hstatus : session.status = InfSessionStatus.INF_SESSION_CLOSED)
    (hstep : apply_event session_class session event = Except.ok after) :
    after = session := by
  cases event with
  | synchronize_to connection identifier =>
    cases identifier <;>
      simp [apply_event, inf_session_synchronize_to, hstatus, pure, Except.pure] at hstep <;>
      exact hstep.symm
  | sent connection node =>
    simp [apply_event, inf_session_net_object_sent, inf_session_find_sync_by_connection,
      inf_session_find_sync_item_by_connection, hstatus, bind, Except.bind, pure,
      Except.pure] at hstep
    exact hstep.symm
  | enqueued connection node =>
    by_cases hname : node.name = "sync-end"
    · simp [apply_event, inf_session_net_object_enqueued, hname,
        inf_session_find_sync_by_connection, inf_session_find_sync_item_by_connection,
        hstatus, bind, Except.bind, pure, Except.pure] at hstep
    · simp [apply_event, inf_session_net_object_enqueued, hname, pure, Except.pure] at hstep
      exact hstep.symm
  | received connection node =>
    simp [apply_event, inf_session_net_object_received, hstatus] at hstep
  | notify_status connection status =>
    by_cases hclosed : status = InfXmlConnectionStatus.INF_XML_CONNECTION_CLOSED ∨
        status = InfXmlConnectionStatus.INF_XML_CONNECTION_CLOSING
    · simp [apply_event, inf_session_connection_notify_status_cb, hclosed, hstatus] at hstep
    · simp [apply_event, inf_session_connection_notify_status_cb, hclosed, pure,
        Except.pure] at hstep
      exact hstep.symm
  | close =>
    simp [apply_event, inf_session_close, inf_session_close_impl, hstatus, bind,
      Except.bind] at hstep

/-- One event on a session that is Running with valid records, or Closed
without records. -/
theorem apply_event_step
    (user_new : Option (InfSession → List GParameter → InfUser))
    (process_xml_run :
      Option (InfSessionUserClass → InfSession → InfXmlConnection → xmlNode →
        Except Fault InfSession))
    (session after : InfSession) (event : SessionEvent)
    (hhook : run_hook_keeps_syncs process_xml_run)
    (hstate : outbound_state session)
    (hbound : event.is_synchronize_to = false ∨ session.user_table.length + 2 < GUINT_MOD)
    (hstep : apply_event (inf_session_derived_class user_new process_xml_run) session event =
      Except.ok after) :
    outbound_state after ∧ after.user_table = session.user_table ∧ sync_step session after ∧
      (event.is_synchronize_to = false →
        ∀ x, x ∉ sync_connections session → x ∉ sync_connections after) := by
  rcases hstate with hvalid | ⟨hclosed, hempty⟩
  · cases event with
    | synchronize_to connection identifier =>
      rcases hbound with h | h
      · cases h
      · obtain ⟨k1, k2, k3⟩ := synchronize_to_step user_new process_xml_run session after
          connection identifier hvalid hstep
        exact ⟨Or.inl k1, k2, k3, fun h => by cases h⟩
    | sent connection node =>
      obtain ⟨k1, k2, k3, k4⟩ := sent_step session after connection node hvalid hstep
      exact ⟨Or.inl k1, k2, k3, fun _ => k4⟩
    | enqueued connection node =>
      obtain ⟨k1, k2, k3, k4⟩ := enqueued_step session after connection node hvalid hstep
      exact ⟨Or.inl k1, k2, k3, fun _ => k4⟩
    | received connection node =>
      obtain ⟨k1, k2, k3, k4⟩ := received_step _ session after connection node hhook hvalid
        hstep
      exact ⟨Or.inl k1, k2, k3, fun _ => k4⟩
    | notify_status connection status =>
      obtain ⟨k1, k2, k3, k4⟩ := notify_status_step session after connection status hvalid
        hstep
      exact ⟨Or.inl k1, k2, k3, fun _ => k4⟩
    | close =>
      obtain ⟨k1, k2, k3, k4⟩ := close_step session after hvalid hstep
      refine ⟨Or.inr ⟨k1, k2⟩, k3, k4, fun _ x _ hx => ?_⟩
      unfold sync_connections at hx
      rw [k2] at hx
      exact absurd hx (List.not_mem_nil x)
  · have := apply_event_closed _ session after event hclosed hstep
    subst this
    refine ⟨Or.inr ⟨hclosed, hempty⟩, rfl, ⟨fun r hr => ?_, fun x => Or.inl rfl⟩,
      fun _ x hx => hx⟩
    rw [hempty] at hr
    exact absurd hr (List.not_mem_nil r)

/-- A sequence of events on a session that is Running with valid records. -/
theorem apply_events_state
    (user_new : Option (InfSession → List GParameter → InfUser))
    (process_xml_run :
      Option (InfSessionUserClass → InfSession → InfXmlConnection → xmlNode →
        Except Fault InfSession))
    (hhook : run_hook_keeps_syncs process_xml_run) (events : List SessionEvent) :
    ∀ session mid : InfSession, outbound_state session →
      ((∀ e ∈ events, e.is_synchronize_to = false) ∨
        session.user_table.length + 2 < GUINT_MOD) →
      apply_events (inf_session_derived_class user_new process_xml_run) session events =
        Except.ok mid →
      outbound_state mid ∧ mid.user_table = session.user_table := by
  induction events with
  | nil =>
    intro session mid hstate _ hrun
    cases hrun
    exact ⟨hstate, rfl⟩
  | cons event rest ih =>
    intro session mid hstate hbound hrun
    unfold apply_events at hrun
    rw [List.foldlM_cons] at hrun
    cases hstep : apply_event (inf_session_derived_class user_new process_xml_run) session
        event with
    | error f => rw [hstep] at hrun; cases hrun
    | ok s1 =>
      rw [hstep] at hrun
      have hb1 : event.is_synchronize_to = false ∨
          session.user_table.length + 2 < GUINT_MOD := by
        rcases hbound with h | h
        · exact Or.inl (h event (List.mem_cons_self _ _))
        · exact Or.inr h
      obtain ⟨k1, k2, _, _⟩ := apply_event_step user_new process_xml_run session s1 event
        hhook hstate hb1 hstep
      have hb2 : (∀ e ∈ rest, e.is_synchronize_to = false) ∨
          s1.user_table.length + 2 < GUINT_MOD := by
        rcases hbound with h | h
        · exact Or.inl (fun e he => h e (List.mem_cons_of_mem _ he))
        · exact Or.inr (by rw [k2]; exact h)
      obtain ⟨j1, j2⟩ := ih s1 mid k1 hb2 hrun
      exact ⟨j1, j2.trans k2⟩

/-- Over a sequence of events without `synchronize_to`, the log gains at most
one terminal emission for a connection, none once the record is gone. -/
theorem terminal_events_once
    (user_new : Option (InfSession → List GParameter → InfUser))
    (process_xml_run :
      Option (InfSessionUserClass → InfSession → InfXmlConnection → xmlNode →
        Except Fault InfSession))
    (hhook : run_hook_keeps_syncs process_xml_run) (connection : InfXmlConnection)
    (events : List SessionEvent) :
    ∀ session mid : InfSession, outbound_state session →
      (∀ e ∈ events, e.is_synchronize_to = false) →
      apply_events (inf_session_derived_class user_new process_xml_run) session events =
        Except.ok mid →
      (connection ∉ sync_connections session → connection ∉ sync_connections mid) ∧
      ∃ delta, terminal_events mid.log connection =
          terminal_events session.log connection ++ delta ∧
        delta.length ≤ 1 ∧ (delta ≠ [] → connection ∉ sync_connections mid) ∧
        (connection ∉ sync_connections session → delta = []) := by
  induction events with
  | nil =>
    intro session mid _ _ hrun
    cases hrun
    exact ⟨fun h => h, [], by simp, by simp, fun h => absurd rfl h, fun _ => rfl⟩
  | cons event rest ih =>
    intro session mid hstate hevents hrun
    unfold apply_events at hrun
    rw [List.foldlM_cons] at hrun
    cases hstep : apply_event (inf_session_derived_class user_new process_xml_run) session
        event with
    | error f => rw [hstep] at hrun; cases hrun
    | ok s1 =>
      rw [hstep] at hrun
      have he := hevents event (List.mem_cons_self _ _)
      obtain ⟨k1, _, k3, k4⟩ := apply_event_step user_new process_xml_run session s1 event
        hhook hstate (Or.inl he) hstep
      obtain ⟨j1, delta, j2, j3, j4, j5⟩ := ih s1 mid k1
        (fun e h => hevents e (List.mem_cons_of_mem _ h)) hrun
      refine ⟨fun h => j1 (k4 he connection h), ?_⟩
      rcases k3.2 connection with h | ⟨e, h, hin, hout⟩
      · refine ⟨delta, by rw [j2, h], j3, j4, fun hn => j5 (k4 he connection hn)⟩
      · have hd := j5 hout
        refine ⟨[e], by rw [j2, h, hd, List.append_nil], by simp, fun _ => j1 hout,
          fun hn => absurd hin hn⟩

theorem find_sync_set_other (connection other : InfXmlConnection)
    (f : InfSessionSync → InfSessionSync) (hf : ∀ item, (f item).conn = item.conn)
    (hne : other ≠ connection) (syncs : List InfSessionSync) :
    (InfSessionSync_set syncs connection f).find? (fun item => item.conn = other) =
      syncs.find? (fun item => item.conn = other) := by
  induction syncs with
  | nil => rfl
  | cons item rest ih =>
    have hne' : ¬ connection = other := fun e => hne e.symm
    unfold InfSessionSync_set
    by_cases h : item.conn = connection
    · simp [h, List.find?_cons, hf, hne']
    · by_cases ho : item.conn = other
      · simp [List.find?_cons, ho, hne]
      · simp [h, List.find?_cons, ho, ih]

theorem echo_run_hook_keeps_syncs : run_hook_keeps_syncs (some echo_run_hook) := by
  intro hook hhook session_class session connection node after hrun
  cases hhook
  cases hrun
  exact ⟨rfl, rfl, rfl,
    fun x => terminal_events_self session [Effect.send connection node] (fun _ => rfl) x⟩

/-- Runs that return.  A Running session with valid outbound records goes through any
sequence of `sent`, `enqueued`, `received`, connection-status and `close`
events that runs to its end.  For every connection the log gains at most one
emission of `synchronization-complete` or `synchronization-failed` over the
whole sequence, and once it has gained one the session has no record of that
connection.  The event at which the log gains the emission is one before
which the record was there and nothing had been emitted for it, and after
which the record is gone. -/
theorem terminal_events_exclusive
    (user_new : Option (InfSession → List GParameter → InfUser))
    (process_xml_run :
      Option (InfSessionUserClass → InfSession → InfXmlConnection → xmlNode →
        Except Fault InfSession))
    (session mid after : InfSession) (events : List SessionEvent) (event : SessionEvent)
    (connection : InfXmlConnection)
    (hhook : run_hook_keeps_syncs process_xml_run)
    (hvalid : outbound_valid session)
    (hevents : ∀ e ∈ events, e.is_synchronize_to = false)
    (hevent : event.is_synchronize_to = false)
    (hmid : apply_events (inf_session_derived_class user_new process_xml_run) session events =
      Except.ok mid)
    (hstep : apply_event (inf_session_derived_class user_new process_xml_run) mid event =
      Except.ok after) :
    (∃ delta, terminal_events after.log connection =
        terminal_events session.log connection ++ delta ∧
      delta.length ≤ 1 ∧ (delta ≠ [] → connection ∉ sync_connections after)) ∧
    (terminal_events after.log connection ≠ terminal_events mid.log connection →
      connection ∈ sync_connections mid ∧ connection ∉ sync_connections after ∧
        terminal_events mid.log connection = terminal_events session.log connection) := by
  obtain ⟨hstate, _⟩ := apply_events_state user_new process_xml_run hhook events session mid
    (Or.inl hvalid) (Or.inl hevents) hmid
  obtain ⟨_, delta, j2, j3, j4, _⟩ := terminal_events_once user_new process_xml_run hhook
    connection events session mid (Or.inl hvalid) hevents hmid
  obtain ⟨_, _, k3, k4⟩ := apply_event_step user_new process_xml_run mid after event hhook
    hstate (Or.inl hevent) hstep
  rcases k3.2 connection with h | ⟨e, h, hin, hout⟩
  · refine ⟨⟨delta, by rw [h, j2], j3, fun hd => k4 hevent connection (j4 hd)⟩, ?_⟩
    intro hne
    exact absurd h hne
  · have hd : delta = [] := by
      by_contra hd
      exact j4 hd hin
    rw [hd, List.append_nil] at j2
    refine ⟨⟨[e], by rw [h, j2], by simp, fun _ => hout⟩, fun _ => ⟨hin, hout, j2⟩⟩

/-! ## The claims -/

/-- C1 fails on the code, at both ends of the round trip.  Sender: a Running
session with the single user (1, a) and the default codec, asked to
synchronize to connection 7, passes its guards, registers the connection and
then reads `messages->children` of the node `xmlNewNode(NULL, NULL)` gave it,
which is `NULL`: the call ends there, before any message is handed to the
connection manager.  Receiver: a freshly constructed Synchronizing session
that is given the three messages of the claim (`sync-begin` for 1 message,
`sync-user` with id 1 and name a, `sync-end`) does not reach Running:
handling `sync-user`, the default validation calls
`inf_session_lookup_user_by_id`, which takes the private data from its own
uninitialised local instead of the session, and the run ends there. -/
theorem C1_round_trip_one_user
    (user_new : InfSession → List GParameter → InfUser)
    (process_xml_run :
      Option (InfSessionUserClass → InfSession → InfXmlConnection → xmlNode →
        Except Fault InfSession)) :
    inf_session_synchronize_to (inf_session_derived_class (some user_new) process_xml_run)
        (running_session [(1, ⟨100, 1, "a"⟩)]) 7 (some "doc")
      = Except.error Fault.null_pointer ∧
    inf_session_new
        [.PROP_CONNECTION_MANAGER (some 1), .PROP_BUFFER (some 2),
         .PROP_SYNC_CONNECTION (some 7), .PROP_SYNC_IDENTIFIER (some "doc")]
      = Except.ok
          { inbound_session 0 0 with
            log :=
              [Effect.object_ref 1, Effect.object_ref 2, Effect.object_ref 7,
               Effect.add_object 7 "doc", Effect.signal_connect 7] } ∧
    deliver (inf_session_derived_class (some user_new) process_xml_run)
        { inbound_session 0 0 with
          log :=
            [Effect.object_ref 1, Effect.object_ref 2, Effect.object_ref 7,
             Effect.add_object 7 "doc", Effect.signal_connect 7] }
        7
        [{ name := "sync-begin", properties := [("num-messages", "1")] },
         { name := "sync-user", properties := [("id", "1"), ("name", "a")] },
         { name := "sync-end", properties := [] }]
      = Except.error Fault.uninitialised_pointer :=
  ⟨synchronize_to_aborts
      (inf_session_derived_class (some user_new) process_xml_run)
      (running_session [(1, ⟨100, 1, "a"⟩)]) 7 "doc" [] inf_session_to_xml_sync_impl
      rfl rfl rfl rfl,
   by rfl, by rfl⟩

/-- C2 fails on the code.  For every user table, every connection and every
identifier, a Running session without outbound records and with the default
codec that is asked to synchronize to the connection hands nothing to the
connection manager: after the guards and the registration of the connection,
the node that is to collect the messages comes from `xmlNewNode(NULL, NULL)`,
which is `NULL`, and the count of the messages starts by reading
`messages->children`; the call ends there, before `sync-begin` is built. -/
theorem C2_outbound_framing
    (user_new : Option (InfSession → List GParameter → InfUser))
    (process_xml_run :
      Option (InfSessionUserClass → InfSession → InfXmlConnection → xmlNode →
        Except Fault InfSession))
    (users : List (Nat × InfUser)) (connection : InfXmlConnection) (identifier : String) :
    inf_session_synchronize_to (inf_session_derived_class user_new process_xml_run)
        (running_session users) connection (some identifier)
      = Except.error Fault.null_pointer :=
  synchronize_to_aborts (inf_session_derived_class user_new process_xml_run)
    (running_session users) connection identifier [] inf_session_to_xml_sync_impl
    rfl rfl rfl rfl

/-- C3, as stated, fails: `010` is a string of decimal digits that denotes 10,
and `10 + 2 < 2^32`, but the handler reads the attribute with
`strtoul(..., 0)`, takes the leading `0` for the octal prefix and sets
`messages_total` to `2 + 8`, not to `2 + 10`. -/
theorem C3_counterexample :
    decimal_text "010" = some 10 ∧ 10 + 2 < GUINT_MOD ∧
    inf_session_handle_received_sync_message accept_all_class (inbound_session 0 0) 7
        (sync_begin_node "010")
      = Except.ok
          ({ inbound_session 0 0 with
              shared := InfSessionShared.sync (some 7) (2 + 8) 1 (some "doc")
              log := [Effect.emit_synchronization_progress 7 1 (2 + 8)] },
            true, none) ∧
    ¬ ∃ after : InfSession,
      inf_session_handle_received_sync_message accept_all_class (inbound_session 0 0) 7
          (sync_begin_node "010") = Except.ok (after, true, none) ∧
      after.shared = InfSessionShared.sync (some 7) (2 + 10) 1 (some "doc") := by
  have heval :
      inf_session_handle_received_sync_message accept_all_class (inbound_session 0 0) 7
          (sync_begin_node "010")
        = Except.ok
            ({ inbound_session 0 0 with
                shared := InfSessionShared.sync (some 7) (2 + 8) 1 (some "doc")
                log := [Effect.emit_synchronization_progress 7 1 (2 + 8)] },
              true, none) := rfl
  refine ⟨by decide, by decide, heval, ?_⟩
  rintro ⟨after, h, hshared⟩
  rw [heval] at h
  injection h with h
  injection h with h _
  rw [← h] at hshared
  revert hshared
  decide

/-- C3, amended: in a session with `messages_total = 0`, a `sync-begin` whose
`num-messages` attribute is a non-empty string of decimal digits without a
superfluous leading zero, denoting `n` with `n + 2 < 2^32`, is accepted: the
handler succeeds, sets `messages_total = 2 + n` and `messages_received = 1`,
and emits one `synchronization-progress`, with ratio `1 / (n + 2)`. -/
theorem C3_sync_begin_accepted (session_class : InfSessionClass)
    (f : InfSessionUserClass → InfSession → InfXmlConnection → xmlNode →
      Except Fault (InfSession × Bool × Option GError))
    (session : InfSession) (connection : InfXmlConnection) (node : xmlNode)
    (conn : Option InfXmlConnection) (received : Nat) (identifier : Option String)
    (text : String) (n : Nat)
    (hclass : session_class.process_xml_sync = some f)
    (hshared : session.shared = InfSessionShared.sync conn 0 received identifier)
    (hname : node.name = "sync-begin")
    (hattr : xmlGetProp node "num-messages" = some text)
    (htext : decimal_text text = some n) (hzero : no_leading_zero text)
    (hn : n + 2 < GUINT_MOD) :
    inf_session_handle_received_sync_message session_class session connection node
      = Except.ok
          ({ session with
              shared := InfSessionShared.sync conn (2 + n) 1 identifier
              log := session.log ++ [Effect.emit_synchronization_progress connection 1 (n + 2)] },
            true, none) :=
  handle_sync_begin_decimal session_class f session connection node conn received identifier
    text n hclass hshared hname hattr htext hzero hn

/-- C3, amended, at `num-messages="2"`: `messages_total` becomes 4 and the
progress is 1/4. -/
theorem C3_sync_begin_accepted_witness :
    inf_session_handle_received_sync_message accept_all_class (inbound_session 0 0) 7
        (sync_begin_node "2")
      = Except.ok
          ({ inbound_session 0 0 with
              shared := InfSessionShared.sync (some 7) 4 1 (some "doc")
              log := [Effect.emit_synchronization_progress 7 1 4] },
            true, none) :=
  C3_sync_begin_accepted accept_all_class accept_all_codec (inbound_session 0 0) 7
    (sync_begin_node "2") (some 7) 0 (some "doc") "2" 2 rfl rfl rfl rfl (by decide)
    (Or.inr (by decide)) (by decide)

/-- C4, as stated, fails for `n = 4294967294`: the handler computes
`messages_total = 2 + n` in `guint`, which is 0, so the first
`synchronization-progress` carries the ratio `1 / 0` and not `1 / (n + 2)`. -/
theorem C4_counterexample :
    decimal_text "4294967294" = some 4294967294 ∧
    inf_session_net_object_received accept_all_class (inbound_session 0 0) 7
        (sync_begin_node "4294967294")
      = Except.ok
          { inbound_session 0 0 with
            shared := InfSessionShared.sync (some 7) 0 1 (some "doc")
            log := [Effect.emit_synchronization_progress 7 1 0] } ∧
    ¬ ∃ after : InfSession,
      inf_session_net_object_received accept_all_class (inbound_session 0 0) 7
          (sync_begin_node "4294967294") = Except.ok after ∧
      sync_signals after.log
        = [Effect.emit_synchronization_progress 7 1 (4294967294 + 2)] := by
  have heval :
      inf_session_net_object_received accept_all_class (inbound_session 0 0) 7
          (sync_begin_node "4294967294")
        = Except.ok
            { inbound_session 0 0 with
              shared := InfSessionShared.sync (some 7) 0 1 (some "doc")
              log := [Effect.emit_synchronization_progress 7 1 0] } := rfl
  refine ⟨by decide, heval, ?_⟩
  rintro ⟨after, h, hlog⟩
  rw [heval] at h
  injection h with h
  rw [← h] at hlog
  revert hlog
  decide

/-- C4, amended: for every `n` with `n + 2 < 2^32`, a Synchronizing session
that receives `sync-begin` announcing `n` messages, then `n` body messages
that the codec accepts as they arrive (each in the session the messages
before it have left), then `sync-end`, emits `synchronization-progress`
`n + 1` times, with the ratios `k / (n + 2)` for `k = 1, ..., n + 1` in this
order, and then `synchronization-complete` once; it emits no other
synchronization signal (so no progress for `sync-end` and none with ratio 1)
and is left Running. -/
theorem C4_inbound_progress_sequence (session_class : InfSessionClass)
    (f : InfSessionUserClass → InfSession → InfXmlConnection → xmlNode →
      Except Fault (InfSession × Bool × Option GError))
    (session : InfSession) (connection : InfXmlConnection) (identifier : Option String)
    (sync_begin sync_end : xmlNode) (text : String) (n : Nat) (bodies : List xmlNode)
    (hclass : session_class.process_xml_sync = some f)
    (hstatus : session.status = InfSessionStatus.INF_SESSION_SYNCHRONIZING)
    (hshared : session.shared = InfSessionShared.sync (some connection) 0 0 identifier)
    (hbegin : sync_begin.name = "sync-begin")
    (hattr : xmlGetProp sync_begin "num-messages" = some text)
    (htext : decimal_text text = some n) (hzero : no_leading_zero text)
    (hn : n + 2 < GUINT_MOD)
    (hlength : bodies.length = n)
    (hnames : ∀ b ∈ bodies, b.name ≠ "sync-begin" ∧ b.name ≠ "sync-end")
    (hbodies : ∀ start : InfSession,
      inf_session_net_object_received session_class session connection sync_begin
        = Except.ok start →
      codec_accepts_stream session_class f connection start bodies)
    (hend : sync_end.name = "sync-end") :
    ∃ after : InfSession,
      deliver session_class session connection (sync_begin :: bodies ++ [sync_end])
        = Except.ok after ∧
      after.status = InfSessionStatus.INF_SESSION_RUNNING ∧
      sync_signals after.log = sync_signals session.log ++
        (List.range (n + 1)).map
          (fun k => Effect.emit_synchronization_progress connection (k + 1) (n + 2)) ++
        [Effect.emit_synchronization_complete connection] := by
  have hhandle := handle_sync_begin_decimal session_class f session connection sync_begin
    (some connection) 0 identifier text n hclass hshared hbegin hattr htext hzero hn
  have hfirst :
      inf_session_net_object_received session_class session connection sync_begin
        = Except.ok
            { session with
              shared := InfSessionShared.sync (some connection) (2 + n) 1 identifier
              log := session.log ++
                [Effect.emit_synchronization_progress connection 1 (n + 2)] } := by
    simp only [inf_session_net_object_received, hstatus, hshared, hhandle, ne_eq,
      not_true_eq_false, if_false, bind, Except.bind]
    rfl
  have htotal : 2 + n = n + 2 := by omega
  obtain ⟨mid, hmid, hmstatus, hmshared, hmlog⟩ :=
    deliver_bodies_accepted session_class f connection (n + 2) identifier hclass hn bodies
      { session with
        shared := InfSessionShared.sync (some connection) (2 + n) 1 identifier
        log := session.log ++ [Effect.emit_synchronization_progress connection 1 (n + 2)] }
      1 hstatus (by rw [htotal]) (by omega) (by omega) hnames (hbodies _ hfirst)
  have hcount : (1 + bodies.length + 1) % GUINT_MOD = n + 2 := by
    rw [hlength]
    have h : 1 + n + 1 = n + 2 := by omega
    rw [h]
    exact Nat.mod_eq_of_lt hn
  have hlast := received_sync_end_complete session_class f mid connection sync_end (n + 2)
    (1 + bodies.length) identifier hclass hmstatus hmshared hend hcount
  have hdeliver :
      deliver session_class session connection (sync_begin :: bodies ++ [sync_end])
        = Except.ok
            { mid with
              status := InfSessionStatus.INF_SESSION_RUNNING
              shared := InfSessionShared.run []
              objects := mid.objects.filter (fun c => c ≠ connection)
              log := mid.log ++ [Effect.emit_synchronization_complete connection] ++
                release_effects mid.objects connection ++ [Effect.notify_status] } := by
    rw [List.cons_append, deliver, hfirst]
    simp only [bind, Except.bind]
    rw [deliver_append]
    simp only [bind, Except.bind, hmid, deliver, hlast, pure, Except.pure]
  refine ⟨_, hdeliver, rfl, ?_⟩
  · simp only [sync_signals_append, sync_signals_release, hmlog, List.append_nil]
    rw [hlength, List.range_succ_eq_map, List.map_cons, List.map_map]
    simp only [sync_signals, List.filter_cons, Effect.is_sync_signal, List.filter_nil,
      if_true, List.append_assoc, List.singleton_append, List.cons_append, List.nil_append,
      Bool.false_eq_true, if_false, List.append_nil]
    congr 3
    apply List.map_congr_left
    intro i _
    simp only [Function.comp_def]
    congr 1
    omega

/-- C4, amended, at `n = 2` and a codec that looks at the status and the
connection of the session: the ratios are 1/4, 2/4, 3/4, then the
synchronization is complete. -/
theorem C4_inbound_progress_sequence_witness :
    ∃ after : InfSession,
      deliver guarded_class (inbound_session 0 0) 7
          (sync_begin_node "2" :: [xmlNewNode "sync-chunk", xmlNewNode "sync-chunk"] ++
            [xmlNewNode "sync-end"]) = Except.ok after ∧
      after.status = InfSessionStatus.INF_SESSION_RUNNING ∧
      sync_signals after.log =
        [Effect.emit_synchronization_progress 7 1 4,
         Effect.emit_synchronization_progress 7 2 4,
         Effect.emit_synchronization_progress 7 3 4,
         Effect.emit_synchronization_complete 7] :=
  C4_inbound_progress_sequence guarded_class guarded_codec (inbound_session 0 0) 7
    (some "doc") (sync_begin_node "2") (xmlNewNode "sync-end") "2" 2
    [xmlNewNode "sync-chunk", xmlNewNode "sync-chunk"] rfl rfl rfl rfl rfl (by decide)
    (Or.inr (by decide)) (by decide) rfl
    (fun b hb => by
      rcases List.mem_cons.1 hb with h | h
      · rw [h]; decide
      · rw [List.mem_singleton.1 h]; decide)
    (fun start hstart => by
      have h1 : inf_session_net_object_received guarded_class (inbound_session 0 0) 7
          (sync_begin_node "2") =
          Except.ok
            { inbound_session 0 0 with
              shared := InfSessionShared.sync (some 7) 4 1 (some "doc")
              log := [Effect.emit_synchronization_progress 7 1 4] } := rfl
      rw [h1] at hstart
      cases hstart
      refine ⟨⟨_, none, [], rfl, rfl, rfl, rfl⟩, fun next hnext => ?_⟩
      have h2 : inf_session_net_object_received guarded_class
          { inbound_session 0 0 with
            shared := InfSessionShared.sync (some 7) 4 1 (some "doc")
            log := [Effect.emit_synchronization_progress 7 1 4] } 7
          (xmlNewNode "sync-chunk") =
          Except.ok
            { inbound_session 0 0 with
              shared := InfSessionShared.sync (some 7) 4 2 (some "doc")
              log := [Effect.emit_synchronization_progress 7 1 4,
                Effect.emit_synchronization_progress 7 2 4] } := rfl
      rw [h2] at hnext
      cases hnext
      exact ⟨⟨_, none, [], rfl, rfl, rfl, rfl⟩, fun _ _ => trivial⟩)
    rfl

/-- C5. Completing an inbound sync: a Synchronizing session whose counters
say that only `sync-end` is missing (`messages_total >= 2`,
`messages_received = messages_total - 1`) and that receives `sync-end` on its
inbound connection emits `synchronization-complete` once, hands nothing to the
connection manager for sending, releases the connection, and is left Running
with an empty list of outbound records and the user table it had. -/
theorem C5_sync_end_completes (session_class : InfSessionClass)
    (f : InfSessionUserClass → InfSession → InfXmlConnection → xmlNode →
      Except Fault (InfSession × Bool × Option GError))
    (session : InfSession) (connection : InfXmlConnection) (node : xmlNode)
    (total received : Nat) (identifier : Option String)
    (hclass : session_class.process_xml_sync = some f)
    (hstatus : session.status = InfSessionStatus.INF_SESSION_SYNCHRONIZING)
    (hshared : session.shared =
      InfSessionShared.sync (some connection) total received identifier)
    (hname : node.name = "sync-end")
    (htotal : 2 ≤ total) (hguint : total < GUINT_MOD) (hreceived : received = total - 1) :
    inf_session_net_object_received session_class session connection node
      = Except.ok
          { session with
            status := InfSessionStatus.INF_SESSION_RUNNING
            shared := InfSessionShared.run []
            objects := session.objects.filter (fun c => c ≠ connection)
            log := session.log ++ [Effect.emit_synchronization_complete connection] ++
              release_effects session.objects connection ++ [Effect.notify_status] } ∧
    sync_signals ([Effect.emit_synchronization_complete connection] ++
        release_effects session.objects connection ++ [Effect.notify_status])
      = [Effect.emit_synchronization_complete connection] ∧
    ∀ c, sent_nodes ([Effect.emit_synchronization_complete connection] ++
        release_effects session.objects connection ++ [Effect.notify_status]) c = [] := by
  have hcount : (received + 1) % GUINT_MOD = total := by
    subst hreceived
    have h : total - 1 + 1 = total := by omega
    rw [h]
    exact Nat.mod_eq_of_lt hguint
  refine ⟨?_, ?_, ?_⟩
  · exact received_sync_end_complete session_class f session connection node total received
      identifier hclass hstatus hshared hname hcount
  · by_cases hobj : connection ∈ session.objects <;>
      simp [sync_signals, release_effects, hobj, Effect.is_sync_signal]
  · intro c
    by_cases hobj : connection ∈ session.objects <;>
      simp [sent_nodes, release_effects, hobj, Effect.sent_nodes]

/-- C5 at a session that expects only `sync-end` of a stream of four
messages. -/
theorem C5_sync_end_completes_witness :
    inf_session_net_object_received accept_all_class (inbound_session 4 3) 7
        (xmlNewNode "sync-end")
      = Except.ok
          { inbound_session 4 3 with
            status := InfSessionStatus.INF_SESSION_RUNNING
            shared := InfSessionShared.run []
            objects := []
            log := [Effect.emit_synchronization_complete 7, Effect.remove_object 7,
              Effect.signal_disconnect 7, Effect.object_unref 7, Effect.notify_status] } :=
  (C5_sync_end_completes accept_all_class accept_all_codec (inbound_session 4 3) 7
    (xmlNewNode "sync-end") 4 3 (some "doc") rfl rfl rfl rfl (by decide) (by decide)
    (by decide)).1

/-- C7 fails on the code at both ends of the stream.  Before any `sync-begin`
(`messages_received = 0`) a `sync-cancel` is answered with a `sync-error` and
reported as ExpectedBeginOfSync; at the position of `sync-end`
(`messages_received = messages_total - 1`) it is answered with a `sync-error`
and reported as ExpectedEndOfSync.  Between the two the codec sees it: nothing
is sent and the failure is SenderCancelled. -/
theorem C7_sync_cancel_at_the_ends
    (user_new : Option (InfSession → List GParameter → InfUser))
    (process_xml_run :
      Option (InfSessionUserClass → InfSession → InfXmlConnection → xmlNode →
        Except Fault InfSession)) :
    inf_session_net_object_received (inf_session_derived_class user_new process_xml_run)
        (inbound_session 0 0) 7 (xmlNewNode "sync-cancel")
      = Except.ok
          { inbound_session 0 0 with
            status := InfSessionStatus.INF_SESSION_CLOSED
            shared := InfSessionShared.sync none 0 0 (some "doc")
            objects := []
            log :=
              [Effect.send 7
                { name := "sync-error",
                  properties := [("domain", "INF_SESSION_SYNC_ERROR"), ("code", "11")] },
               Effect.emit_synchronization_failed 7
                 (inf_session_sync_error .EXPECTED_BEGIN_OF_SYNC),
               Effect.remove_object 7, Effect.signal_disconnect 7, Effect.object_unref 7,
               Effect.notify_status] } ∧
    inf_session_net_object_received (inf_session_derived_class user_new process_xml_run)
        (inbound_session 4 3) 7 (xmlNewNode "sync-cancel")
      = Except.ok
          { inbound_session 4 3 with
            status := InfSessionStatus.INF_SESSION_CLOSED
            shared := InfSessionShared.sync none 4 3 (some "doc")
            objects := []
            log :=
              [Effect.send 7
                { name := "sync-error",
                  properties := [("domain", "INF_SESSION_SYNC_ERROR"), ("code", "12")] },
               Effect.emit_synchronization_failed 7
                 (inf_session_sync_error .EXPECTED_END_OF_SYNC),
               Effect.remove_object 7, Effect.signal_disconnect 7, Effect.object_unref 7,
               Effect.notify_status] } ∧
    inf_session_net_object_received (inf_session_derived_class user_new process_xml_run)
        (inbound_session 4 2) 7 (xmlNewNode "sync-cancel")
      = Except.ok
          { inbound_session 4 2 with
            status := InfSessionStatus.INF_SESSION_CLOSED
            shared := InfSessionShared.sync none 4 2 (some "doc")
            objects := []
            log :=
              [Effect.emit_synchronization_failed 7
                 (inf_session_sync_error .SENDER_CANCELLED),
               Effect.remove_object 7, Effect.signal_disconnect 7, Effect.object_unref 7,
               Effect.notify_status] } :=
  ⟨rfl, rfl, rfl⟩

/-- C8. Rejecting `sync-begin`: in a session with `messages_total > 0` a
`sync-begin` fails with UnexpectedBeginOfSync, whatever its attributes; with
`messages_total = 0` a `sync-begin` that has no `num-messages` attribute fails
with NumMessagesMissing.  In both cases the handler returns the session it was
given: the counters are unchanged and nothing is emitted. -/
theorem C8_sync_begin_rejected (session_class : InfSessionClass)
    (f : InfSessionUserClass → InfSession → InfXmlConnection → xmlNode →
      Except Fault (InfSession × Bool × Option GError))
    (session : InfSession) (connection : InfXmlConnection) (node : xmlNode)
    (conn : Option InfXmlConnection) (total received : Nat) (identifier : Option String)
    (hclass : session_class.process_xml_sync = some f)
    (hshared : session.shared = InfSessionShared.sync conn total received identifier)
    (hname : node.name = "sync-begin") :
    (0 < total →
      inf_session_handle_received_sync_message session_class session connection node
        = Except.ok (session, false,
            some (inf_session_sync_error .UNEXPECTED_BEGIN_OF_SYNC))) ∧
    (total = 0 → xmlGetProp node "num-messages" = none →
      inf_session_handle_received_sync_message session_class session connection node
        = Except.ok (session, false,
            some (inf_session_sync_error .NUM_MESSAGES_MISSING))) := by
  constructor
  · intro h
    simp [inf_session_handle_received_sync_message, hclass, hshared, hname, h, pure,
      Except.pure]
  · intro h hattr
    simp [inf_session_handle_received_sync_message, hclass, hshared, hname, h, hattr, pure,
      Except.pure]

/-- C8 at a second `sync-begin` (with and without the attribute) and at a
first `sync-begin` without the attribute. -/
theorem C8_sync_begin_rejected_witness :
    inf_session_handle_received_sync_message accept_all_class (inbound_session 4 2) 7
        (sync_begin_node "2")
      = Except.ok (inbound_session 4 2, false,
          some (inf_session_sync_error .UNEXPECTED_BEGIN_OF_SYNC)) ∧
    inf_session_handle_received_sync_message accept_all_class (inbound_session 4 2) 7
        (xmlNewNode "sync-begin")
      = Except.ok (inbound_session 4 2, false,
          some (inf_session_sync_error .UNEXPECTED_BEGIN_OF_SYNC)) ∧
    inf_session_handle_received_sync_message accept_all_class (inbound_session 0 0) 7
        (xmlNewNode "sync-begin")
      = Except.ok (inbound_session 0 0, false,
          some (inf_session_sync_error .NUM_MESSAGES_MISSING)) :=
  ⟨(C8_sync_begin_rejected accept_all_class accept_all_codec (inbound_session 4 2) 7
      (sync_begin_node "2") (some 7) 4 2 (some "doc") rfl rfl rfl).1 (by decide),
   (C8_sync_begin_rejected accept_all_class accept_all_codec (inbound_session 4 2) 7
      (xmlNewNode "sync-begin") (some 7) 4 2 (some "doc") rfl rfl rfl).1 (by decide),
   (C8_sync_begin_rejected accept_all_class accept_all_codec (inbound_session 0 0) 7
      (xmlNewNode "sync-begin") (some 7) 0 0 (some "doc") rfl rfl rfl).2 rfl rfl⟩

/-- C9. Body-position errors: a node whose tag is neither `sync-begin` nor
`sync-end` fails with ExpectedBeginOfSync when `messages_received = 0`, and
otherwise with ExpectedEndOfSync when `messages_received` equals
`messages_total - 1` (computed in `guint`).  In both cases the handler returns
the session it was given, whatever the codec is: `process_xml_sync` is not
called, and the counters and the user table are unchanged. -/
theorem C9_body_position_errors (session_class : InfSessionClass)
    (f : InfSessionUserClass → InfSession → InfXmlConnection → xmlNode →
      Except Fault (InfSession × Bool × Option GError))
    (session : InfSession) (connection : InfXmlConnection) (node : xmlNode)
    (conn : Option InfXmlConnection) (total received : Nat) (identifier : Option String)
    (hclass : session_class.process_xml_sync = some f)
    (hshared : session.shared = InfSessionShared.sync conn total received identifier)
    (hbegin : node.name ≠ "sync-begin") (hend : node.name ≠ "sync-end") :
    (received = 0 →
      inf_session_handle_received_sync_message session_class session connection node
        = Except.ok (session, false,
            some (inf_session_sync_error .EXPECTED_BEGIN_OF_SYNC))) ∧
    (received ≠ 0 → received = (total + GUINT_MOD - 1) % GUINT_MOD →
      inf_session_handle_received_sync_message session_class session connection node
        = Except.ok (session, false,
            some (inf_session_sync_error .EXPECTED_END_OF_SYNC))) := by
  constructor
  · intro h
    simp [inf_session_handle_received_sync_message, hclass, hshared, hbegin, hend, h, pure,
      Except.pure]
  · intro h0 h
    simp [inf_session_handle_received_sync_message, hclass, hshared, hbegin, hend, h0, ← h,
      pure, Except.pure]

/-- C9 at a `sync-user` before any `sync-begin` and at a `sync-user` in the
place of `sync-end`, with a codec that would end the run if it were called. -/
theorem C9_body_position_errors_witness :
    inf_session_handle_received_sync_message
        { inf_session_class_init with process_xml_sync := some faulting_codec }
        (inbound_session 0 0) 7 (xmlNewNode "sync-user")
      = Except.ok (inbound_session 0 0, false,
          some (inf_session_sync_error .EXPECTED_BEGIN_OF_SYNC)) ∧
    inf_session_handle_received_sync_message
        { inf_session_class_init with process_xml_sync := some faulting_codec }
        (inbound_session 4 3) 7 (xmlNewNode "sync-user")
      = Except.ok (inbound_session 4 3, false,
          some (inf_session_sync_error .EXPECTED_END_OF_SYNC)) :=
  ⟨(C9_body_position_errors
      { inf_session_class_init with process_xml_sync := some faulting_codec }
      faulting_codec (inbound_session 0 0) 7 (xmlNewNode "sync-user") (some 7) 0 0
      (some "doc") rfl rfl (by decide) (by decide)).1 rfl,
   (C9_body_position_errors
      { inf_session_class_init with process_xml_sync := some faulting_codec }
      faulting_codec (inbound_session 4 3) 7 (xmlNewNode "sync-user") (some 7) 4 3
      (some "doc") rfl rfl (by decide) (by decide)).2 (by decide) (by decide)⟩

/-- C10. Premature `sync-end`: in a Synchronizing session in which
`messages_received + 1` (as the `guint` the source computes) differs from
`messages_total`, `sync-end` fails with UnexpectedEndOfSync; the session sends
the error, emits `synchronization-failed` and no `synchronization-complete`,
and ends Closed. -/
theorem C10_premature_sync_end (session_class : InfSessionClass)
    (f : InfSessionUserClass → InfSession → InfXmlConnection → xmlNode →
      Except Fault (InfSession × Bool × Option GError))
    (session : InfSession) (connection : InfXmlConnection) (node : xmlNode)
    (total received : Nat) (identifier : Option String)
    (hclass : session_class.process_xml_sync = some f)
    (hstatus : session.status = InfSessionStatus.INF_SESSION_SYNCHRONIZING)
    (hshared : session.shared =
      InfSessionShared.sync (some connection) total received identifier)
    (hname : node.name = "sync-end")
    (hcount : (received + 1) % GUINT_MOD ≠ total) :
    inf_session_handle_received_sync_message session_class session connection node
      = Except.ok
          ({ session with
              shared := InfSessionShared.sync (some connection) total
                ((received + 1) % GUINT_MOD) identifier },
            false, some (inf_session_sync_error .UNEXPECTED_END_OF_SYNC)) ∧
    inf_session_net_object_received session_class session connection node
      = Except.ok
          { session with
            status := InfSessionStatus.INF_SESSION_CLOSED
            shared := InfSessionShared.sync none total ((received + 1) % GUINT_MOD) identifier
            objects := session.objects.filter (fun c => c ≠ connection)
            log := session.log ++
              [Effect.send connection
                (sync_error_node (inf_session_sync_error .UNEXPECTED_END_OF_SYNC)),
               Effect.emit_synchronization_failed connection
                 (inf_session_sync_error .UNEXPECTED_END_OF_SYNC)] ++
              release_effects session.objects connection ++ [Effect.notify_status] } ∧
    sync_signals
        ([Effect.send connection
            (sync_error_node (inf_session_sync_error .UNEXPECTED_END_OF_SYNC)),
          Effect.emit_synchronization_failed connection
            (inf_session_sync_error .UNEXPECTED_END_OF_SYNC)] ++
          release_effects session.objects connection ++ [Effect.notify_status])
      = [Effect.emit_synchronization_failed connection
          (inf_session_sync_error .UNEXPECTED_END_OF_SYNC)] := by
  have hsync : ("sync-end" = "sync-begin") = False := by decide
  have h1 : inf_session_handle_received_sync_message session_class session connection node
      = Except.ok
          ({ session with
              shared := InfSessionShared.sync (some connection) total
                ((received + 1) % GUINT_MOD) identifier },
            false, some (inf_session_sync_error .UNEXPECTED_END_OF_SYNC)) := by
    simp [inf_session_handle_received_sync_message, hclass, hshared, hname, hcount, pure,
      Except.pure]
  refine ⟨h1, ?_, ?_⟩
  · have hpath := error_path_synchronizing
      { session with
        shared := InfSessionShared.sync (some connection) total
          ((received + 1) % GUINT_MOD) identifier }
      connection total ((received + 1) % GUINT_MOD) identifier
      (inf_session_sync_error .UNEXPECTED_END_OF_SYNC) hstatus rfl
    simp only [inf_session_net_object_received, hstatus, hshared, h1, ne_eq,
      not_true_eq_false, if_false, bind, Except.bind] at hpath ⊢
    exact hpath
  · by_cases hobj : connection ∈ session.objects <;>
      simp [sync_signals, release_effects, hobj, Effect.is_sync_signal]

/-- C10 at a `sync-end` that arrives before any `sync-begin`. -/
theorem C10_premature_sync_end_witness :
    inf_session_net_object_received accept_all_class (inbound_session 0 0) 7
        (xmlNewNode "sync-end")
      = Except.ok
          { inbound_session 0 0 with
            status := InfSessionStatus.INF_SESSION_CLOSED
            shared := InfSessionShared.sync none 0 1 (some "doc")
            objects := []
            log :=
              [Effect.send 7
                (sync_error_node (inf_session_sync_error .UNEXPECTED_END_OF_SYNC)),
               Effect.emit_synchronization_failed 7
                 (inf_session_sync_error .UNEXPECTED_END_OF_SYNC),
               Effect.remove_object 7, Effect.signal_disconnect 7, Effect.object_unref 7,
               Effect.notify_status] } :=
  (C10_premature_sync_end accept_all_class accept_all_codec (inbound_session 0 0) 7
    (xmlNewNode "sync-end") 0 0 (some "doc") rfl rfl rfl rfl (by decide)).2.1

/-- C11, as stated, fails: the `sync-error` a Synchronizing session sends when
it is closed (ReceiverCancelled) carries the domain `INF_SESSION_SYNC_ERROR`,
the string `inf_session_class_init` makes the quark from, not
`session-sync`. -/
theorem C11_counterexample :
    inf_session_close (inbound_session 0 0)
      = Except.ok
          { inbound_session 0 0 with
            status := InfSessionStatus.INF_SESSION_CLOSED
            shared := InfSessionShared.sync none 0 0 (some "doc")
            objects := []
            log :=
              [Effect.send 7
                { name := "sync-error",
                  properties := [("domain", "INF_SESSION_SYNC_ERROR"), ("code", "7")] },
               Effect.emit_synchronization_failed 7
                 (inf_session_sync_error .RECEIVER_CANCELLED),
               Effect.remove_object 7, Effect.signal_disconnect 7, Effect.object_unref 7,
               Effect.notify_status] } ∧
    ¬ xmlGetProp
        { name := "sync-error",
          properties := [("domain", "INF_SESSION_SYNC_ERROR"), ("code", "7")] }
        "domain" = some "session-sync" := by
  refine ⟨by rfl, by decide⟩

/-- C11, amended: every `sync-error` node the engine sends for an error of its
own synchronization-error taxonomy carries a `domain` attribute equal to the
string `INF_SESSION_SYNC_ERROR`. -/
theorem C11_wire_domain (session : InfSession) (connection : InfXmlConnection)
    (total received : Nat) (identifier : Option String) (kind : InfSessionSyncError)
    (hstatus : session.status = InfSessionStatus.INF_SESSION_SYNCHRONIZING)
    (hshared : session.shared =
      InfSessionShared.sync (some connection) total received identifier) :
    inf_session_send_sync_error session (inf_session_sync_error kind)
      = Except.ok
          { session with
            log := session.log ++
              [Effect.send connection (sync_error_node (inf_session_sync_error kind))] } ∧
    (sync_error_node (inf_session_sync_error kind)).name = "sync-error" ∧
    xmlGetProp (sync_error_node (inf_session_sync_error kind)) "domain"
      = some "INF_SESSION_SYNC_ERROR" := by
  refine ⟨?_, rfl, ?_⟩
  · simp [inf_session_send_sync_error, hstatus, hshared, pure, Except.pure, sync_error_node,
      inf_connection_manager_send, InfSession.record]
  · simp [sync_error_node, xmlGetProp, xmlNewProp, xmlNewNode, inf_session_sync_error,
      g_set_error, inf_session_sync_error_quark]

/-- C11, amended, at the error IdInUse. -/
theorem C11_wire_domain_witness :
    inf_session_send_sync_error (inbound_session 3 1) (inf_session_sync_error .ID_IN_USE)
      = Except.ok
          { inbound_session 3 1 with
            log :=
              [Effect.send 7
                { name := "sync-error",
                  properties := [("domain", "INF_SESSION_SYNC_ERROR"), ("code", "2")] }] } :=
  (C11_wire_domain (inbound_session 3 1) 7 3 1 (some "doc") .ID_IN_USE rfl rfl).1

/-- C12. Close while Synchronizing: with the inbound connection still
attached, close sends one `sync-error` with the code ReceiverCancelled on it,
emits `synchronization-failed` once, with ReceiverCancelled, releases the
connection and sets the status to Closed; with the connection already
released, close sends nothing, emits no `synchronization-failed` and sets the
status to Closed. -/
theorem C12_close_while_synchronizing (session : InfSession)
    (total received : Nat) (identifier : Option String)
    (hstatus : session.status = InfSessionStatus.INF_SESSION_SYNCHRONIZING) :
    (∀ connection : InfXmlConnection,
      session.shared = InfSessionShared.sync (some connection) total received identifier →
      inf_session_close session
        = Except.ok
            { session with
              status := InfSessionStatus.INF_SESSION_CLOSED
              shared := InfSessionShared.sync none total received identifier
              objects := session.objects.filter (fun c => c ≠ connection)
              log := session.log ++
                [Effect.send connection
                  (sync_error_node (inf_session_sync_error .RECEIVER_CANCELLED)),
                 Effect.emit_synchronization_failed connection
                   (inf_session_sync_error .RECEIVER_CANCELLED)] ++
                release_effects session.objects connection ++ [Effect.notify_status] } ∧
      xmlGetProp (sync_error_node (inf_session_sync_error .RECEIVER_CANCELLED)) "code"
        = some (Nat.repr InfSessionSyncError.RECEIVER_CANCELLED.code) ∧
      sent_nodes
          ([Effect.send connection
              (sync_error_node (inf_session_sync_error .RECEIVER_CANCELLED)),
            Effect.emit_synchronization_failed connection
              (inf_session_sync_error .RECEIVER_CANCELLED)] ++
            release_effects session.objects connection ++ [Effect.notify_status])
          connection
        = [sync_error_node (inf_session_sync_error .RECEIVER_CANCELLED)] ∧
      sync_signals
          ([Effect.send connection
              (sync_error_node (inf_session_sync_error .RECEIVER_CANCELLED)),
            Effect.emit_synchronization_failed connection
              (inf_session_sync_error .RECEIVER_CANCELLED)] ++
            release_effects session.objects connection ++ [Effect.notify_status])
        = [Effect.emit_synchronization_failed connection
            (inf_session_sync_error .RECEIVER_CANCELLED)]) ∧
    (session.shared = InfSessionShared.sync none total received identifier →
      inf_session_close session
        = Except.ok
            { session with
              status := InfSessionStatus.INF_SESSION_CLOSED
              log := session.log ++ [Effect.notify_status] }) := by
  constructor
  · intro connection hshared
    refine ⟨close_synchronizing_attached session connection total received identifier
      hstatus hshared, by rfl, ?_, ?_⟩
    · by_cases hobj : connection ∈ session.objects <;>
        simp [sent_nodes, release_effects, hobj, Effect.sent_nodes]
    · by_cases hobj : connection ∈ session.objects <;>
        simp [sync_signals, release_effects, hobj, Effect.is_sync_signal]
  · intro hshared
    exact close_synchronizing_released session total received identifier hstatus hshared

/-- C12 at a session in the middle of a stream, with the connection attached
and with the connection released. -/
theorem C12_close_while_synchronizing_witness :
    inf_session_close (inbound_session 4 2)
      = Except.ok
          { inbound_session 4 2 with
            status := InfSessionStatus.INF_SESSION_CLOSED
            shared := InfSessionShared.sync none 4 2 (some "doc")
            objects := []
            log :=
              [Effect.send 7
                { name := "sync-error",
                  properties := [("domain", "INF_SESSION_SYNC_ERROR"), ("code", "7")] },
               Effect.emit_synchronization_failed 7
                 (inf_session_sync_error .RECEIVER_CANCELLED),
               Effect.remove_object 7, Effect.signal_disconnect 7, Effect.object_unref 7,
               Effect.notify_status] } ∧
    inf_session_close
        { inbound_session 4 2 with
          shared := InfSessionShared.sync none 4 2 (some "doc"), objects := [] }
      = Except.ok
          { inbound_session 4 2 with
            status := InfSessionStatus.INF_SESSION_CLOSED
            shared := InfSessionShared.sync none 4 2 (some "doc")
            objects := []
            log := [Effect.notify_status] } :=
  ⟨((C12_close_while_synchronizing (inbound_session 4 2) 4 2 (some "doc") rfl).1 7 rfl).1,
   (C12_close_while_synchronizing
      { inbound_session 4 2 with
        shared := InfSessionShared.sync none 4 2 (some "doc"), objects := [] }
      4 2 (some "doc") rfl).2 rfl⟩

/-- C13. Close while Running: close goes through the outbound records in list
order; for a record with `end_enqueued = false` it calls `cancel_outer` on its
connection once, sends one `sync-cancel` on it and emits
`synchronization-failed` once for it, with ReceiverCancelled; for a record
with `end_enqueued = true` it does none of the three; in both cases it
releases the connection.  Afterwards the list is empty and the status is
Closed. -/
theorem C13_close_while_running (session : InfSession) (syncs : List InfSessionSync)
    (hstatus : session.status = InfSessionStatus.INF_SESSION_RUNNING)
    (hshared : session.shared = InfSessionShared.run syncs) :
    inf_session_close session
      = Except.ok
          { session with
            status := InfSessionStatus.INF_SESSION_CLOSED
            shared := InfSessionShared.run []
            objects := close_running_objects session.objects syncs
            log := session.log ++ close_running_effects session.objects syncs ++
              [Effect.notify_status] } ∧
    (close_running_effects session.objects syncs).filter Effect.is_cancel_step
      = (syncs.map cancel_effects).flatten ∧
    (close_running_effects session.objects syncs).filter Effect.is_unref
      = syncs.map (fun sync => Effect.object_unref sync.conn) ∧
    (∀ sync : InfSessionSync, sync.end_enqueued = false →
      cancel_effects sync
        = [Effect.cancel_outer sync.conn,
           Effect.send sync.conn (xmlNewNode "sync-cancel"),
           Effect.emit_synchronization_failed sync.conn
             (inf_session_sync_error .RECEIVER_CANCELLED)]) ∧
    (∀ sync : InfSessionSync, sync.end_enqueued = true → cancel_effects sync = []) := by
  refine ⟨close_running session syncs hstatus hshared, cancel_steps_of_close syncs _,
    unref_of_close syncs _, ?_, ?_⟩
  · intro sync h
    simp [cancel_effects, h]
  · intro sync h
    simp [cancel_effects, h]

/-- C13 at a session with a record whose `sync-end` is not enqueued (connection
7) and a record whose `sync-end` is enqueued (connection 8). -/
theorem C13_close_while_running_witness :
    inf_session_close
        (outbound_session
          [{ conn := 7, messages_total := 4, messages_sent := 1, end_enqueued := false },
           { conn := 8, messages_total := 3, messages_sent := 2, end_enqueued := true }])
      = Except.ok
          { outbound_session [] with
            status := InfSessionStatus.INF_SESSION_CLOSED
            log :=
              [Effect.cancel_outer 7, Effect.send 7 (xmlNewNode "sync-cancel"),
               Effect.emit_synchronization_failed 7
                 (inf_session_sync_error .RECEIVER_CANCELLED),
               Effect.remove_object 7, Effect.signal_disconnect 7, Effect.object_unref 7,
               Effect.remove_object 8, Effect.signal_disconnect 8, Effect.object_unref 8,
               Effect.notify_status] } :=
  (C13_close_while_running
    (outbound_session
      [{ conn := 7, messages_total := 4, messages_sent := 1, end_enqueued := false },
       { conn := 8, messages_total := 3, messages_sent := 2, end_enqueued := true }])
    [{ conn := 7, messages_total := 4, messages_sent := 1, end_enqueued := false },
     { conn := 8, messages_total := 3, messages_sent := 2, end_enqueued := true }]
    rfl rfl).1

/-- C14. Closed is absorbing: on a session whose status is Closed,
`synchronize_to` and the `sent` callback return the session as it is, the
synchronization status of every connection is None, `remove_user` leaves the
status alone, and `add_user` and the connection-status observer leave the
status Closed whenever they return; and close on a Synchronizing or Running
session returns with the status Closed. -/
theorem C14_closed_is_absorbing (session : InfSession) :
    (session.status = InfSessionStatus.INF_SESSION_CLOSED →
      (∀ (session_class : InfSessionClass) (connection : InfXmlConnection)
          (identifier : Option String),
        inf_session_synchronize_to session_class session connection identifier
          = Except.ok session) ∧
      (∀ (session_class : InfSessionUserClass) (params : List GParameter)
          (after : InfSession) (user : Option InfUser) (error : Option GError),
        inf_session_add_user session_class session params = Except.ok (after, user, error) →
        after.status = InfSessionStatus.INF_SESSION_CLOSED) ∧
      (∀ user : InfUser,
        (inf_session_remove_user session user).status
          = InfSessionStatus.INF_SESSION_CLOSED) ∧
      (∀ connection : InfXmlConnection,
        inf_session_get_synchronization_status session connection
          = Except.ok InfSessionSyncStatus.INF_SESSION_SYNC_NONE) ∧
      (∀ (connection : InfXmlConnection) (node : xmlNode),
        inf_session_net_object_sent session connection node = Except.ok session) ∧
      (∀ (connection : InfXmlConnection) (status : InfXmlConnectionStatus)
          (after : InfSession),
        inf_session_connection_notify_status_cb session connection status = Except.ok after →
        after.status = InfSessionStatus.INF_SESSION_CLOSED)) ∧
    (∀ (conn : Option InfXmlConnection) (total received : Nat) (identifier : Option String),
      session.status = InfSessionStatus.INF_SESSION_SYNCHRONIZING →
      session.shared = InfSessionShared.sync conn total received identifier →
      ∃ after : InfSession,
        inf_session_close session = Except.ok after ∧
        after.status = InfSessionStatus.INF_SESSION_CLOSED) ∧
    (∀ syncs : List InfSessionSync,
      session.status = InfSessionStatus.INF_SESSION_RUNNING →
      session.shared = InfSessionShared.run syncs →
      ∃ after : InfSession,
        inf_session_close session = Except.ok after ∧
        after.status = InfSessionStatus.INF_SESSION_CLOSED) := by
  refine ⟨?_, ?_, ?_⟩
  · intro hstatus
    refine ⟨?_, ?_, ?_, ?_, ?_, ?_⟩
    · intro session_class connection identifier
      cases identifier <;> simp [inf_session_synchronize_to, hstatus, pure, Except.pure]
    · intro session_class params after user error h
      unfold inf_session_add_user at h
      cases hv : session_class.validate_user_props with
      | none =>
        simp only [hv, pure, Except.pure, Except.ok.injEq, Prod.mk.injEq] at h
        rw [← h.1]; exact hstatus
      | some validate =>
        cases hn : session_class.user_new with
        | none =>
          simp only [hv, hn, pure, Except.pure, Except.ok.injEq, Prod.mk.injEq] at h
          rw [← h.1]; exact hstatus
        | some user_new =>
          simp only [hv, hn, bind, Except.bind] at h
          cases hr : validate session params none with
          | error e => simp [hr] at h
          | ok result =>
            obtain ⟨ok, err⟩ := result
            cases ok with
            | false =>
              simp only [hr, Bool.false_eq_true, if_false, pure, Except.pure,
                Except.ok.injEq, Prod.mk.injEq] at h
              rw [← h.1]; exact hstatus
            | true =>
              simp only [hr, if_true, pure, Except.pure, Except.ok.injEq,
                Prod.mk.injEq] at h
              rw [← h.1]
              simp only [g_signal_emit_add_user, add_user_handler_status, InfSession.record]
              exact hstatus
    · intro user
      rw [remove_user_status]
      exact hstatus
    · intro connection
      simp [inf_session_get_synchronization_status, hstatus, pure, Except.pure]
    · intro connection node
      simp [inf_session_net_object_sent, inf_session_find_sync_by_connection,
        inf_session_find_sync_item_by_connection, hstatus, bind, Except.bind, pure,
        Except.pure]
    · intro connection status after h
      unfold inf_session_connection_notify_status_cb at h
      by_cases hc : status = InfXmlConnectionStatus.INF_XML_CONNECTION_CLOSED ∨
          status = InfXmlConnectionStatus.INF_XML_CONNECTION_CLOSING
      · simp [hc, hstatus, throw, throwThe, MonadExceptOf.throw] at h
      · simp only [hc, if_false, pure, Except.pure, Except.ok.injEq] at h
        rw [← h]; exact hstatus
  · intro conn total received identifier hstatus hshared
    cases conn with
    | none =>
      exact ⟨_, close_synchronizing_released session total received identifier hstatus
        hshared, rfl⟩
    | some connection =>
      exact ⟨_, close_synchronizing_attached session connection total received identifier
        hstatus hshared, rfl⟩
  · intro syncs hstatus hshared
    exact ⟨_, close_running session syncs hstatus hshared, rfl⟩

/-- C14 at a closed session (a `synchronize_to` and a `sent` callback leave it
as it is) and at the close of a Synchronizing and of a Running session. -/
theorem C14_closed_is_absorbing_witness :
    inf_session_synchronize_to accept_all_class closed_session 7 (some "doc")
      = Except.ok closed_session ∧
    inf_session_net_object_sent closed_session 7 (xmlNewNode "sync-end")
      = Except.ok closed_session ∧
    (∃ after : InfSession,
      inf_session_close (inbound_session 4 2) = Except.ok after ∧
      after.status = InfSessionStatus.INF_SESSION_CLOSED) ∧
    (∃ after : InfSession,
      inf_session_close
          (outbound_session
            [{ conn := 7, messages_total := 4, messages_sent := 1, end_enqueued := false }])
        = Except.ok after ∧
      after.status = InfSessionStatus.INF_SESSION_CLOSED) :=
  ⟨((C14_closed_is_absorbing closed_session).1 rfl).1 accept_all_class 7 (some "doc"),
   ((C14_closed_is_absorbing closed_session).1 rfl).2.2.2.2.1 7 (xmlNewNode "sync-end"),
   (C14_closed_is_absorbing (inbound_session 4 2)).2.1 (some 7) 4 2 (some "doc") rfl rfl,
   (C14_closed_is_absorbing
      (outbound_session
        [{ conn := 7, messages_total := 4, messages_sent := 1, end_enqueued := false }])).2.2
      [{ conn := 7, messages_total := 4, messages_sent := 1, end_enqueued := false }]
      rfl rfl⟩

/-- C15. Transport close during inbound sync: when the status of the inbound
connection of a Synchronizing session becomes Closing or Closed, the observer
emits `synchronization-failed` once, with ConnectionClosed, hands nothing to
the connection manager for sending, and leaves the session Closed. -/
theorem C15_transport_close_inbound (session : InfSession)
    (connection : InfXmlConnection) (total received : Nat) (identifier : Option String)
    (status : InfXmlConnectionStatus)
    (hstatus : session.status = InfSessionStatus.INF_SESSION_SYNCHRONIZING)
    (hshared : session.shared =
      InfSessionShared.sync (some connection) total received identifier)
    (hclosed : status = InfXmlConnectionStatus.INF_XML_CONNECTION_CLOSED ∨
      status = InfXmlConnectionStatus.INF_XML_CONNECTION_CLOSING) :
    inf_session_connection_notify_status_cb session connection status
      = Except.ok
          { session with
            status := InfSessionStatus.INF_SESSION_CLOSED
            shared := InfSessionShared.sync none total received identifier
            objects := session.objects.filter (fun c => c ≠ connection)
            log := session.log ++
              [Effect.emit_synchronization_failed connection
                (inf_session_sync_error .CONNECTION_CLOSED)] ++
              release_effects session.objects connection ++ [Effect.notify_status] } ∧
    (∀ c, sent_nodes
        ([Effect.emit_synchronization_failed connection
            (inf_session_sync_error .CONNECTION_CLOSED)] ++
          release_effects session.objects connection ++ [Effect.notify_status]) c = []) ∧
    sync_signals
        ([Effect.emit_synchronization_failed connection
            (inf_session_sync_error .CONNECTION_CLOSED)] ++
          release_effects session.objects connection ++ [Effect.notify_status])
      = [Effect.emit_synchronization_failed connection
          (inf_session_sync_error .CONNECTION_CLOSED)] := by
  refine ⟨?_, ?_, ?_⟩
  · have h1 := emit_failed_synchronizing session connection total received identifier
      (inf_session_sync_error .CONNECTION_CLOSED) hstatus hshared
    simp only [inf_session_connection_notify_status_cb, hclosed, if_true, hstatus, hshared,
      ne_eq, not_true_eq_false, if_false, h1, bind, Except.bind]
    refine (close_synchronizing_released _ total received identifier ?_ ?_).trans ?_
    · rfl
    · rfl
    · rfl
  · intro c
    by_cases hobj : connection ∈ session.objects <;>
      simp [sent_nodes, release_effects, hobj, Effect.sent_nodes]
  · by_cases hobj : connection ∈ session.objects <;>
      simp [sync_signals, release_effects, hobj, Effect.is_sync_signal]

/-- C15 at a connection that goes to Closing in the middle of a stream. -/
theorem C15_transport_close_inbound_witness :
    inf_session_connection_notify_status_cb (inbound_session 4 2) 7
        InfXmlConnectionStatus.INF_XML_CONNECTION_CLOSING
      = Except.ok
          { inbound_session 4 2 with
            status := InfSessionStatus.INF_SESSION_CLOSED
            shared := InfSessionShared.sync none 4 2 (some "doc")
            objects := []
            log :=
              [Effect.emit_synchronization_failed 7
                 (inf_session_sync_error .CONNECTION_CLOSED),
               Effect.remove_object 7, Effect.signal_disconnect 7, Effect.object_unref 7,
               Effect.notify_status] } :=
  (C15_transport_close_inbound (inbound_session 4 2) 7 4 2 (some "doc")
    InfXmlConnectionStatus.INF_XML_CONNECTION_CLOSING rfl rfl (Or.inr rfl)).1

/-- C16. Outbound send acknowledgement: for a Running session and a connection
whose record has `messages_sent = s`, `messages_total = t` and `s < t`, a
`sent` callback sets `messages_sent` to `s + 1`; if `s + 1 < t` it emits one
`synchronization-progress` with ratio `(s + 1) / t` and keeps the record; if
`s + 1 = t` it emits `synchronization-complete` once and no progress, and the
record is removed from the list.  On a connection without a record the
callback returns the session as it is. -/
theorem C16_outbound_sent (session : InfSession) (connection : InfXmlConnection)
    (node : xmlNode) (syncs : List InfSessionSync)
    (hstatus : session.status = InfSessionStatus.INF_SESSION_RUNNING)
    (hshared : session.shared = InfSessionShared.run syncs) :
    (∀ sync : InfSessionSync,
      syncs.find? (fun item => item.conn = connection) = some sync →
      sync.messages_sent < sync.messages_total → sync.messages_total < GUINT_MOD →
      (sync.messages_sent + 1 < sync.messages_total →
        inf_session_net_object_sent session connection node
          = Except.ok
              { session with
                shared := InfSessionShared.run
                  (InfSessionSync_set syncs connection
                    (fun item => { item with messages_sent := sync.messages_sent + 1 }))
                log := session.log ++
                  [Effect.emit_synchronization_progress connection
                    (sync.messages_sent + 1) sync.messages_total] } ∧
        (InfSessionSync_set syncs connection
            (fun item => { item with messages_sent := sync.messages_sent + 1 })).find?
            (fun item => item.conn = connection)
          = some { sync with messages_sent := sync.messages_sent + 1 }) ∧
      (sync.messages_sent + 1 = sync.messages_total →
        inf_session_net_object_sent session connection node
          = Except.ok
              { session with
                shared := InfSessionShared.run
                  (syncs.eraseP (fun item => item.conn = connection))
                objects := session.objects.filter (fun c => c ≠ connection)
                log := session.log ++ [Effect.emit_synchronization_complete connection] ++
                  release_effects session.objects connection } ∧
        sync_signals ([Effect.emit_synchronization_complete connection] ++
            release_effects session.objects connection)
          = [Effect.emit_synchronization_complete connection])) ∧
    (syncs.find? (fun item => item.conn = connection) = none →
      inf_session_net_object_sent session connection node = Except.ok session) := by
  have hfindsync := find_sync_running session connection syncs hstatus hshared
  constructor
  · intro sync hfind hlt hguint
    have hmod : (sync.messages_sent + 1) % GUINT_MOD = sync.messages_sent + 1 :=
      Nat.mod_eq_of_lt (by omega)
    have hconn : ∀ item : InfSessionSync,
        ({ item with messages_sent := sync.messages_sent + 1 } : InfSessionSync).conn
          = item.conn := fun _ => rfl
    have hfind' := find_sync_set connection
      (fun item => { item with messages_sent := sync.messages_sent + 1 }) hconn syncs
    rw [hfind, Option.map_some'] at hfind'
    constructor
    · intro hless
      refine ⟨?_, hfind'⟩
      simp [inf_session_net_object_sent, hfindsync, hfind, hshared, bind, Except.bind,
        hmod, hless, pure, Except.pure, g_signal_emit_synchronization_progress,
        InfSession.record]
    · intro heq
      have hnot : ¬ sync.messages_sent + 1 < sync.messages_total := by omega
      have hemit := emit_complete_running
        { session with
          shared := InfSessionShared.run
            (InfSessionSync_set syncs connection
              (fun item => { item with messages_sent := sync.messages_sent + 1 })) }
        connection _ _ hstatus rfl hfind'
      rw [erase_sync_set connection _ hconn] at hemit
      refine ⟨?_, ?_⟩
      · simp only [inf_session_net_object_sent, hfindsync, hfind, hshared, bind,
          Except.bind, hmod, hnot, if_false]
        exact hemit
      · rw [sync_signals_append, sync_signals_release]
        rfl
  · intro hnone
    simp [inf_session_net_object_sent, hfindsync, hnone, bind, Except.bind, pure,
      Except.pure]

/-- C16 at a record with 1 of 4 messages sent, at a record with 2 of 3
messages sent, and at a connection without a record. -/
theorem C16_outbound_sent_witness :
    inf_session_net_object_sent
        (outbound_session
          [{ conn := 7, messages_total := 4, messages_sent := 1, end_enqueued := false },
           { conn := 8, messages_total := 3, messages_sent := 2, end_enqueued := true }])
        7 (xmlNewNode "sync-user")
      = Except.ok
          { outbound_session
              [{ conn := 7, messages_total := 4, messages_sent := 1, end_enqueued := false },
               { conn := 8, messages_total := 3, messages_sent := 2, end_enqueued := true }]
            with
            shared := InfSessionShared.run
              [{ conn := 7, messages_total := 4, messages_sent := 2, end_enqueued := false },
               { conn := 8, messages_total := 3, messages_sent := 2, end_enqueued := true }]
            log := [Effect.emit_synchronization_progress 7 2 4] } ∧
    inf_session_net_object_sent
        (outbound_session
          [{ conn := 7, messages_total := 4, messages_sent := 1, end_enqueued := false },
           { conn := 8, messages_total := 3, messages_sent := 2, end_enqueued := true }])
        8 (xmlNewNode "sync-end")
      = Except.ok
          { outbound_session
              [{ conn := 7, messages_total := 4, messages_sent := 1, end_enqueued := false },
               { conn := 8, messages_total := 3, messages_sent := 2, end_enqueued := true }]
            with
            shared := InfSessionShared.run
              [{ conn := 7, messages_total := 4, messages_sent := 1, end_enqueued := false }]
            objects := [7]
            log :=
              [Effect.emit_synchronization_complete 8, Effect.remove_object 8,
               Effect.signal_disconnect 8, Effect.object_unref 8] } ∧
    inf_session_net_object_sent
        (outbound_session
          [{ conn := 7, messages_total := 4, messages_sent := 1, end_enqueued := false }])
        9 (xmlNewNode "sync-user")
      = Except.ok
          (outbound_session
            [{ conn := 7, messages_total := 4, messages_sent := 1, end_enqueued := false }]) :=
  ⟨(((C16_outbound_sent
      (outbound_session
        [{ conn := 7, messages_total := 4, messages_sent := 1, end_enqueued := false },
         { conn := 8, messages_total := 3, messages_sent := 2, end_enqueued := true }])
      7 (xmlNewNode "sync-user") _ rfl rfl).1
      { conn := 7, messages_total := 4, messages_sent := 1, end_enqueued := false }
      rfl (by decide) (by decide)).1 (by decide)).1,
   (((C16_outbound_sent
      (outbound_session
        [{ conn := 7, messages_total := 4, messages_sent := 1, end_enqueued := false },
         { conn := 8, messages_total := 3, messages_sent := 2, end_enqueued := true }])
      8 (xmlNewNode "sync-end") _ rfl rfl).1
      { conn := 8, messages_total := 3, messages_sent := 2, end_enqueued := true }
      rfl (by decide) (by decide)).2 (by decide)).1,
   (C16_outbound_sent
      (outbound_session
        [{ conn := 7, messages_total := 4, messages_sent := 1, end_enqueued := false }])
      9 (xmlNewNode "sync-user") _ rfl rfl).2 rfl⟩

/-- C17. The synchronization status of a connection: None in status Closed; in
status Synchronizing, InProgress for the inbound connection and None for every
other; in status Running, None without a record, EndEnqueued with a record
whose `end_enqueued` is true and InProgress with a record whose `end_enqueued`
is false. -/
theorem C17_get_synchronization_status (session : InfSession)
    (connection : InfXmlConnection) :
    (session.status = InfSessionStatus.INF_SESSION_CLOSED →
      inf_session_get_synchronization_status session connection
        = Except.ok InfSessionSyncStatus.INF_SESSION_SYNC_NONE) ∧
    (∀ (conn : Option InfXmlConnection) (total received : Nat) (identifier : Option String),
      session.status = InfSessionStatus.INF_SESSION_SYNCHRONIZING →
      session.shared = InfSessionShared.sync conn total received identifier →
      (conn = some connection →
        inf_session_get_synchronization_status session connection
          = Except.ok InfSessionSyncStatus.INF_SESSION_SYNC_IN_PROGRESS) ∧
      (conn ≠ some connection →
        inf_session_get_synchronization_status session connection
          = Except.ok InfSessionSyncStatus.INF_SESSION_SYNC_NONE)) ∧
    (∀ syncs : List InfSessionSync,
      session.status = InfSessionStatus.INF_SESSION_RUNNING →
      session.shared = InfSessionShared.run syncs →
      (syncs.find? (fun item => item.conn = connection) = none →
        inf_session_get_synchronization_status session connection
          = Except.ok InfSessionSyncStatus.INF_SESSION_SYNC_NONE) ∧
      (∀ sync : InfSessionSync,
        syncs.find? (fun item => item.conn = connection) = some sync →
        (sync.end_enqueued = true →
          inf_session_get_synchronization_status session connection
            = Except.ok InfSessionSyncStatus.INF_SESSION_SYNC_END_ENQUEUED) ∧
        (sync.end_enqueued = false →
          inf_session_get_synchronization_status session connection
            = Except.ok InfSessionSyncStatus.INF_SESSION_SYNC_IN_PROGRESS))) := by
  refine ⟨?_, ?_, ?_⟩
  · intro hstatus
    simp [inf_session_get_synchronization_status, hstatus, pure, Except.pure]
  · intro conn total received identifier hstatus hshared
    constructor
    · intro h
      simp [inf_session_get_synchronization_status, hstatus, hshared, h, pure, Except.pure]
    · intro h
      have h' : ¬ some connection = conn := fun e => h e.symm
      simp [inf_session_get_synchronization_status, hstatus, hshared, h', pure, Except.pure]
  · intro syncs hstatus hshared
    have hfindsync := find_sync_running session connection syncs hstatus hshared
    constructor
    · intro hnone
      simp [inf_session_get_synchronization_status, hstatus, hfindsync, hnone, bind,
        Except.bind, pure, Except.pure]
    · intro sync hfind
      constructor
      · intro h
        simp [inf_session_get_synchronization_status, hstatus, hfindsync, hfind, bind,
          Except.bind, pure, Except.pure, h]
      · intro h
        simp [inf_session_get_synchronization_status, hstatus, hfindsync, hfind, bind,
          Except.bind, pure, Except.pure, h]

/-- C17 in the three statuses. -/
theorem C17_get_synchronization_status_witness :
    inf_session_get_synchronization_status closed_session 7
      = Except.ok InfSessionSyncStatus.INF_SESSION_SYNC_NONE ∧
    inf_session_get_synchronization_status (inbound_session 4 2) 7
      = Except.ok InfSessionSyncStatus.INF_SESSION_SYNC_IN_PROGRESS ∧
    inf_session_get_synchronization_status (inbound_session 4 2) 8
      = Except.ok InfSessionSyncStatus.INF_SESSION_SYNC_NONE ∧
    inf_session_get_synchronization_status
        (outbound_session
          [{ conn := 7, messages_total := 4, messages_sent := 1, end_enqueued := false },
           { conn := 8, messages_total := 3, messages_sent := 2, end_enqueued := true }]) 9
      = Except.ok InfSessionSyncStatus.INF_SESSION_SYNC_NONE ∧
    inf_session_get_synchronization_status
        (outbound_session
          [{ conn := 7, messages_total := 4, messages_sent := 1, end_enqueued := false },
           { conn := 8, messages_total := 3, messages_sent := 2, end_enqueued := true }]) 8
      = Except.ok InfSessionSyncStatus.INF_SESSION_SYNC_END_ENQUEUED ∧
    inf_session_get_synchronization_status
        (outbound_session
          [{ conn := 7, messages_total := 4, messages_sent := 1, end_enqueued := false },
           { conn := 8, messages_total := 3, messages_sent := 2, end_enqueued := true }]) 7
      = Except.ok InfSessionSyncStatus.INF_SESSION_SYNC_IN_PROGRESS :=
  ⟨(C17_get_synchronization_status closed_session 7).1 rfl,
   ((C17_get_synchronization_status (inbound_session 4 2) 7).2.1 (some 7) 4 2 (some "doc")
      rfl rfl).1 rfl,
   ((C17_get_synchronization_status (inbound_session 4 2) 8).2.1 (some 7) 4 2 (some "doc")
      rfl rfl).2 (by decide),
   ((C17_get_synchronization_status
      (outbound_session
        [{ conn := 7, messages_total := 4, messages_sent := 1, end_enqueued := false },
         { conn := 8, messages_total := 3, messages_sent := 2, end_enqueued := true }]) 9).2.2
      _ rfl rfl).1 rfl,
   (((C17_get_synchronization_status
      (outbound_session
        [{ conn := 7, messages_total := 4, messages_sent := 1, end_enqueued := false },
         { conn := 8, messages_total := 3, messages_sent := 2, end_enqueued := true }]) 8).2.2
      _ rfl rfl).2
      { conn := 8, messages_total := 3, messages_sent := 2, end_enqueued := true } rfl).1 rfl,
   (((C17_get_synchronization_status
      (outbound_session
        [{ conn := 7, messages_total := 4, messages_sent := 1, end_enqueued := false },
         { conn := 8, messages_total := 3, messages_sent := 2, end_enqueued := true }]) 7).2.2
      _ rfl rfl).2
      { conn := 7, messages_total := 4, messages_sent := 1, end_enqueued := false } rfl).2 rfl⟩

/-- C18, as stated, fails on the numeric code.  A Running session with a
record on connection 7 receives a `sync-error` with both attributes.  With
`code="010"`, the decimal text of 10, the error of `synchronization-failed`
carries the code 8: `strtoul` is called with base 0 and reads a leading `0` as
the octal prefix.  With `code="4294967295"` the error carries the code -1: the
value goes through the `gint` of `g_set_error`. -/
theorem C18_counterexample :
    decimal_text "010" = some 10 ∧
    inf_session_net_object_received accept_all_class
        (outbound_session
          [{ conn := 7, messages_total := 4, messages_sent := 1, end_enqueued := false }])
        7
        { name := "sync-error",
          properties := [("domain", "INF_SESSION_SYNC_ERROR"), ("code", "010")] }
      = Except.ok
          { outbound_session
              [{ conn := 7, messages_total := 4, messages_sent := 1, end_enqueued := false }]
            with
            shared := InfSessionShared.run []
            objects := []
            log :=
              [Effect.cancel_outer 7,
               Effect.emit_synchronization_failed 7
                 { domain := "INF_SESSION_SYNC_ERROR", code := 8,
                   message := inf_session_get_sync_error_message "INF_SESSION_SYNC_ERROR" 8 },
               Effect.remove_object 7, Effect.signal_disconnect 7, Effect.object_unref 7] } ∧
    decimal_text "4294967295" = some 4294967295 ∧
    inf_session_net_object_received accept_all_class
        (outbound_session
          [{ conn := 7, messages_total := 4, messages_sent := 1, end_enqueued := false }])
        7
        { name := "sync-error",
          properties := [("domain", "INF_SESSION_SYNC_ERROR"), ("code", "4294967295")] }
      = Except.ok
          { outbound_session
              [{ conn := 7, messages_total := 4, messages_sent := 1, end_enqueued := false }]
            with
            shared := InfSessionShared.run []
            objects := []
            log :=
              [Effect.cancel_outer 7,
               Effect.emit_synchronization_failed 7
                 { domain := "INF_SESSION_SYNC_ERROR", code := -1,
                   message :=
                     inf_session_get_sync_error_message "INF_SESSION_SYNC_ERROR" 4294967295 },
               Effect.remove_object 7, Effect.signal_disconnect 7, Effect.object_unref 7] } :=
  ⟨by decide, by rfl, by decide, by rfl⟩

/-- C18, amended: when a Running session receives `sync-error` on a connection
that has a record, it calls `cancel_outer` for the connection once and emits
`synchronization-failed` once.  When both attributes are present the error
carries the `domain` attribute and, as its code, the number `strtoul` reads
from the `code` attribute with base 0, kept in 32 bits and taken as a `gint`;
for a decimal text without superfluous leading zero that denotes a number
below `2^31` this is the number itself.  When one attribute is absent the
error is Failed of the session's own domain.  The record of the connection is
removed, the other records and the status are unchanged. -/
theorem C18_remote_rejection (session_class : InfSessionClass) (session : InfSession)
    (connection : InfXmlConnection) (node : xmlNode) (syncs : List InfSessionSync)
    (sync : InfSessionSync)
    (hstatus : session.status = InfSessionStatus.INF_SESSION_RUNNING)
    (hshared : session.shared = InfSessionShared.run syncs)
    (hfind : syncs.find? (fun item => item.conn = connection) = some sync)
    (hname : node.name = "sync-error") :
    (∀ domain code : String,
      xmlGetProp node "domain" = some domain → xmlGetProp node "code" = some code →
      inf_session_net_object_received session_class session connection node
        = Except.ok
            { session with
              shared := InfSessionShared.run
                (syncs.eraseP (fun item => item.conn = connection))
              objects := session.objects.filter (fun c => c ≠ connection)
              log := session.log ++
                [Effect.cancel_outer connection,
                 Effect.emit_synchronization_failed connection
                   (g_set_error domain (gint_of_guint (strtoul code 0 % GUINT_MOD))
                     (inf_session_get_sync_error_message domain
                       (strtoul code 0 % GUINT_MOD)))] ++
                release_effects session.objects connection } ∧
      ∀ n : Nat, decimal_text code = some n → no_leading_zero code → n < 2147483648 →
        gint_of_guint (strtoul code 0 % GUINT_MOD) = (n : Int)) ∧
    (xmlGetProp node "domain" = none ∨ xmlGetProp node "code" = none →
      inf_session_net_object_received session_class session connection node
        = Except.ok
            { session with
              shared := InfSessionShared.run
                (syncs.eraseP (fun item => item.conn = connection))
              objects := session.objects.filter (fun c => c ≠ connection)
              log := session.log ++
                [Effect.cancel_outer connection,
                 Effect.emit_synchronization_failed connection
                   (inf_session_sync_error .FAILED)] ++
                release_effects session.objects connection }) := by
  have hs : (inf_connection_manager_cancel_outer session connection).status
      = InfSessionStatus.INF_SESSION_RUNNING := hstatus
  have hsh : (inf_connection_manager_cancel_outer session connection).shared
      = InfSessionShared.run syncs := hshared
  constructor
  · intro domain code hdomain hcode
    constructor
    · exact received_sync_error_running session_class session connection node syncs sync
        domain code hstatus hshared hfind hname hdomain hcode
    · intro n htext hzero hn
      have hmax : n ≤ ULONG_MAX := by
        unfold ULONG_MAX
        omega
      have hmod : n % GUINT_MOD = n := Nat.mod_eq_of_lt (by unfold GUINT_MOD; omega)
      rw [strtoul_decimal_text code n htext hzero hmax]
      unfold gint_of_guint
      rw [hmod, hmod, if_pos hn]
  · intro habsent
    have hemit := emit_failed_running _ connection syncs sync
      (inf_session_sync_error .FAILED) hs hsh hfind
    have herror :
        (match xmlGetProp node "domain", xmlGetProp node "code" with
          | some domain_attr, some code_attr =>
            g_set_error domain_attr (gint_of_guint (strtoul code_attr 0 % GUINT_MOD))
              (inf_session_get_sync_error_message domain_attr
                (strtoul code_attr 0 % GUINT_MOD))
          | _, _ => inf_session_sync_error .FAILED)
          = inf_session_sync_error .FAILED := by
      rcases habsent with h | h
      · rw [h]
      · rw [h]
        cases xmlGetProp node "domain" <;> rfl
    simp only [inf_session_net_object_received, hstatus, hname, if_true, herror, hemit]
    simp [inf_connection_manager_cancel_outer, InfSession.record, hstatus]

/-- C18, amended, at a `sync-error` with the domain of the session and the
code 2, and at a `sync-error` without attributes. -/
theorem C18_remote_rejection_witness :
    inf_session_net_object_received accept_all_class
        (outbound_session
          [{ conn := 7, messages_total := 4, messages_sent := 1, end_enqueued := false },
           { conn := 8, messages_total := 3, messages_sent := 2, end_enqueued := true }])
        7 (sync_error_node (inf_session_sync_error .ID_IN_USE))
      = Except.ok
          { outbound_session
              [{ conn := 7, messages_total := 4, messages_sent := 1, end_enqueued := false },
               { conn := 8, messages_total := 3, messages_sent := 2, end_enqueued := true }]
            with
            shared := InfSessionShared.run
              [{ conn := 8, messages_total := 3, messages_sent := 2, end_enqueued := true }]
            objects := [8]
            log :=
              [Effect.cancel_outer 7,
               Effect.emit_synchronization_failed 7 (inf_session_sync_error .ID_IN_USE),
               Effect.remove_object 7, Effect.signal_disconnect 7, Effect.object_unref 7] } ∧
    gint_of_guint (strtoul "2" 0 % GUINT_MOD) = 2 ∧
    inf_session_net_object_received accept_all_class
        (outbound_session
          [{ conn := 7, messages_total := 4, messages_sent := 1, end_enqueued := false },
           { conn := 8, messages_total := 3, messages_sent := 2, end_enqueued := true }])
        7 (xmlNewNode "sync-error")
      = Except.ok
          { outbound_session
              [{ conn := 7, messages_total := 4, messages_sent := 1, end_enqueued := false },
               { conn := 8, messages_total := 3, messages_sent := 2, end_enqueued := true }]
            with
            shared := InfSessionShared.run
              [{ conn := 8, messages_total := 3, messages_sent := 2, end_enqueued := true }]
            objects := [8]
            log :=
              [Effect.cancel_outer 7,
               Effect.emit_synchronization_failed 7 (inf_session_sync_error .FAILED),
               Effect.remove_object 7, Effect.signal_disconnect 7, Effect.object_unref 7] } :=
  ⟨((C18_remote_rejection accept_all_class
      (outbound_session
        [{ conn := 7, messages_total := 4, messages_sent := 1, end_enqueued := false },
         { conn := 8, messages_total := 3, messages_sent := 2, end_enqueued := true }])
      7 (sync_error_node (inf_session_sync_error .ID_IN_USE)) _
      { conn := 7, messages_total := 4, messages_sent := 1, end_enqueued := false }
      rfl rfl rfl rfl).1 "INF_SESSION_SYNC_ERROR" "2" rfl rfl).1,
   ((C18_remote_rejection accept_all_class
      (outbound_session
        [{ conn := 7, messages_total := 4, messages_sent := 1, end_enqueued := false },
         { conn := 8, messages_total := 3, messages_sent := 2, end_enqueued := true }])
      7 (sync_error_node (inf_session_sync_error .ID_IN_USE)) _
      { conn := 7, messages_total := 4, messages_sent := 1, end_enqueued := false }
      rfl rfl rfl rfl).1 "INF_SESSION_SYNC_ERROR" "2" rfl rfl).2 2 (by decide)
      (Or.inr (by decide)) (by decide),
   (C18_remote_rejection accept_all_class
      (outbound_session
        [{ conn := 7, messages_total := 4, messages_sent := 1, end_enqueued := false },
         { conn := 8, messages_total := 3, messages_sent := 2, end_enqueued := true }])
      7 (xmlNewNode "sync-error") _
      { conn := 7, messages_total := 4, messages_sent := 1, end_enqueued := false }
      rfl rfl rfl rfl).2 (Or.inl rfl)⟩

/-- C19 fails on the code for a `sync-error` on a connection without a record.
A node that is not `sync-error` is handed to `process_xml_run`; but a
`sync-error` is never handed to it: the session calls `cancel_outer`, emits
`synchronization-failed`, and the class handler of that signal then fails its
assertion that the connection has a record. -/
theorem C19_sync_error_without_record :
    inf_session_net_object_received echo_class
        (outbound_session
          [{ conn := 8, messages_total := 3, messages_sent := 2, end_enqueued := true }])
        7 (xmlNewNode "request")
      = Except.ok
          { outbound_session
              [{ conn := 8, messages_total := 3, messages_sent := 2, end_enqueued := true }]
            with log := [Effect.send 7 (xmlNewNode "request")] } ∧
    inf_session_net_object_received echo_class
        (outbound_session
          [{ conn := 8, messages_total := 3, messages_sent := 2, end_enqueued := true }])
        7 (xmlNewNode "sync-error")
      = Except.error Fault.assertion_failed ∧
    inf_session_net_object_received echo_class
        (outbound_session
          [{ conn := 8, messages_total := 3, messages_sent := 2, end_enqueued := true }])
        7 (xmlNewNode "sync-error")
      = inf_session_synchronization_failed_handler
          { outbound_session
              [{ conn := 8, messages_total := 3, messages_sent := 2, end_enqueued := true }]
            with
            log :=
              [Effect.cancel_outer 7,
               Effect.emit_synchronization_failed 7 (inf_session_sync_error .FAILED)] }
          7 (inf_session_sync_error .FAILED) :=
  ⟨by rfl, by rfl, by rfl⟩

/-- C20. The preconditions of `synchronize_to`: on a session that is not
Running, and on a Running session for a connection that already has a record,
the call returns the session as it is (no state changed, nothing registered,
nothing sent).  Consequently a list of records with pairwise different
connections still has pairwise different connections after any call that
returns. -/
theorem C20_synchronize_to_preconditions (session_class : InfSessionClass)
    (session : InfSession) (connection : InfXmlConnection) (identifier : Option String) :
    (session.status ≠ InfSessionStatus.INF_SESSION_RUNNING →
      inf_session_synchronize_to session_class session connection identifier
        = Except.ok session) ∧
    (∀ (syncs : List InfSessionSync) (sync : InfSessionSync),
      session.status = InfSessionStatus.INF_SESSION_RUNNING →
      session.shared = InfSessionShared.run syncs →
      syncs.find? (fun item => item.conn = connection) = some sync →
      inf_session_synchronize_to session_class session connection identifier
        = Except.ok session) ∧
    (∀ (syncs : List InfSessionSync) (after : InfSession),
      session.status = InfSessionStatus.INF_SESSION_RUNNING →
      session.shared = InfSessionShared.run syncs →
      (syncs.map (fun item => item.conn)).Nodup →
      inf_session_synchronize_to session_class session connection identifier
        = Except.ok after →
      ∃ syncs' : List InfSessionSync,
        after.status = InfSessionStatus.INF_SESSION_RUNNING ∧
        after.shared = InfSessionShared.run syncs' ∧
        (syncs'.map (fun item => item.conn)).Nodup) := by
  refine ⟨?_, ?_, ?_⟩
  · intro hstatus
    cases identifier <;> simp [inf_session_synchronize_to, hstatus, pure, Except.pure]
  · intro syncs sync hstatus hshared hfind
    have hfindsync := find_sync_running session connection syncs hstatus hshared
    cases identifier <;>
      simp [inf_session_synchronize_to, hstatus, hfindsync, hfind, bind, Except.bind, pure,
        Except.pure]
  · intro syncs after hstatus hshared hnodup hstep
    have h := synchronize_to_returns session_class session after connection identifier hstep
    rw [h]
    exact ⟨syncs, hstatus, hshared, hnodup⟩

/-- C20 at a Synchronizing session and at a connection that already has a
record (the call returns, with the records as they were). -/
theorem C20_synchronize_to_preconditions_witness :
    inf_session_synchronize_to (inf_session_derived_class none none) (inbound_session 4 2) 8
        (some "doc")
      = Except.ok (inbound_session 4 2) ∧
    inf_session_synchronize_to (inf_session_derived_class none none)
        (outbound_session
          [{ conn := 7, messages_total := 4, messages_sent := 1, end_enqueued := false }])
        7 (some "doc")
      = Except.ok
          (outbound_session
            [{ conn := 7, messages_total := 4, messages_sent := 1, end_enqueued := false }]) ∧
    (∃ syncs' : List InfSessionSync,
      (outbound_session
          [{ conn := 7, messages_total := 4, messages_sent := 1, end_enqueued := false },
           { conn := 8, messages_total := 3, messages_sent := 0, end_enqueued := false }]).status
        = InfSessionStatus.INF_SESSION_RUNNING ∧
      (outbound_session
          [{ conn := 7, messages_total := 4, messages_sent := 1, end_enqueued := false },
           { conn := 8, messages_total := 3, messages_sent := 0, end_enqueued := false }]).shared
        = InfSessionShared.run syncs' ∧
      (syncs'.map (fun item => item.conn)).Nodup) :=
  ⟨(C20_synchronize_to_preconditions (inf_session_derived_class none none)
      (inbound_session 4 2) 8 (some "doc")).1 (by decide),
   (C20_synchronize_to_preconditions (inf_session_derived_class none none)
      (outbound_session
        [{ conn := 7, messages_total := 4, messages_sent := 1, end_enqueued := false }])
      7 (some "doc")).2.1 _
      { conn := 7, messages_total := 4, messages_sent := 1, end_enqueued := false }
      rfl rfl rfl,
   (C20_synchronize_to_preconditions (inf_session_derived_class none none)
      (outbound_session
        [{ conn := 7, messages_total := 4, messages_sent := 1, end_enqueued := false },
         { conn := 8, messages_total := 3, messages_sent := 0, end_enqueued := false }])
      8 (some "doc")).2.2 _ _ rfl rfl (by decide) rfl⟩

/-- C21, as stated, fails: a session constructed with a `sync-connection` and
no `sync-identifier` is Synchronizing, not Running. -/
theorem C21_counterexample :
    ∃ session,
      inf_session_new
          [.PROP_CONNECTION_MANAGER (some 1), .PROP_BUFFER (some 2),
            .PROP_SYNC_CONNECTION (some 7), .PROP_SYNC_IDENTIFIER none] =
        Except.ok session ∧
      session.status = InfSessionStatus.INF_SESSION_SYNCHRONIZING ∧
      session.status ≠ InfSessionStatus.INF_SESSION_RUNNING :=
  ⟨_, rfl, rfl, by decide⟩

/-- C21, amended: a session constructed from any list of properties that sets
`connection-manager` and `buffer` at most once each is constructed, and it is
Synchronizing exactly when the list holds a `sync-connection` or a
`sync-identifier` that is not `NULL` (one of the two is enough); it is Running
exactly when the list holds neither. -/
theorem C21_initial_status (props : List InfSessionProperty)
    (hmanager : props.countP InfSessionProperty.is_manager ≤ 1)
    (hbuffer : props.countP InfSessionProperty.is_buffer ≤ 1) :
    ∃ session, inf_session_new props = Except.ok session ∧
      (session.status = InfSessionStatus.INF_SESSION_SYNCHRONIZING ↔
        (props.any InfSessionProperty.is_sync_connection = true ∨
          props.any InfSessionProperty.is_sync_identifier = true)) ∧
      (session.status = InfSessionStatus.INF_SESSION_RUNNING ↔
        (props.any InfSessionProperty.is_sync_connection = false ∧
          props.any InfSessionProperty.is_sync_identifier = false)) := by
  obtain ⟨session, hnew, hshared, hstatus⟩ :=
    set_property_fold props inf_session_init (Or.inl ⟨rfl, [], rfl⟩)
      (fun h => absurd rfl h) (fun h => absurd rfl h) hmanager hbuffer
  have hsync : session.status = InfSessionStatus.INF_SESSION_SYNCHRONIZING ↔
      (props.any InfSessionProperty.is_sync_connection = true ∨
        props.any InfSessionProperty.is_sync_identifier = true) := by
    rw [hstatus, is_sync_either, Bool.or_eq_true]
    simp [inf_session_init]
  refine ⟨session, hnew, hsync, ?_⟩
  rcases hshared with ⟨hrun, _⟩ | ⟨hsyn, _⟩
  · have : ¬ session.status = InfSessionStatus.INF_SESSION_SYNCHRONIZING := by
      rw [hrun]; decide
    rw [hsync] at this
    constructor
    · intro _
      constructor
      · by_contra h; exact this (Or.inl (by simpa using h))
      · by_contra h; exact this (Or.inr (by simpa using h))
    · intro _; exact hrun
  · have h := hsync.mp hsyn
    constructor
    · intro hr; rw [hsyn] at hr; exact absurd hr (by decide)
    · rintro ⟨h1, h2⟩
      rcases h with h | h
      · rw [h1] at h; exact absurd h (by decide)
      · rw [h2] at h; exact absurd h (by decide)

/-- C21 at a construction with a `sync-identifier` and no `sync-connection`. -/
theorem C21_initial_status_witness :
    List.countP InfSessionProperty.is_manager
        [.PROP_CONNECTION_MANAGER (some 1), .PROP_BUFFER (some 2),
          .PROP_SYNC_CONNECTION none, .PROP_SYNC_IDENTIFIER (some "doc")] ≤ 1 ∧
    List.countP InfSessionProperty.is_buffer
        [.PROP_CONNECTION_MANAGER (some 1), .PROP_BUFFER (some 2),
          .PROP_SYNC_CONNECTION none, .PROP_SYNC_IDENTIFIER (some "doc")] ≤ 1 ∧
    ∃ session,
      inf_session_new
          [.PROP_CONNECTION_MANAGER (some 1), .PROP_BUFFER (some 2),
            .PROP_SYNC_CONNECTION none, .PROP_SYNC_IDENTIFIER (some "doc")] =
        Except.ok session ∧
      (session.status = InfSessionStatus.INF_SESSION_SYNCHRONIZING ↔
        (List.any
            [.PROP_CONNECTION_MANAGER (some 1), .PROP_BUFFER (some 2),
              .PROP_SYNC_CONNECTION none, .PROP_SYNC_IDENTIFIER (some "doc")]
            InfSessionProperty.is_sync_connection = true ∨
          List.any
            [.PROP_CONNECTION_MANAGER (some 1), .PROP_BUFFER (some 2),
              .PROP_SYNC_CONNECTION none, .PROP_SYNC_IDENTIFIER (some "doc")]
            InfSessionProperty.is_sync_identifier = true)) ∧
      (session.status = InfSessionStatus.INF_SESSION_RUNNING ↔
        (List.any
            [.PROP_CONNECTION_MANAGER (some 1), .PROP_BUFFER (some 2),
              .PROP_SYNC_CONNECTION none, .PROP_SYNC_IDENTIFIER (some "doc")]
            InfSessionProperty.is_sync_connection = false ∧
          List.any
            [.PROP_CONNECTION_MANAGER (some 1), .PROP_BUFFER (some 2),
              .PROP_SYNC_CONNECTION none, .PROP_SYNC_IDENTIFIER (some "doc")]
            InfSessionProperty.is_sync_identifier = false)) :=
  ⟨by decide, by decide, C21_initial_status _ (by decide) (by decide)⟩

/-- C22 fails on the code.  On a session without users the property list
id = 1, name = a has an id that no user is stored under and a name that no
user has, so the claim has the validation succeed; the call ends in
`inf_session_lookup_user_by_id`, which reads the private data through its own
uninitialised local.  On a session that holds user 1 the list id = 1,
name = b, for which the claim has IdInUse, ends the same way. -/
theorem C22_validation_aborts :
    g_hash_table_lookup (running_session []).user_table 1 = none ∧
    inf_session_lookup_user_by_name (running_session []) (some "a") = none ∧
    inf_session_validate_user_props_impl (running_session []) (user_params 1 "a") none =
      Except.error Fault.uninitialised_pointer ∧
    g_hash_table_lookup (running_session [(1, ⟨100, 1, "a"⟩)]).user_table 1 =
      some ⟨100, 1, "a"⟩ ∧
    inf_session_validate_user_props_impl (running_session [(1, ⟨100, 1, "a"⟩)])
        (user_params 1 "b") none =
      Except.error Fault.uninitialised_pointer :=
  ⟨rfl, rfl, rfl, rfl, rfl⟩

/-- C24 fails on the code.  With the default validation and any `user_new`,
`inf_session_add_user` on a session without users and the property list
id = 1, name = a returns no user: the validation ends in
`inf_session_lookup_user_by_id`.  With a validation that accepts the list
id = 0, name = c the call returns a user and emits `add-user` once, but the
class handler refuses the id 0 and the table stays empty. -/
theorem C24_add_user_aborts (user_new : InfSession → List GParameter → InfUser) :
    inf_session_add_user
        (inf_session_derived_class (some user_new) none).toInfSessionUserClass
        (running_session []) (user_params 1 "a") =
      Except.error Fault.uninitialised_pointer ∧
    inf_session_add_user accept_all_user_class (running_session []) (user_params 0 "c") =
      Except.ok
        ({ running_session [] with log := [Effect.emit_add_user ⟨100, 0, "c"⟩] },
          some ⟨100, 0, "c"⟩, none) :=
  ⟨rfl, rfl⟩

/-- C25. When the validation of the class refuses the properties (result
`FALSE`, with whatever error it stored), `inf_session_add_user` returns no
user and that error, and the session it leaves is the session it was given:
nothing is emitted, and the user table, the status and the synchronization
state are as before. -/
theorem C25_add_user_failure_atomic (session_class : InfSessionUserClass)
    (session : InfSession) (params : List GParameter)
    (validate_user_props :
      InfSession → List GParameter → Option InfUser → Except Fault (Bool × Option GError))
    (user_new : InfSession → List GParameter → InfUser) (error : Option GError)
    (hvalidate : session_class.validate_user_props = some validate_user_props)
    (hnew : session_class.user_new = some user_new)
    (hfail : validate_user_props session params none = Except.ok (false, error)) :
    inf_session_add_user session_class session params = Except.ok (session, none, error) := by
  unfold inf_session_add_user
  rw [hvalidate, hnew]
  simp only [hfail]
  rfl

/-- C25 at the default validation and a property list without an id, on a
session that is being synchronized. -/
theorem C25_add_user_failure_atomic_witness :
    inf_session_validate_user_props_impl (inbound_session 5 2)
        [{ name := "name", value := GValue.string (some "a") }] none =
      Except.ok (false, some (inf_session_sync_error .ID_NOT_PRESENT)) ∧
    inf_session_add_user
        (inf_session_derived_class (some user_new_of_params) none).toInfSessionUserClass
        (inbound_session 5 2) [{ name := "name", value := GValue.string (some "a") }] =
      Except.ok (inbound_session 5 2, none, some (inf_session_sync_error .ID_NOT_PRESENT)) :=
  ⟨rfl,
    C25_add_user_failure_atomic _ (inbound_session 5 2)
      [{ name := "name", value := GValue.string (some "a") }]
      inf_session_validate_user_props_impl user_new_of_params _ rfl rfl rfl⟩

/-- C26 fails on the code.  The table holds the users (1, a) and (2, b), and
the user (1, a) is removed: `inf_session_remove_user` takes a reference, emits
`remove-user` once, the table drops its entry and its reference, and the
reference taken is dropped; the table is left with (2, b) and the lookup by
the name a finds no user.  The lookup by the id 1 the claim reads afterwards
does not return: `inf_session_lookup_user_by_id` reads the private data
through its own uninitialised local, after every removal and for every id.
Removing a user (1, c) that is not the one stored under 1 leaves the session
as it was. -/
theorem C26_remove_user :
    inf_session_remove_user (running_session [(1, ⟨100, 1, "a"⟩), (2, ⟨200, 2, "b"⟩)])
        ⟨100, 1, "a"⟩ =
      { running_session [(2, ⟨200, 2, "b"⟩)] with
        log :=
          [Effect.object_ref 100, Effect.emit_remove_user ⟨100, 1, "a"⟩,
           Effect.object_unref 100, Effect.object_unref 100] } ∧
    inf_session_lookup_user_by_id
        (inf_session_remove_user (running_session [(1, ⟨100, 1, "a"⟩), (2, ⟨200, 2, "b"⟩)])
          ⟨100, 1, "a"⟩) 1 =
      Except.error Fault.uninitialised_pointer ∧
    inf_session_lookup_user_by_name
        (inf_session_remove_user (running_session [(1, ⟨100, 1, "a"⟩), (2, ⟨200, 2, "b"⟩)])
          ⟨100, 1, "a"⟩) (some "a") = none ∧
    inf_session_remove_user (running_session [(1, ⟨100, 1, "a"⟩), (2, ⟨200, 2, "b"⟩)])
        ⟨300, 1, "c"⟩ =
      running_session [(1, ⟨100, 1, "a"⟩), (2, ⟨200, 2, "b"⟩)] ∧
    ∀ (session : InfSession) (user : InfUser) (user_id : Nat),
      inf_session_lookup_user_by_id (inf_session_remove_user session user) user_id =
        Except.error Fault.uninitialised_pointer :=
  ⟨rfl, rfl, rfl, rfl, fun _ _ _ => rfl⟩

/-- C27 fails on the code.  On a session that stores the user (1, a) under
id 1, `inf_session_lookup_user_by_id` does not return that user: on every
session and for every id it takes the private data from its own uninitialised
local `priv`, not from the session, and the run ends there. -/
theorem C27_lookup_user_by_id_aborts :
    g_hash_table_lookup (running_session [(1, ⟨100, 1, "a"⟩)]).user_table 1 =
      some ⟨100, 1, "a"⟩ ∧
    inf_session_lookup_user_by_id (running_session [(1, ⟨100, 1, "a"⟩)]) 1 =
      Except.error Fault.uninitialised_pointer ∧
    ∀ (session : InfSession) (user_id : Nat),
      inf_session_lookup_user_by_id session user_id =
        Except.error Fault.uninitialised_pointer :=
  ⟨rfl, rfl, fun _ _ => rfl⟩

/-- C28 fails on the code.  The node the default `user_to_xml` writes for a
user is parsed by the default `get_xml_user_props` into a list whose `id`
holds the `G_TYPE_INT` value 0 whatever the id of the user was: the value is
initialised as `G_TYPE_INT` and `g_value_set_uint` refuses a value of that
type.  Read with `g_value_get_uint`, as the validation does, it is 0.  The
name comes back as written. -/
theorem C28_user_round_trip (session : InfSession) (conn : InfXmlConnection) (user : InfUser) :
    inf_session_get_xml_user_props_impl session conn
        (inf_session_user_to_xml_impl session user (xmlNewNode "sync-user")) =
      [{ name := "id", value := GValue.int 0 },
       { name := "name", value := GValue.string (some (inf_user_get_name user)) }] ∧
    (inf_session_lookup_user_property
        (inf_session_get_xml_user_props_impl session conn
          (inf_session_user_to_xml_impl session user (xmlNewNode "sync-user"))) "id").map
      (fun parameter => g_value_get_uint parameter.value) = some 0 := by
  have h : inf_session_get_xml_user_props_impl session conn
        (inf_session_user_to_xml_impl session user (xmlNewNode "sync-user")) =
      [{ name := "id", value := GValue.int 0 },
       { name := "name", value := GValue.string (some (inf_user_get_name user)) }] := by
    simp [inf_session_get_xml_user_props_impl, inf_session_user_to_xml_impl, xmlNewNode,
      xmlNewProp, xmlGetProp, inf_session_get_user_property, GParameter_set, g_value_init,
      g_value_set_uint, g_value_set_string]
  rw [h]
  exact ⟨rfl, rfl⟩

/-- C29. A session with the default codec that is being synchronized from
`connection`, with `0 < messages_received < messages_total - 1`, is handed a
node that is a body message (neither `sync-begin` nor `sync-end`) and whose
tag is neither `sync-user` nor `sync-cancel`: the handler fails with
UnexpectedNode and returns the session it was given, so `messages_received`
is not incremented, no `synchronization-progress` is emitted and the user
table is unchanged. -/
theorem C29_unknown_body_tag
    (user_new : Option (InfSession → List GParameter → InfUser))
    (process_xml_run :
      Option (InfSessionUserClass → InfSession → InfXmlConnection → xmlNode →
        Except Fault InfSession))
    (session : InfSession) (connection : InfXmlConnection) (node : xmlNode)
    (messages_total messages_received : Nat) (identifier : Option String)
    (hstatus : session.status = InfSessionStatus.INF_SESSION_SYNCHRONIZING)
    (hshared : session.shared =
      InfSessionShared.sync (some connection) messages_total messages_received identifier)
    (htotal : messages_total < GUINT_MOD)
    (hreceived : 0 < messages_received)
    (hbody : messages_received < messages_total - 1)
    (hbegin : node.name ≠ "sync-begin") (hend : node.name ≠ "sync-end")
    (huser : node.name ≠ "sync-user") (hcancel : node.name ≠ "sync-cancel") :
    inf_session_handle_received_sync_message
        (inf_session_derived_class user_new process_xml_run) session connection node =
      Except.ok (session, false, some (inf_session_sync_error .UNEXPECTED_NODE)) := by
  have h0 : ¬ messages_received = 0 := by omega
  have h1 : ¬ messages_received = (messages_total + GUINT_MOD - 1) % GUINT_MOD := by
    unfold GUINT_MOD at htotal ⊢
    omega
  simp [inf_session_handle_received_sync_message, inf_session_derived_class,
    inf_session_class_init, hshared, hbegin, hend, h0, h1,
    inf_session_process_xml_sync_impl, hstatus, huser, hcancel]
  rfl

/-- C29 at the node `sync-chunk`, with 2 of 5 messages received. -/
theorem C29_unknown_body_tag_witness :
    inf_session_handle_received_sync_message (inf_session_derived_class none none)
        (inbound_session 5 2) 7 { name := "sync-chunk", properties := [] } =
      Except.ok (inbound_session 5 2, false, some (inf_session_sync_error .UNEXPECTED_NODE)) :=
  C29_unknown_body_tag none none (inbound_session 5 2) 7
    { name := "sync-chunk", properties := [] } 5 2 (some "doc") rfl rfl (by decide)
    (by decide) (by decide) (by decide) (by decide) (by decide) (by decide)

/-- C30 fails on the code.  A fresh Synchronizing session that receives
`sync-begin` with `num-messages="4294967294"` accepts it and stays
Synchronizing with `messages_received = 1` and `messages_total = 0`: the sum
`2 + n` is taken in `guint` and wraps.  So `messages_received` exceeds
`messages_total`, and `messages_total` is 0 although a `sync-begin` has been
accepted; a second `sync-begin` is then accepted as well.  With
`num-messages="4294967295"` the session has `messages_total = 1`. -/
theorem C30_counter_wraps :
    deliver inf_session_class_init (inbound_session 0 0) 7 [sync_begin_node "4294967294"] =
      Except.ok
        { inbound_session 0 0 with
          shared := InfSessionShared.sync (some 7) 0 1 (some "doc")
          log := [Effect.emit_synchronization_progress 7 1 0] } ∧
    deliver inf_session_class_init (inbound_session 0 0) 7
        [sync_begin_node "4294967294", sync_begin_node "1"] =
      Except.ok
        { inbound_session 0 0 with
          shared := InfSessionShared.sync (some 7) 3 1 (some "doc")
          log :=
            [Effect.emit_synchronization_progress 7 1 0,
             Effect.emit_synchronization_progress 7 1 3] } ∧
    deliver inf_session_class_init (inbound_session 0 0) 7 [sync_begin_node "4294967295"] =
      Except.ok
        { inbound_session 0 0 with
          shared := InfSessionShared.sync (some 7) 1 1 (some "doc")
          log := [Effect.emit_synchronization_progress 7 1 1] } :=
  ⟨rfl, rfl, rfl⟩

/-- C31. A Running session with the default codec, whose outbound records
are on pairwise distinct connections with `messages_total >= 2` and
`messages_sent < messages_total`, and whose user table has fewer than
2^32 - 2 users, goes through any sequence of `synchronize_to`, `sent`,
`enqueued`, `received`, connection-status and `close` events that runs to its
end (a `process_xml_run` hook, if there is one, leaves the records alone).  If
it is Running afterwards, every record has `messages_total >= 2` and
`messages_sent < messages_total`, the connections of the records are pairwise
distinct, and across the last event a record that is still there has kept its
total and has not decreased its `messages_sent`. -/
theorem C31_outbound_invariant
    (user_new : Option (InfSession → List GParameter → InfUser))
    (process_xml_run :
      Option (InfSessionUserClass → InfSession → InfXmlConnection → xmlNode →
        Except Fault InfSession))
    (session mid after : InfSession) (events : List SessionEvent) (event : SessionEvent)
    (hhook : run_hook_keeps_syncs process_xml_run)
    (hvalid : outbound_valid session)
    (hbound : session.user_table.length + 2 < GUINT_MOD)
    (hmid : apply_events (inf_session_derived_class user_new process_xml_run) session events =
      Except.ok mid)
    (hstep : apply_event (inf_session_derived_class user_new process_xml_run) mid event =
      Except.ok after)
    (hrunning : after.status = InfSessionStatus.INF_SESSION_RUNNING) :
    (∀ r ∈ sync_records after,
      2 ≤ r.messages_total ∧ r.messages_sent < r.messages_total) ∧
    (sync_connections after).Nodup ∧
    (∀ r ∈ sync_records mid, ∀ r' ∈ sync_records after, r'.conn = r.conn →
      r.messages_sent ≤ r'.messages_sent ∧ r'.messages_total = r.messages_total) := by
  obtain ⟨hstate, htable⟩ := apply_events_state user_new process_xml_run hhook events session
    mid (Or.inl hvalid) (Or.inr hbound) hmid
  obtain ⟨k1, _, k3, _⟩ := apply_event_step user_new process_xml_run mid after event hhook
    hstate (Or.inr (by rw [htable]; exact hbound)) hstep
  rcases k1 with hv | ⟨hclosed, _⟩
  · refine ⟨fun r hr => ⟨(hv.2.2.2 r hr).1, (hv.2.2.2 r hr).2.1⟩, hv.2.2.1, ?_⟩
    intro r hr r' hr' hc
    exact ⟨(k3.1 r hr r' hr' hc).1, (k3.1 r hr r' hr' hc).2.1⟩
  · rw [hclosed] at hrunning
    cases hrunning

/-- C31 at a session with a record on connection 7 (3 messages, none sent): a
second synchronization to connection 7 is refused, one message is sent, a node
goes to the hook, and a second message is sent. -/
theorem C31_outbound_invariant_witness :
    (∀ r ∈ sync_records
        { outbound_session
            [{ conn := 7, messages_total := 3, messages_sent := 2, end_enqueued := false }]
          with
          log :=
            [Effect.emit_synchronization_progress 7 1 3,
             Effect.send 7 (xmlNewNode "hello"),
             Effect.emit_synchronization_progress 7 2 3] },
      2 ≤ r.messages_total ∧ r.messages_sent < r.messages_total) ∧
    (sync_connections
        { outbound_session
            [{ conn := 7, messages_total := 3, messages_sent := 2, end_enqueued := false }]
          with
          log :=
            [Effect.emit_synchronization_progress 7 1 3,
             Effect.send 7 (xmlNewNode "hello"),
             Effect.emit_synchronization_progress 7 2 3] }).Nodup ∧
    (∀ r ∈ sync_records
        { outbound_session
            [{ conn := 7, messages_total := 3, messages_sent := 1, end_enqueued := false }]
          with
          log :=
            [Effect.emit_synchronization_progress 7 1 3,
             Effect.send 7 (xmlNewNode "hello")] },
      ∀ r' ∈ sync_records
        { outbound_session
            [{ conn := 7, messages_total := 3, messages_sent := 2, end_enqueued := false }]
          with
          log :=
            [Effect.emit_synchronization_progress 7 1 3,
             Effect.send 7 (xmlNewNode "hello"),
             Effect.emit_synchronization_progress 7 2 3] },
      r'.conn = r.conn →
        r.messages_sent ≤ r'.messages_sent ∧ r'.messages_total = r.messages_total) :=
  C31_outbound_invariant none (some echo_run_hook)
    (outbound_session
      [{ conn := 7, messages_total := 3, messages_sent := 0, end_enqueued := false }])
    _ _
    [.synchronize_to 7 (some "doc"), .sent 7 (sync_begin_node "0"),
      .received 7 (xmlNewNode "hello")]
    (.sent 7 (xmlNewNode "hello"))
    echo_run_hook_keeps_syncs ⟨rfl, rfl, by decide, by decide⟩ (by decide) rfl rfl rfl

/-- C33. In a Running session with a record on `connection` whose
`end_enqueued` is false, the `enqueued` callback for a `sync-end` node returns
the session with `end_enqueued` set in that record and nothing else changed:
the record is found with its other fields as before, and the record of every
other connection is found as before.  For a node with any other tag the
callback returns the session as it is.  And no event (`synchronize_to`,
`sent`, `enqueued`, `received`, connection-status, `close`) on a Running
session with valid records leaves a record, on the connection of a record
whose `end_enqueued` was true, with `end_enqueued` false. -/
theorem C33_end_enqueued_tracking (session : InfSession) (connection : InfXmlConnection)
    (node : xmlNode) :
    (∀ (syncs : List InfSessionSync) (sync : InfSessionSync),
      session.status = InfSessionStatus.INF_SESSION_RUNNING →
      session.shared = InfSessionShared.run syncs →
      syncs.find? (fun item => item.conn = connection) = some sync →
      sync.end_enqueued = false → node.name = "sync-end" →
      inf_session_net_object_enqueued session connection node =
        Except.ok
          { session with
            shared := InfSessionShared.run
              (InfSessionSync_set syncs connection
                (fun item => { item with end_enqueued := true })) } ∧
      (InfSessionSync_set syncs connection
          (fun item => { item with end_enqueued := true })).find?
          (fun item => item.conn = connection) =
        some { sync with end_enqueued := true } ∧
      ∀ other, other ≠ connection →
        (InfSessionSync_set syncs connection
            (fun item => { item with end_enqueued := true })).find?
            (fun item => item.conn = other) =
          syncs.find? (fun item => item.conn = other)) ∧
    (node.name ≠ "sync-end" →
      inf_session_net_object_enqueued session connection node = Except.ok session) ∧
    (∀ (user_new : Option (InfSession → List GParameter → InfUser))
        (process_xml_run :
          Option (InfSessionUserClass → InfSession → InfXmlConnection → xmlNode →
            Except Fault InfSession))
        (event : SessionEvent) (after : InfSession),
      run_hook_keeps_syncs process_xml_run → outbound_valid session →
      (event.is_synchronize_to = false ∨ session.user_table.length + 2 < GUINT_MOD) →
      apply_event (inf_session_derived_class user_new process_xml_run) session event =
        Except.ok after →
      ∀ r ∈ sync_records session, r.end_enqueued = true →
        ∀ r' ∈ sync_records after, r'.conn = r.conn → r'.end_enqueued = true) := by
  refine ⟨?_, ?_, ?_⟩
  · intro syncs sync hstatus hshared hfind hend hname
    have hfound := find_sync_running session connection syncs hstatus hshared
    have hset := find_sync_set connection
      (fun item => { item with end_enqueued := true }) (fun _ => rfl) syncs
    rw [hfind, Option.map_some'] at hset
    refine ⟨?_, hset, fun other hne =>
      find_sync_set_other connection other
        (fun item => { item with end_enqueued := true }) (fun _ => rfl) hne syncs⟩
    simp [inf_session_net_object_enqueued, hname, hfound, hfind, hshared, bind,
      Except.bind, hend, pure, Except.pure]
  · intro hname
    simp [inf_session_net_object_enqueued, hname, pure, Except.pure]
  · intro user_new process_xml_run event after hhook hvalid hbound hstep r hr hend r' hr' hc
    obtain ⟨_, _, k3, _⟩ := apply_event_step user_new process_xml_run session after event
      hhook (Or.inl hvalid) hbound hstep
    exact (k3.1 r hr r' hr' hc).2.2 hend

/-- C33 at a session with records on the connections 7 and 8, when
`sync-end` is enqueued on connection 7. -/
theorem C33_end_enqueued_tracking_witness :
    inf_session_net_object_enqueued
        (outbound_session
          [{ conn := 7, messages_total := 3, messages_sent := 2, end_enqueued := false },
           { conn := 8, messages_total := 2, messages_sent := 1, end_enqueued := false }]) 7
        (xmlNewNode "sync-end") =
      Except.ok
        { outbound_session
            [{ conn := 7, messages_total := 3, messages_sent := 2, end_enqueued := false },
             { conn := 8, messages_total := 2, messages_sent := 1, end_enqueued := false }] with
          shared := InfSessionShared.run
            (InfSessionSync_set
              [{ conn := 7, messages_total := 3, messages_sent := 2, end_enqueued := false },
               { conn := 8, messages_total := 2, messages_sent := 1, end_enqueued := false }] 7
              (fun item => { item with end_enqueued := true })) } :=
  ((C33_end_enqueued_tracking
    (outbound_session
      [{ conn := 7, messages_total := 3, messages_sent := 2, end_enqueued := false },
       { conn := 8, messages_total := 2, messages_sent := 1, end_enqueued := false }]) 7
    (xmlNewNode "sync-end")).1
    [{ conn := 7, messages_total := 3, messages_sent := 2, end_enqueued := false },
     { conn := 8, messages_total := 2, messages_sent := 1, end_enqueued := false }]
    { conn := 7, messages_total := 3, messages_sent := 2, end_enqueued := false }
    rfl rfl rfl rfl rfl).1

/-- C34. In a Running session with a record on `connection`, when the
status of that connection becomes Closing or Closed the observer emits
`synchronization-failed` with ConnectionClosed for it, once, and the class
handler releases the connection: the first record of that connection leaves
the list and the list is otherwise as before, the status stays Running, and
no node is handed to the connection manager.  The record of every other
connection is found as before, and when the connections of the records are
pairwise distinct no record of `connection` is left. -/
theorem C34_transport_close_outbound (session : InfSession) (connection : InfXmlConnection)
    (status : InfXmlConnectionStatus) (syncs : List InfSessionSync) (sync : InfSessionSync)
    (hstatus : session.status = InfSessionStatus.INF_SESSION_RUNNING)
    (hshared : session.shared = InfSessionShared.run syncs)
    (hfind : syncs.find? (fun item => item.conn = connection) = some sync)
    (hclosed : status = InfXmlConnectionStatus.INF_XML_CONNECTION_CLOSED ∨
      status = InfXmlConnectionStatus.INF_XML_CONNECTION_CLOSING) :
    inf_session_connection_notify_status_cb session connection status
      = Except.ok
          { session with
            shared := InfSessionShared.run
              (syncs.eraseP (fun item => item.conn = connection))
            objects := session.objects.filter (fun c => c ≠ connection)
            log := session.log ++
              [Effect.emit_synchronization_failed connection
                (inf_session_sync_error .CONNECTION_CLOSED)] ++
              release_effects session.objects connection } ∧
    (∀ c, sent_nodes
        ([Effect.emit_synchronization_failed connection
            (inf_session_sync_error .CONNECTION_CLOSED)] ++
          release_effects session.objects connection) c = []) ∧
    sync_signals
        ([Effect.emit_synchronization_failed connection
            (inf_session_sync_error .CONNECTION_CLOSED)] ++
          release_effects session.objects connection)
      = [Effect.emit_synchronization_failed connection
          (inf_session_sync_error .CONNECTION_CLOSED)] ∧
    (∀ other, other ≠ connection →
      (syncs.eraseP (fun item => item.conn = connection)).find?
          (fun item => item.conn = other) =
        syncs.find? (fun item => item.conn = other)) ∧
    ((syncs.map (fun item => item.conn)).Nodup →
      (syncs.eraseP (fun item => item.conn = connection)).find?
          (fun item => item.conn = connection) = none) := by
  refine ⟨?_, ?_, ?_, fun other hne => find_erase_other connection other hne syncs,
    fun hnodup => find_erase_self connection syncs hnodup⟩
  · have hemit := emit_failed_running session connection syncs sync
      (inf_session_sync_error .CONNECTION_CLOSED) hstatus hshared hfind
    have hfound := find_sync_running session connection syncs hstatus hshared
    simp only [inf_session_connection_notify_status_cb, hclosed, if_true, hstatus, hfound,
      hfind, bind, Except.bind, hemit]
    rfl
  · intro c
    unfold release_effects
    by_cases h : connection ∈ session.objects <;> simp [h, sent_nodes, Effect.sent_nodes]
  · rw [sync_signals_append, sync_signals_release]
    rfl

/-- C34 at a session with records on the connections 7 and 8, when
connection 7 is closing. -/
theorem C34_transport_close_outbound_witness :
    inf_session_connection_notify_status_cb
        (outbound_session
          [{ conn := 7, messages_total := 3, messages_sent := 1, end_enqueued := false },
           { conn := 8, messages_total := 2, messages_sent := 1, end_enqueued := true }]) 7
        InfXmlConnectionStatus.INF_XML_CONNECTION_CLOSING
      = Except.ok
          { outbound_session
              [{ conn := 8, messages_total := 2, messages_sent := 1, end_enqueued := true }] with
            log :=
              [Effect.emit_synchronization_failed 7
                (inf_session_sync_error .CONNECTION_CLOSED),
               Effect.remove_object 7, Effect.signal_disconnect 7, Effect.object_unref 7] } :=
  (C34_transport_close_outbound
    (outbound_session
      [{ conn := 7, messages_total := 3, messages_sent := 1, end_enqueued := false },
       { conn := 8, messages_total := 2, messages_sent := 1, end_enqueued := true }]) 7
    InfXmlConnectionStatus.INF_XML_CONNECTION_CLOSING
    [{ conn := 7, messages_total := 3, messages_sent := 1, end_enqueued := false },
     { conn := 8, messages_total := 2, messages_sent := 1, end_enqueued := true }]
    { conn := 7, messages_total := 3, messages_sent := 1, end_enqueued := false }
    rfl rfl rfl (Or.inr rfl)).1

/-- C35. The four construction properties `connection-manager`, `buffer`,
`sync-connection` and `sync-identifier` are set once each, with values that
are not `NULL`, in any order.  The session is constructed, Synchronizing, and
its log holds exactly one registration, `add_object` with that connection and
that identifier.  After every prefix of the order the log holds that one
registration when the prefix contains the manager, the connection and the
identifier, and no registration otherwise. -/
theorem C35_deferred_registration (m b : Nat) (c : InfXmlConnection) (i : String)
    (props : List InfSessionProperty)
    (horder : props.Perm
      [.PROP_CONNECTION_MANAGER (some m), .PROP_BUFFER (some b),
        .PROP_SYNC_CONNECTION (some c), .PROP_SYNC_IDENTIFIER (some i)]) :
    (∃ session, inf_session_new props = Except.ok session ∧
      session.status = InfSessionStatus.INF_SESSION_SYNCHRONIZING ∧
      registrations session.log = [Effect.add_object c i] ∧
      session.objects = [c]) ∧
    ∀ k, ∃ session, inf_session_new (props.take k) = Except.ok session ∧
      registrations session.log =
        if registration_ready (props.take k) = true then [Effect.add_object c i] else [] := by
  obtain ⟨p1, p2, p3, p4, hprops, hnodup, hmem⟩ := four_orders m b c i props horder
  subst hprops
  have h1 := hmem p1 (by simp)
  have h2 := hmem p2 (by simp)
  have h3 := hmem p3 (by simp)
  have h4 := hmem p4 (by simp)
  have hne : p1 ≠ p2 ∧ p1 ≠ p3 ∧ p1 ≠ p4 ∧ p2 ≠ p3 ∧ p2 ≠ p4 ∧ p3 ≠ p4 := by
    simp only [List.nodup_cons, List.mem_cons, List.mem_singleton, not_or, List.not_mem_nil,
      not_false_eq_true, List.nodup_nil, and_true] at hnodup
    exact ⟨hnodup.1.1, hnodup.1.2.1, hnodup.1.2.2, hnodup.2.1.1, hnodup.2.1.2, hnodup.2.2⟩
  obtain ⟨n12, n13, n14, n23, n24, n34⟩ := hne
  clear hnodup hmem horder
  rcases h1 with h1 | h1 | h1 | h1 <;> rcases h2 with h2 | h2 | h2 | h2 <;>
    subst h1 h2 <;>
    first
    | exact absurd rfl n12
    | (rcases h3 with h3 | h3 | h3 | h3 <;> subst h3 <;>
        first
        | exact absurd rfl n13
        | exact absurd rfl n23
        | (rcases h4 with h4 | h4 | h4 | h4 <;> subst h4 <;>
            first
            | exact absurd rfl n14
            | exact absurd rfl n24
            | exact absurd rfl n34
            | (refine ⟨⟨_, rfl, rfl, rfl, rfl⟩, fun k => ?_⟩
               rcases k with _ | _ | _ | _ | k <;>
                 simp only [List.take_succ_cons, List.take_nil, List.take_zero] <;>
                 exact ⟨_, rfl, rfl⟩)))

/-- C35 at the order identifier, buffer, connection, manager: the
registration happens when the manager, the last of the three, is set. -/
theorem C35_deferred_registration_witness :
    (∃ session,
      inf_session_new
          [.PROP_SYNC_IDENTIFIER (some "doc"), .PROP_BUFFER (some 2),
            .PROP_SYNC_CONNECTION (some 7), .PROP_CONNECTION_MANAGER (some 1)] =
        Except.ok session ∧
      session.status = InfSessionStatus.INF_SESSION_SYNCHRONIZING ∧
      registrations session.log = [Effect.add_object 7 "doc"] ∧
      session.objects = [7]) ∧
    ∃ session,
      inf_session_new
          (List.take 3
            [.PROP_SYNC_IDENTIFIER (some "doc"), .PROP_BUFFER (some 2),
              .PROP_SYNC_CONNECTION (some 7), .PROP_CONNECTION_MANAGER (some 1)]) =
        Except.ok session ∧
      registrations session.log =
        if registration_ready
            (List.take 3
              [.PROP_SYNC_IDENTIFIER (some "doc"), .PROP_BUFFER (some 2),
                .PROP_SYNC_CONNECTION (some 7), .PROP_CONNECTION_MANAGER (some 1)]) = true
        then [Effect.add_object 7 "doc"] else [] :=
  ⟨(C35_deferred_registration 1 2 7 "doc" _ (by decide)).1,
    (C35_deferred_registration 1 2 7 "doc" _ (by decide)).2 3⟩

/-- C36. For every error `E` of the enumeration `InfSessionSyncError`: a
session that is being synchronized over `c` sends, in
`inf_session_send_sync_error`, the node `sync-error` with the domain and the
code of `E`; a Running session with a record on `c'` that receives this node
emits `synchronization-failed` on `c'` with an error of the same domain and
the same code (and the same message) as `E`, and releases the record. -/
theorem C36_error_round_trip (kind : InfSessionSyncError) (session_class : InfSessionClass)
    (receiver sender : InfSession) (c c' : InfXmlConnection) (total received : Nat)
    (identifier : Option String) (syncs : List InfSessionSync) (sync : InfSessionSync)
    (hreceiver : receiver.status = InfSessionStatus.INF_SESSION_SYNCHRONIZING)
    (hinbound : receiver.shared = InfSessionShared.sync (some c) total received identifier)
    (hsender : sender.status = InfSessionStatus.INF_SESSION_RUNNING)
    (hshared : sender.shared = InfSessionShared.run syncs)
    (hfind : syncs.find? (fun item => item.conn = c') = some sync) :
    inf_session_send_sync_error receiver (inf_session_sync_error kind)
      = Except.ok
          { receiver with
            log := receiver.log ++
              [Effect.send c (sync_error_node (inf_session_sync_error kind))] } ∧
    inf_session_net_object_received session_class sender c'
        (sync_error_node (inf_session_sync_error kind))
      = Except.ok
          { sender with
            shared := InfSessionShared.run (syncs.eraseP (fun item => item.conn = c'))
            objects := sender.objects.filter (fun x => x ≠ c')
            log := sender.log ++
              [Effect.cancel_outer c',
               Effect.emit_synchronization_failed c' (inf_session_sync_error kind)] ++
              release_effects sender.objects c' } ∧
    (inf_session_sync_error kind).domain = inf_session_sync_error_quark ∧
    (inf_session_sync_error kind).code = kind.code := by
  obtain ⟨hname, hdomain, hcode, herror⟩ := sync_error_node_read kind
  refine ⟨?_, ?_, rfl, rfl⟩
  · simp [inf_session_send_sync_error, hreceiver, hinbound, inf_connection_manager_send,
      InfSession.record, sync_error_node]
    rfl
  · rw [received_sync_error_running session_class sender c' _ syncs sync _ _ hsender hshared
      hfind hname hdomain hcode, herror]

/-- C36 at the error NameInUse, from the receiver on connection 7 to a
sender with a record on connection 9. -/
theorem C36_error_round_trip_witness :
    inf_session_send_sync_error (inbound_session 4 2)
        (inf_session_sync_error .NAME_IN_USE)
      = Except.ok
          { inbound_session 4 2 with
            log := (inbound_session 4 2).log ++
              [Effect.send 7 (sync_error_node (inf_session_sync_error .NAME_IN_USE))] } ∧
    inf_session_net_object_received inf_session_class_init
        (outbound_session
          [{ conn := 9, messages_total := 4, messages_sent := 2, end_enqueued := false }]) 9
        (sync_error_node (inf_session_sync_error .NAME_IN_USE))
      = Except.ok
          { outbound_session
              [{ conn := 9, messages_total := 4, messages_sent := 2,
                 end_enqueued := false }] with
            shared := InfSessionShared.run
              ([({ conn := 9, messages_total := 4, messages_sent := 2,
                   end_enqueued := false } : InfSessionSync)].eraseP
                (fun item => item.conn = 9))
            objects := [9].filter (fun x => x ≠ 9)
            log := [] ++
              [Effect.cancel_outer 9,
               Effect.emit_synchronization_failed 9 (inf_session_sync_error .NAME_IN_USE)] ++
              release_effects [9] 9 } ∧
    (inf_session_sync_error .NAME_IN_USE).domain = inf_session_sync_error_quark ∧
    (inf_session_sync_error .NAME_IN_USE).code = InfSessionSyncError.NAME_IN_USE.code :=
  C36_error_round_trip .NAME_IN_USE inf_session_class_init (inbound_session 4 2)
    (outbound_session
      [{ conn := 9, messages_total := 4, messages_sent := 2, end_enqueued := false }])
    7 9 4 2 (some "doc")
    [{ conn := 9, messages_total := 4, messages_sent := 2, end_enqueued := false }]
    { conn := 9, messages_total := 4, messages_sent := 2, end_enqueued := false }
    rfl rfl rfl rfl rfl

/-- C37. In a Running session whose list of outbound records is `syncs`, the
loop of `inf_session_close_impl` ends after exactly `syncs.length` passes:
with that many passes or more allowed it returns, with no record left; with
fewer allowed the list is not yet empty when the bound is reached.  Each pass
removes exactly the record at the head: a run that starts on `sync :: rest`
continues, one pass later, on a Running session whose list is `rest`. -/
theorem C37_close_loop_terminates (session : InfSession) (syncs : List InfSessionSync)
    (hstatus : session.status = InfSessionStatus.INF_SESSION_RUNNING)
    (hshared : session.shared = InfSessionShared.run syncs) :
    (∀ fuel, syncs.length ≤ fuel →
      inf_session_close_impl_while fuel session (inf_session_sync_error .RECEIVER_CANCELLED)
        = Except.ok
            { session with
              shared := InfSessionShared.run []
              objects := close_running_objects session.objects syncs
              log := session.log ++ close_running_effects session.objects syncs }) ∧
    (∀ fuel, fuel < syncs.length →
      inf_session_close_impl_while fuel session (inf_session_sync_error .RECEIVER_CANCELLED)
        = Except.error Fault.loop_bound) ∧
    (∀ (sync : InfSessionSync) (rest : List InfSessionSync) (fuel : Nat),
      syncs = sync :: rest →
      ∃ after : InfSession,
        after.status = InfSessionStatus.INF_SESSION_RUNNING ∧
        after.shared = InfSessionShared.run rest ∧
        inf_session_close_impl_while (fuel + 1) session
            (inf_session_sync_error .RECEIVER_CANCELLED)
          = inf_session_close_impl_while fuel after
              (inf_session_sync_error .RECEIVER_CANCELLED)) ∧
    ∃ after : InfSession,
      inf_session_close session = Except.ok after ∧
      after.status = InfSessionStatus.INF_SESSION_CLOSED ∧
      after.shared = InfSessionShared.run [] := by
  refine ⟨fun fuel h => (close_impl_while_fuel syncs session fuel hstatus hshared).1 h,
    fun fuel h => (close_impl_while_fuel syncs session fuel hstatus hshared).2 h, ?_, ?_⟩
  · intro sync rest fuel hsyncs
    rw [hsyncs] at hshared
    exact ⟨{ session with
        shared := InfSessionShared.run rest
        objects := session.objects.filter (fun c => c ≠ sync.conn)
        log := session.log ++ (cancel_effects sync ++
          release_effects session.objects sync.conn) },
      hstatus, rfl, close_impl_while_pass session sync rest fuel hstatus hshared⟩
  · exact ⟨_, close_running session syncs hstatus hshared, rfl, rfl⟩

/-- C37 at a session with three records, one of them with `sync-end`
enqueued: three passes are enough, two are not. -/
theorem C37_close_loop_terminates_witness :
    inf_session_close_impl_while 3
        (outbound_session
          [{ conn := 7, messages_total := 3, messages_sent := 1, end_enqueued := false },
           { conn := 8, messages_total := 2, messages_sent := 1, end_enqueued := true },
           { conn := 9, messages_total := 5, messages_sent := 0, end_enqueued := false }])
        (inf_session_sync_error .RECEIVER_CANCELLED)
      = Except.ok
          { outbound_session
              [{ conn := 7, messages_total := 3, messages_sent := 1, end_enqueued := false },
               { conn := 8, messages_total := 2, messages_sent := 1, end_enqueued := true },
               { conn := 9, messages_total := 5, messages_sent := 0,
                 end_enqueued := false }] with
            shared := InfSessionShared.run []
            objects := close_running_objects [7, 8, 9]
              [{ conn := 7, messages_total := 3, messages_sent := 1, end_enqueued := false },
               { conn := 8, messages_total := 2, messages_sent := 1, end_enqueued := true },
               { conn := 9, messages_total := 5, messages_sent := 0, end_enqueued := false }]
            log := [] ++ close_running_effects [7, 8, 9]
              [{ conn := 7, messages_total := 3, messages_sent := 1, end_enqueued := false },
               { conn := 8, messages_total := 2, messages_sent := 1, end_enqueued := true },
               { conn := 9, messages_total := 5, messages_sent := 0,
                 end_enqueued := false }] } ∧
    inf_session_close_impl_while 2
        (outbound_session
          [{ conn := 7, messages_total := 3, messages_sent := 1, end_enqueued := false },
           { conn := 8, messages_total := 2, messages_sent := 1, end_enqueued := true },
           { conn := 9, messages_total := 5, messages_sent := 0, end_enqueued := false }])
        (inf_session_sync_error .RECEIVER_CANCELLED)
      = Except.error Fault.loop_bound :=
  ⟨(C37_close_loop_terminates _ _ rfl rfl).1 3 (by decide),
    (C37_close_loop_terminates _ _ rfl rfl).2.1 2 (by decide)⟩

/-- C38. Two nodes with the same tag that agree on the attributes the
handler reads give the same run of `inf_session_net_object_received`, hence
the same session, the same emissions and the same sent messages (all part of
the result): `sync-begin` nodes that agree on `num-messages`, in a
Synchronizing session of any class; `sync-user` nodes that agree on `id` and
`name`, in a Synchronizing session with the default codec; `sync-error` nodes
that agree on `domain` and `code`, in a Running session of any class. -/
theorem C38_unknown_attributes_ignored (session : InfSession) (connection : InfXmlConnection)
    (node node' : xmlNode) :
    (∀ session_class : InfSessionClass,
      session.status = InfSessionStatus.INF_SESSION_SYNCHRONIZING →
      node.name = "sync-begin" → node'.name = "sync-begin" →
      xmlGetProp node "num-messages" = xmlGetProp node' "num-messages" →
      inf_session_net_object_received session_class session connection node =
        inf_session_net_object_received session_class session connection node') ∧
    (∀ (user_new : Option (InfSession → List GParameter → InfUser))
        (process_xml_run :
          Option (InfSessionUserClass → InfSession → InfXmlConnection → xmlNode →
            Except Fault InfSession)),
      session.status = InfSessionStatus.INF_SESSION_SYNCHRONIZING →
      node.name = "sync-user" → node'.name = "sync-user" →
      xmlGetProp node "id" = xmlGetProp node' "id" →
      xmlGetProp node "name" = xmlGetProp node' "name" →
      inf_session_net_object_received (inf_session_derived_class user_new process_xml_run)
          session connection node =
        inf_session_net_object_received (inf_session_derived_class user_new process_xml_run)
          session connection node') ∧
    (∀ session_class : InfSessionClass,
      session.status = InfSessionStatus.INF_SESSION_RUNNING →
      node.name = "sync-error" → node'.name = "sync-error" →
      xmlGetProp node "domain" = xmlGetProp node' "domain" →
      xmlGetProp node "code" = xmlGetProp node' "code" →
      inf_session_net_object_received session_class session connection node =
        inf_session_net_object_received session_class session connection node') := by
  refine ⟨?_, ?_, ?_⟩
  · intro session_class hstatus hname hname' hnum
    simp [inf_session_net_object_received, inf_session_handle_received_sync_message,
      hstatus, hname, hname', hnum]
  · intro user_new process_xml_run hstatus hname hname' hid hattr
    simp [inf_session_net_object_received, inf_session_handle_received_sync_message,
      inf_session_derived_class, inf_session_class_init, inf_session_process_xml_sync_impl,
      hstatus, hname, hname',
      get_xml_user_props_attributes session connection node node' hid hattr]
  · intro session_class hstatus hname hname' hdomain hcode
    simp [inf_session_net_object_received, hstatus, hname, hname', hdomain, hcode]

/-- C38 at a `sync-begin` with the extra attributes `version` and `lang`, and
at a `sync-error` with the extra attribute `detail`. -/
theorem C38_unknown_attributes_ignored_witness :
    inf_session_net_object_received inf_session_class_init (inbound_session 0 0) 7
        { name := "sync-begin", properties := [("num-messages", "3")] } =
      inf_session_net_object_received inf_session_class_init (inbound_session 0 0) 7
        { name := "sync-begin",
          properties := [("version", "2"), ("num-messages", "3"), ("lang", "en")] } ∧
    inf_session_net_object_received inf_session_class_init
        (outbound_session
          [{ conn := 7, messages_total := 3, messages_sent := 1, end_enqueued := false }]) 7
        { name := "sync-error",
          properties := [("domain", "INF_SESSION_SYNC_ERROR"), ("code", "2")] } =
      inf_session_net_object_received inf_session_class_init
        (outbound_session
          [{ conn := 7, messages_total := 3, messages_sent := 1, end_enqueued := false }]) 7
        { name := "sync-error",
          properties :=
            [("detail", "x"), ("domain", "INF_SESSION_SYNC_ERROR"), ("code", "2")] } :=
  ⟨(C38_unknown_attributes_ignored (inbound_session 0 0) 7
      { name := "sync-begin", properties := [("num-messages", "3")] }
      { name := "sync-begin",
        properties := [("version", "2"), ("num-messages", "3"), ("lang", "en")] }).1
      inf_session_class_init rfl rfl rfl rfl,
    (C38_unknown_attributes_ignored
      (outbound_session
        [{ conn := 7, messages_total := 3, messages_sent := 1, end_enqueued := false }]) 7
      { name := "sync-error",
        properties := [("domain", "INF_SESSION_SYNC_ERROR"), ("code", "2")] }
      { name := "sync-error",
        properties :=
          [("detail", "x"), ("domain", "INF_SESSION_SYNC_ERROR"), ("code", "2")] }).2.2
      inf_session_class_init rfl rfl rfl rfl rfl⟩

/-- C39 fails on the code.  `inf_session_dispose` calls `inf_session_close`
whatever the status is, and `inf_session_close_impl` reaches
`g_assert_not_reached()` for a session that is already Closed: disposing
`closed_session` ends in the assertion, and so does disposing a session that
was closed before, by `inf_session_close`, by a transport close or by a
protocol error while it was being synchronized.  A Running or Synchronizing
session passes the close, but its disposal does not complete either: the last
statement of `inf_session_dispose` calls `dispose` through
`G_OBJECT_CLASS(object)`, the instance taken for a class structure.  No
session is disposed to the end. -/
theorem C39_dispose_closed_session :
    inf_session_dispose closed_session = Except.error Fault.assertion_failed ∧
    (inf_session_close (inbound_session 4 2) >>= inf_session_dispose) =
      Except.error Fault.assertion_failed ∧
    (inf_session_connection_notify_status_cb (inbound_session 4 2) 7
        InfXmlConnectionStatus.INF_XML_CONNECTION_CLOSED >>= inf_session_dispose) =
      Except.error Fault.assertion_failed ∧
    (inf_session_close (running_session []) >>= inf_session_dispose) =
      Except.error Fault.assertion_failed ∧
    (deliver inf_session_class_init (inbound_session 0 0) 7 [xmlNewNode "sync-end"] >>=
        inf_session_dispose) =
      Except.error Fault.assertion_failed ∧
    inf_session_dispose (running_session []) = Except.error Fault.invalid_class_cast ∧
    inf_session_dispose (inbound_session 4 2) = Except.error Fault.invalid_class_cast ∧
    ∀ session : InfSession, ∃ fault : Fault,
      inf_session_dispose session = Except.error fault := by
  refine ⟨rfl, rfl, rfl, rfl, rfl, rfl, rfl, ?_⟩
  intro session
  unfold inf_session_dispose
  cases inf_session_close session with
  | error fault => exact ⟨fault, rfl⟩
  | ok closed => exact ⟨Fault.invalid_class_cast, rfl⟩

end Infinity
